import Mathlib

/-!
# GtkToolItem: a shallow embedding of `gtk/gtktoolitem.c`

The tool item under study lives in a `World`: the item's own fields (its
private struct and the widget-base fields the file reads and writes), the other
widgets it points to (proxy menu item, child), the actions it may be bound to,
and a trace of the calls the item makes into the host widget system
(notifications, resize requests, signal emissions, window operations).

Every function of `gtktoolitem.c` that is embedded keeps its C name and takes
the world as its first argument; functions that return `void` return the new
world.
-/

namespace Gtk

/-! ## Host types -/

/-- A `gboolean` is a C `int`. -/
abbrev gboolean := Int

/-- The C constant `TRUE`. -/
def TRUE : gboolean := 1

/-- The C constant `FALSE`. -/
def FALSE : gboolean := 0

/-- A one-bit field read back as a `gboolean`. -/
def bit (b : Bool) : gboolean := if b then TRUE else FALSE

/-- A `gfloat` value, given by the rational number it denotes (`0.5` and `0.0`
are exact). The file only returns constants and passes shell answers through. -/
abbrev gfloat := ℚ

/-- Modelled from the spec: `GtkOrientation` (declared in gtkenums.h):
`orientation() → {horizontal, vertical}`. -/
inductive GtkOrientation where
  | GTK_ORIENTATION_HORIZONTAL
  | GTK_ORIENTATION_VERTICAL
  deriving DecidableEq

/-- Modelled from the spec: `GtkIconSize` (declared in gtkenums.h):
`icon_size() → enum`, with the built-in sizes of the toolkit. -/
inductive GtkIconSize where
  | GTK_ICON_SIZE_INVALID
  | GTK_ICON_SIZE_MENU
  | GTK_ICON_SIZE_SMALL_TOOLBAR
  | GTK_ICON_SIZE_LARGE_TOOLBAR
  | GTK_ICON_SIZE_BUTTON
  | GTK_ICON_SIZE_DND
  | GTK_ICON_SIZE_DIALOG
  deriving DecidableEq

/-- Modelled from the spec: `GtkToolbarStyle` (declared in gtkenums.h):
`style() → {icons, text, both, both-horizontal}`. -/
inductive GtkToolbarStyle where
  | GTK_TOOLBAR_ICONS
  | GTK_TOOLBAR_TEXT
  | GTK_TOOLBAR_BOTH
  | GTK_TOOLBAR_BOTH_HORIZ
  deriving DecidableEq

/-- Modelled from the spec: `GtkReliefStyle` (declared in gtkenums.h):
`relief_style() → {normal, half, none}`. -/
inductive GtkReliefStyle where
  | GTK_RELIEF_NORMAL
  | GTK_RELIEF_HALF
  | GTK_RELIEF_NONE
  deriving DecidableEq

/-- Modelled from the spec: `PangoEllipsizeMode` (declared by Pango):
`ellipsize_mode() → enum`. -/
inductive PangoEllipsizeMode where
  | PANGO_ELLIPSIZE_NONE
  | PANGO_ELLIPSIZE_START
  | PANGO_ELLIPSIZE_MIDDLE
  | PANGO_ELLIPSIZE_END
  deriving DecidableEq

open GtkOrientation GtkIconSize GtkToolbarStyle GtkReliefStyle PangoEllipsizeMode

/-- Modelled from the spec: the tool-shell capability (gtktoolshell.c), given by
what a shell answers to each of the eight queries of section 6. A size group is
a handle. -/
structure GtkToolShell where
  orientation : GtkOrientation
  icon_size : GtkIconSize
  style : GtkToolbarStyle
  relief_style : GtkReliefStyle
  text_alignment : gfloat
  text_orientation : GtkOrientation
  text_size_group : Option Nat
  ellipsize_mode : PangoEllipsizeMode
  deriving DecidableEq

/-- The widget a tool item is placed in: some container that is not a tool
shell, or one that implements the tool-shell interface. -/
inductive ParentWidget where
  | plain
  | tool_shell (shell : GtkToolShell)
  deriving DecidableEq

/-- A `GtkAllocation`: a rectangle. -/
structure GtkAllocation where
  x : Int
  y : Int
  width : Int
  height : Int
  deriving DecidableEq

/-- The input-only `GdkWindow` of a tool item: its geometry and whether it is
shown. -/
structure GdkWindow where
  x : Int
  y : Int
  width : Int
  height : Int
  shown : Bool
  deriving DecidableEq

/-- Another widget on the heap (a proxy menu item, the child of the bin): the
fields of it that the tool item reads or writes. -/
structure GtkWidget where
  is_menu_item : Bool
  sensitive : Bool
  visible : Bool
  allocation : GtkAllocation
  tooltip_text : Option String
  ref_count : Nat
  floating : Bool
  deriving DecidableEq

/-- Modelled from the spec: the action capability of section 6 (gtkaction.c),
given by its observable properties. -/
structure GtkAction where
  visible : Bool
  sensitive : Bool
  tooltip : Option String
  visible_horizontal : Bool
  visible_vertical : Bool
  is_important : Bool
  visible_overflown : Bool
  deriving DecidableEq

/-- A call of the tool item into the host widget system, in the order made. -/
inductive Effect where
  | notify (property_name : String)
  | child_notify (child_property : String)
  | queue_resize
  | emit (signal : String)
  | window_new (x y width height : Int)
  | register_window
  | unregister_window
  | window_destroy
  | window_show
  | window_hide
  | window_raise
  | window_move_resize (x y width height : Int)
  | size_allocate (child : Nat) (allocation : GtkAllocation)
  | set_simple_clip
  | set_tooltip_text (child : Nat) (text : Option String)
  | shell_rebuild_menu
  | do_set_related_action (action : Option Nat)
  | create_menu_item (action : Nat) (menu_item : Nat)
  | ref_sink (object : Nat)
  | unref (object : Nat)
  deriving DecidableEq

/-! ## The tool item -/

/-- The tool item: `struct _GtkToolItemPrivate` (the two unused `tip_` strings
left out) together with the widget-base fields of the same object. Pointers to
other widgets and to actions are heap addresses, `none` is `NULL`. -/
structure GtkToolItem where
  visible_horizontal : Bool
  visible_vertical : Bool
  homogeneous : Bool
  expand : Bool
  use_drag_window : Bool
  is_important : Bool
  use_action_appearance : Bool
  drag_window : Option GdkWindow
  menu_item_id : Option String
  menu_item : Option Nat
  action : Option Nat
  parent : Option ParentWidget
  child : Option Nat
  realized : Bool
  mapped : Bool
  visible : Bool
  sensitive : Bool
  allocation : GtkAllocation
  deriving DecidableEq

/-- The tool item in its surroundings. -/
structure World where
  item : GtkToolItem
  objs : Nat → GtkWidget
  actions : Nat → GtkAction
  next : Nat
  log : List Effect

/-- A `GtkToolItem *` argument as a public function receives it. -/
inductive GtkToolItemPtr where
  | null
  | other (address : Nat)
  | item
  deriving DecidableEq

/-- The type check `GTK_IS_TOOL_ITEM`. -/
def GTK_IS_TOOL_ITEM : GtkToolItemPtr → Bool
  | .item => true
  | _ => false

/-- The heap with the object at `a` replaced. -/
def setObj (objs : Nat → GtkWidget) (a : Nat) (v : GtkWidget) : Nat → GtkWidget :=
  fun b => if b = a then v else objs b

/-- Appends a call to the trace. -/
def World.emit (w : World) (e : Effect) : World :=
  { w with log := w.log ++ [e] }

/-- `gtk_tool_item_init` on zero-filled private data, over the widget base as
`gtk_widget_init` leaves it (sensitive, not visible, no parent, allocation
`(-1, -1, 1, 1)`). The focus flag it clears is not kept. -/
def gtk_tool_item_init : GtkToolItem :=
  { visible_horizontal := true
    visible_vertical := true
    homogeneous := false
    expand := false
    use_drag_window := false
    is_important := false
    use_action_appearance := true
    drag_window := none
    menu_item_id := none
    menu_item := none
    action := none
    parent := none
    child := none
    realized := false
    mapped := false
    visible := false
    sensitive := true
    allocation := ⟨-1, -1, 1, 1⟩ }

/-- `gtk_tool_item_new`: a fresh tool item among the given widgets and actions. -/
def gtk_tool_item_new (objs : Nat → GtkWidget) (actions : Nat → GtkAction) (next : Nat) : World :=
  { item := gtk_tool_item_init, objs := objs, actions := actions, next := next, log := [] }

/-! ## Widget-base calls -/

/-- The parent lookup `gtk_widget_get_parent` on the tool item. -/
def gtk_widget_get_parent (w : World) : Option ParentWidget := w.item.parent

/-- The interface check `GTK_IS_TOOL_SHELL`. -/
def GTK_IS_TOOL_SHELL : Option ParentWidget → Bool
  | some (.tool_shell _) => true
  | _ => false

/-! ## Shell queries -/

/-- `gtk_tool_item_get_ellipsize_mode`. -/
def gtk_tool_item_get_ellipsize_mode (w : World) (tool_item : GtkToolItemPtr) :
    PangoEllipsizeMode :=
  if !GTK_IS_TOOL_ITEM tool_item then PANGO_ELLIPSIZE_NONE
  else
    match gtk_widget_get_parent w with
    | some (.tool_shell shell) => shell.ellipsize_mode
    | _ => PANGO_ELLIPSIZE_NONE

/-- `gtk_tool_item_get_icon_size`. -/
def gtk_tool_item_get_icon_size (w : World) (tool_item : GtkToolItemPtr) : GtkIconSize :=
  if !GTK_IS_TOOL_ITEM tool_item then GTK_ICON_SIZE_LARGE_TOOLBAR
  else
    match gtk_widget_get_parent w with
    | some (.tool_shell shell) => shell.icon_size
    | _ => GTK_ICON_SIZE_LARGE_TOOLBAR

/-- `gtk_tool_item_get_orientation`. -/
def gtk_tool_item_get_orientation (w : World) (tool_item : GtkToolItemPtr) : GtkOrientation :=
  if !GTK_IS_TOOL_ITEM tool_item then GTK_ORIENTATION_HORIZONTAL
  else
    match gtk_widget_get_parent w with
    | some (.tool_shell shell) => shell.orientation
    | _ => GTK_ORIENTATION_HORIZONTAL

/-- `gtk_tool_item_get_toolbar_style`. -/
def gtk_tool_item_get_toolbar_style (w : World) (tool_item : GtkToolItemPtr) : GtkToolbarStyle :=
  if !GTK_IS_TOOL_ITEM tool_item then GTK_TOOLBAR_ICONS
  else
    match gtk_widget_get_parent w with
    | some (.tool_shell shell) => shell.style
    | _ => GTK_TOOLBAR_ICONS

/-- `gtk_tool_item_get_relief_style`. -/
def gtk_tool_item_get_relief_style (w : World) (tool_item : GtkToolItemPtr) : GtkReliefStyle :=
  if !GTK_IS_TOOL_ITEM tool_item then GTK_RELIEF_NONE
  else
    match gtk_widget_get_parent w with
    | some (.tool_shell shell) => shell.relief_style
    | _ => GTK_RELIEF_NONE

/-- `gtk_tool_item_get_text_alignment`. The value returned when the receiver
check fails is the enum constant `GTK_ORIENTATION_HORIZONTAL`, which is `0`,
converted to `gfloat`. -/
def gtk_tool_item_get_text_alignment (w : World) (tool_item : GtkToolItemPtr) : gfloat :=
  if !GTK_IS_TOOL_ITEM tool_item then 0
  else
    match gtk_widget_get_parent w with
    | some (.tool_shell shell) => shell.text_alignment
    | _ => 0.5

/-- `gtk_tool_item_get_text_orientation`. -/
def gtk_tool_item_get_text_orientation (w : World) (tool_item : GtkToolItemPtr) :
    GtkOrientation :=
  if !GTK_IS_TOOL_ITEM tool_item then GTK_ORIENTATION_HORIZONTAL
  else
    match gtk_widget_get_parent w with
    | some (.tool_shell shell) => shell.text_orientation
    | _ => GTK_ORIENTATION_HORIZONTAL

/-- `gtk_tool_item_get_text_size_group`. -/
def gtk_tool_item_get_text_size_group (w : World) (tool_item : GtkToolItemPtr) : Option Nat :=
  if !GTK_IS_TOOL_ITEM tool_item then none
  else
    match gtk_widget_get_parent w with
    | some (.tool_shell shell) => shell.text_size_group
    | _ => none

/-! ## Calls into the host widget system -/

/-- Modelled from the spec: `gtk_widget_get_sensitive` (gtkwidget.c) on the tool
item: its own `sensitive` flag. -/
def gtk_widget_get_sensitive (w : World) : Bool := w.item.sensitive

/-- Modelled from the spec: `gtk_widget_get_realized` (gtkwidget.c) on the tool
item. -/
def gtk_widget_get_realized (w : World) : Bool := w.item.realized

/-- Modelled from the spec: `gtk_widget_get_mapped` (gtkwidget.c) on the tool
item. -/
def gtk_widget_get_mapped (w : World) : Bool := w.item.mapped

/-- Modelled from the spec: `gtk_widget_get_allocation` (gtkwidget.c) on the tool
item (allocation tracking). -/
def gtk_widget_get_allocation (w : World) : GtkAllocation := w.item.allocation

/-- Modelled from the spec: `gtk_widget_set_allocation` (gtkwidget.c) on the tool
item (allocation tracking): stores the rectangle. -/
def gtk_widget_set_allocation (w : World) (allocation : GtkAllocation) : World :=
  { w with item := { w.item with allocation := allocation } }

/-- Modelled from the spec: `gtk_bin_get_child` (gtkbin.c), the single-child
container accessor. -/
def gtk_bin_get_child (w : World) : Option Nat := w.item.child

/-- Modelled from the spec: `gtk_widget_get_visible` (gtkwidget.c) on another
widget. -/
def gtk_widget_get_visible (w : World) (widget : Nat) : Bool := (w.objs widget).visible

/-- Modelled from the spec: `gtk_widget_set_sensitive` (gtkwidget.c) on another
widget (the proxy menu item): stores the flag on that widget. -/
def gtk_widget_set_sensitive (w : World) (widget : Nat) (sensitive : Bool) : World :=
  { w with objs := setObj w.objs widget { w.objs widget with sensitive := sensitive } }

/-- Modelled from the spec: `gtk_widget_size_allocate` (gtkwidget.c) on the
child: the call is recorded and the child holds the rectangle it was given. -/
def gtk_widget_size_allocate (w : World) (child : Nat) (allocation : GtkAllocation) : World :=
  { w with
    objs := setObj w.objs child { w.objs child with allocation := allocation }
    log := w.log ++ [Effect.size_allocate child allocation] }

/-- Modelled from the spec: `gtk_widget_set_tooltip_text` (gtkwidget.c) on the
child. -/
def gtk_widget_set_tooltip_text (w : World) (child : Nat) (text : Option String) : World :=
  { w with
    objs := setObj w.objs child { w.objs child with tooltip_text := text }
    log := w.log ++ [Effect.set_tooltip_text child text] }

/-- Modelled from the spec: `gtk_widget_queue_resize` (gtkwidget.c): a re-layout
request, recorded. -/
def gtk_widget_queue_resize (w : World) : World := w.emit Effect.queue_resize

/-- Modelled from the spec: `gtk_widget_child_notify` (gtkwidget.c): a
child-property notification, recorded. -/
def gtk_widget_child_notify (w : World) (child_property : String) : World :=
  w.emit (Effect.child_notify child_property)

/-- Modelled from the spec: `_gtk_widget_set_simple_clip` (gtkwidget.c),
recorded. -/
def _gtk_widget_set_simple_clip (w : World) : World := w.emit Effect.set_simple_clip

/-- Modelled from the spec: `g_object_ref_sink` (GObject): a floating reference
is taken over, otherwise the count goes up by one. -/
def g_object_ref_sink (w : World) (object : Nat) : World :=
  { w with
    objs := setObj w.objs object
      (if (w.objs object).floating then { w.objs object with floating := false }
       else { w.objs object with ref_count := (w.objs object).ref_count + 1 })
    log := w.log ++ [Effect.ref_sink object] }

/-- Modelled from the spec: `g_object_unref` (GObject): the count goes down by
one. -/
def g_object_unref (w : World) (object : Nat) : World :=
  { w with
    objs := setObj w.objs object { w.objs object with ref_count := (w.objs object).ref_count - 1 }
    log := w.log ++ [Effect.unref object] }

/-- The type check `GTK_IS_MENU_ITEM` on a non-null widget pointer. -/
def GTK_IS_MENU_ITEM (w : World) (widget : Nat) : Bool := (w.objs widget).is_menu_item

/-- Modelled from the spec: `gtk_action_create_menu_item` (gtkaction.c), the
`create_menu_item() → MenuItem` factory: a new menu item at a fresh address,
with a floating reference, taking its sensitivity and visibility from the
action. Returns the world and the new menu item. -/
def gtk_action_create_menu_item (w : World) (action : Nat) : World × Nat :=
  ({ w with
     objs := setObj w.objs w.next
       { is_menu_item := true
         sensitive := (w.actions action).sensitive
         visible := (w.actions action).visible
         allocation := ⟨-1, -1, 1, 1⟩
         tooltip_text := none
         ref_count := 1
         floating := true }
     next := w.next + 1
     log := w.log ++ [Effect.create_menu_item action w.next] }, w.next)

/-! ### The drag window in the window system -/

/-- Modelled from the spec: `gdk_window_new` (gdkwindow.c) for the input-only
child window: created at the given geometry, not shown. -/
def gdk_window_new (x y width height : Int) : GdkWindow :=
  { x := x, y := y, width := width, height := height, shown := false }

/-- Modelled from the spec: `gdk_window_show` (gdkwindow.c) on the drag window. -/
def gdk_window_show (w : World) : World :=
  { w with
    item := { w.item with drag_window := w.item.drag_window.map fun d => { d with shown := true } }
    log := w.log ++ [Effect.window_show] }

/-- Modelled from the spec: `gdk_window_hide` (gdkwindow.c) on the drag window. -/
def gdk_window_hide (w : World) : World :=
  { w with
    item := { w.item with drag_window := w.item.drag_window.map fun d => { d with shown := false } }
    log := w.log ++ [Effect.window_hide] }

/-- Modelled from the spec: `gdk_window_raise` (gdkwindow.c) on the drag window:
raised to the top of its sibling z-order, recorded. -/
def gdk_window_raise (w : World) : World := w.emit Effect.window_raise

/-- Modelled from the spec: `gdk_window_move_resize` (gdkwindow.c) on the drag
window: the window takes the geometry it is given, and the call is recorded. -/
def gdk_window_move_resize (w : World) (x y width height : Int) : World :=
  { w with
    item := { w.item with
      drag_window := w.item.drag_window.map fun d =>
        { d with x := x, y := y, width := width, height := height } }
    log := w.log ++ [Effect.window_move_resize x y width height] }

/-! ## Property notification -/

/-- `gtk_tool_item_property_notify`, the class handler for property-change
notifications, with the name of the changed property. The parent class handler
it chains to, when there is one, is outside this file and writes none of the
fields kept here. -/
def gtk_tool_item_property_notify (w : World) (pspec_name : String) : World :=
  match w.item.menu_item with
  | some menu_item =>
    if pspec_name = "sensitive" then
      gtk_widget_set_sensitive w menu_item (gtk_widget_get_sensitive w)
    else w
  | none => w

/-- Modelled from the spec: `g_object_notify` (GObject) on the tool item: the
notification is emitted (recorded) and the class handler runs. -/
def g_object_notify (w : World) (property_name : String) : World :=
  gtk_tool_item_property_notify (w.emit (Effect.notify property_name)) property_name

/-- Modelled from the spec: `gtk_widget_set_sensitive` (gtkwidget.c) on the tool
item itself: when the flag changes it is stored and the `sensitive` property
notification is delivered. -/
def gtk_widget_set_sensitive_item (w : World) (sensitive : Bool) : World :=
  if w.item.sensitive = sensitive then w
  else g_object_notify { w with item := { w.item with sensitive := sensitive } } "sensitive"

/-- Modelled from the spec: `g_signal_emit` (GObject) of a signal of the tool
item that has no class handler to run here, recorded. -/
def g_signal_emit (w : World) (signal : String) : World := w.emit (Effect.emit signal)

/-! ## Drag window and widget lifecycle -/

/-- `create_drag_window`: the new window takes the widget's allocation as its
geometry and is registered with the widget. Its event mask is not kept. -/
def create_drag_window (w : World) : World :=
  if w.item.use_drag_window != true then w
  else
    let allocation := gtk_widget_get_allocation w
    let w := { w with
      item := { w.item with
        drag_window := some (gdk_window_new allocation.x allocation.y
          allocation.width allocation.height) }
      log := w.log ++ [Effect.window_new allocation.x allocation.y
        allocation.width allocation.height] }
    w.emit Effect.register_window

/-- `gtk_tool_item_realize`. The widget's own window, which is its parent's, is
not kept. -/
def gtk_tool_item_realize (w : World) : World :=
  let w := { w with item := { w.item with realized := true } }
  if w.item.use_drag_window then create_drag_window w else w

/-- `destroy_drag_window`. -/
def destroy_drag_window (w : World) : World :=
  match w.item.drag_window with
  | some _ =>
    let w := w.emit Effect.unregister_window
    let w := w.emit Effect.window_destroy
    { w with item := { w.item with drag_window := none } }
  | none => w

/-- `gtk_tool_item_unrealize`; the parent class handler it chains to marks the
widget unrealized. -/
def gtk_tool_item_unrealize (w : World) : World :=
  let w := destroy_drag_window w
  { w with item := { w.item with realized := false } }

/-- `gtk_tool_item_map`; the parent class handler it chains to marks the widget
mapped. -/
def gtk_tool_item_map (w : World) : World :=
  let w := { w with item := { w.item with mapped := true } }
  match w.item.drag_window with
  | some _ => gdk_window_show w
  | none => w

/-- `gtk_tool_item_unmap`; the parent class handler it chains to marks the
widget unmapped. -/
def gtk_tool_item_unmap (w : World) : World :=
  let w := match w.item.drag_window with
    | some _ => gdk_window_hide w
    | none => w
  { w with item := { w.item with mapped := false } }

/-- `gtk_tool_item_size_allocate`. -/
def gtk_tool_item_size_allocate (w : World) (allocation : GtkAllocation) : World :=
  let w := gtk_widget_set_allocation w allocation
  let w := match w.item.drag_window with
    | some _ =>
      gdk_window_move_resize w allocation.x allocation.y allocation.width allocation.height
    | none => w
  let w := match gtk_bin_get_child w with
    | some child =>
      if gtk_widget_get_visible w child then
        gtk_widget_size_allocate w child
          { x := allocation.x, y := allocation.y
            width := allocation.width, height := allocation.height }
      else w
    | none => w
  _gtk_widget_set_simple_clip w

/-! ## Overflow-menu proxy protocol -/

/-- `gtk_tool_item_set_proxy_menu_item`. -/
def gtk_tool_item_set_proxy_menu_item (w : World) (tool_item : GtkToolItemPtr)
    (menu_item_id : Option String) (menu_item : Option Nat) : World :=
  if !GTK_IS_TOOL_ITEM tool_item then w
  else if !(match menu_item with
            | none => true
            | some m => GTK_IS_MENU_ITEM w m) then w
  else
    match menu_item_id with
    | none => w
    | some id =>
      let w := { w with item := { w.item with menu_item_id := some id } }
      if w.item.menu_item != menu_item then
        let w := match w.item.menu_item with
          | some old => g_object_unref w old
          | none => w
        let w := match menu_item with
          | some m => gtk_widget_set_sensitive (g_object_ref_sink w m) m (gtk_widget_get_sensitive w)
          | none => w
        { w with item := { w.item with menu_item := menu_item } }
      else w

/-- `gtk_tool_item_get_proxy_menu_item`. -/
def gtk_tool_item_get_proxy_menu_item (w : World) (tool_item : GtkToolItemPtr)
    (menu_item_id : Option String) : Option Nat :=
  if !GTK_IS_TOOL_ITEM tool_item then none
  else
    match menu_item_id with
    | none => none
    | some id =>
      match w.item.menu_item_id with
      | some stored => if stored = id then w.item.menu_item else none
      | none => none

/-- `_gtk_tool_item_create_menu_proxy`, the default handler of
`create-menu-proxy`. Returns the world and the handler's return value. -/
def _gtk_tool_item_create_menu_proxy (w : World) : World × gboolean :=
  match w.item.action with
  | some action =>
    let visible_overflown := (w.actions action).visible_overflown
    if visible_overflown then
      let created := gtk_action_create_menu_item w action
      let menu_item := created.2
      let w := g_object_ref_sink created.1 menu_item
      let w := gtk_tool_item_set_proxy_menu_item w GtkToolItemPtr.item
        (some "gtk-action-menu-item") (some menu_item)
      let w := g_object_unref w menu_item
      (w, TRUE)
    else
      (gtk_tool_item_set_proxy_menu_item w GtkToolItemPtr.item
        (some "gtk-action-menu-item") none, TRUE)
  | none => (w, FALSE)

/-- Modelled from the spec: the emission of `create-menu-proxy` (GObject signal
machinery, run-last with the boolean-handled accumulator): the connected
handlers run in order, the first to return true stops the emission, and the
class handler runs last if none did. -/
def emit_create_menu_proxy (handlers : List (World → World × gboolean)) (w : World) :
    World × gboolean :=
  match handlers with
  | [] => _gtk_tool_item_create_menu_proxy w
  | h :: rest =>
    if (h w).2 != FALSE then ((h w).1, TRUE)
    else emit_create_menu_proxy rest (h w).1

/-- `gtk_tool_item_retrieve_proxy_menu_item`, with the handlers connected to
`create-menu-proxy`. Returns the world after the emission and the proxy. -/
def gtk_tool_item_retrieve_proxy_menu_item (handlers : List (World → World × gboolean))
    (w : World) (tool_item : GtkToolItemPtr) : World × Option Nat :=
  if !GTK_IS_TOOL_ITEM tool_item then (w, none)
  else
    let emitted := emit_create_menu_proxy handlers (w.emit (Effect.emit "create-menu-proxy"))
    (emitted.1, emitted.1.item.menu_item)

/-- Modelled from the spec: `gtk_tool_shell_rebuild_menu` (gtktoolshell.c): the
shell is told its overflow cache is stale, recorded. -/
def gtk_tool_shell_rebuild_menu (w : World) : World := w.emit Effect.shell_rebuild_menu

/-- `gtk_tool_item_rebuild_menu`. -/
def gtk_tool_item_rebuild_menu (w : World) (tool_item : GtkToolItemPtr) : World :=
  if !GTK_IS_TOOL_ITEM tool_item then w
  else if GTK_IS_TOOL_SHELL (gtk_widget_get_parent w) then gtk_tool_shell_rebuild_menu w
  else w

/-- `gtk_tool_item_toolbar_reconfigured`. -/
def gtk_tool_item_toolbar_reconfigured (w : World) (tool_item : GtkToolItemPtr) : World :=
  if !GTK_IS_TOOL_ITEM tool_item then w
  else
    let w := g_signal_emit w "toolbar-reconfigured"
    let w := match w.item.drag_window with
      | some _ => gdk_window_raise w
      | none => w
    gtk_widget_queue_resize w

/-! ## Flags -/

/-- `gtk_tool_item_set_expand`. -/
def gtk_tool_item_set_expand (w : World) (tool_item : GtkToolItemPtr) (expand : gboolean) :
    World :=
  if !GTK_IS_TOOL_ITEM tool_item then w
  else
    let expand : Bool := expand != FALSE
    if w.item.expand != expand then
      let w := { w with item := { w.item with expand := expand } }
      let w := gtk_widget_child_notify w "expand"
      gtk_widget_queue_resize w
    else w

/-- `gtk_tool_item_get_expand`. -/
def gtk_tool_item_get_expand (w : World) (tool_item : GtkToolItemPtr) : gboolean :=
  if !GTK_IS_TOOL_ITEM tool_item then FALSE else bit w.item.expand

/-- `gtk_tool_item_set_homogeneous`. -/
def gtk_tool_item_set_homogeneous (w : World) (tool_item : GtkToolItemPtr)
    (homogeneous : gboolean) : World :=
  if !GTK_IS_TOOL_ITEM tool_item then w
  else
    let homogeneous : Bool := homogeneous != FALSE
    if w.item.homogeneous != homogeneous then
      let w := { w with item := { w.item with homogeneous := homogeneous } }
      let w := gtk_widget_child_notify w "homogeneous"
      gtk_widget_queue_resize w
    else w

/-- `gtk_tool_item_get_homogeneous`. -/
def gtk_tool_item_get_homogeneous (w : World) (tool_item : GtkToolItemPtr) : gboolean :=
  if !GTK_IS_TOOL_ITEM tool_item then FALSE else bit w.item.homogeneous

/-- `gtk_tool_item_get_is_important`. -/
def gtk_tool_item_get_is_important (w : World) (tool_item : GtkToolItemPtr) : gboolean :=
  if !GTK_IS_TOOL_ITEM tool_item then FALSE else bit w.item.is_important

/-- `gtk_tool_item_set_is_important`. -/
def gtk_tool_item_set_is_important (w : World) (tool_item : GtkToolItemPtr)
    (is_important : gboolean) : World :=
  if !GTK_IS_TOOL_ITEM tool_item then w
  else
    let is_important : Bool := is_important != FALSE
    if is_important != w.item.is_important then
      let w := { w with item := { w.item with is_important := is_important } }
      let w := gtk_widget_queue_resize w
      g_object_notify w "is-important"
    else w

/-- `gtk_tool_item_set_tooltip_text`. -/
def gtk_tool_item_set_tooltip_text (w : World) (tool_item : GtkToolItemPtr)
    (text : Option String) : World :=
  if !GTK_IS_TOOL_ITEM tool_item then w
  else
    match gtk_bin_get_child w with
    | some child => gtk_widget_set_tooltip_text w child text
    | none => w

/-- `gtk_tool_item_set_use_drag_window`. -/
def gtk_tool_item_set_use_drag_window (w : World) (toolitem : GtkToolItemPtr)
    (use_drag_window : gboolean) : World :=
  if !GTK_IS_TOOL_ITEM toolitem then w
  else
    let use_drag_window : Bool := use_drag_window != FALSE
    if w.item.use_drag_window != use_drag_window then
      let w := { w with item := { w.item with use_drag_window := use_drag_window } }
      if use_drag_window then
        if w.item.drag_window.isNone && gtk_widget_get_realized w then
          let w := create_drag_window w
          if gtk_widget_get_mapped w then gdk_window_show w else w
        else w
      else destroy_drag_window w
    else w

/-- `gtk_tool_item_get_use_drag_window`. -/
def gtk_tool_item_get_use_drag_window (w : World) (toolitem : GtkToolItemPtr) : gboolean :=
  if !GTK_IS_TOOL_ITEM toolitem then FALSE else bit w.item.use_drag_window

/-- `gtk_tool_item_set_visible_horizontal`. -/
def gtk_tool_item_set_visible_horizontal (w : World) (toolitem : GtkToolItemPtr)
    (visible_horizontal : gboolean) : World :=
  if !GTK_IS_TOOL_ITEM toolitem then w
  else
    let visible_horizontal : Bool := visible_horizontal != FALSE
    if w.item.visible_horizontal != visible_horizontal then
      let w := { w with item := { w.item with visible_horizontal := visible_horizontal } }
      let w := g_object_notify w "visible-horizontal"
      gtk_widget_queue_resize w
    else w

/-- `gtk_tool_item_get_visible_horizontal`. -/
def gtk_tool_item_get_visible_horizontal (w : World) (toolitem : GtkToolItemPtr) : gboolean :=
  if !GTK_IS_TOOL_ITEM toolitem then FALSE else bit w.item.visible_horizontal

/-- `gtk_tool_item_set_visible_vertical`. -/
def gtk_tool_item_set_visible_vertical (w : World) (toolitem : GtkToolItemPtr)
    (visible_vertical : gboolean) : World :=
  if !GTK_IS_TOOL_ITEM toolitem then w
  else
    let visible_vertical : Bool := visible_vertical != FALSE
    if w.item.visible_vertical != visible_vertical then
      let w := { w with item := { w.item with visible_vertical := visible_vertical } }
      let w := g_object_notify w "visible-vertical"
      gtk_widget_queue_resize w
    else w

/-- `gtk_tool_item_get_visible_vertical`. -/
def gtk_tool_item_get_visible_vertical (w : World) (toolitem : GtkToolItemPtr) : gboolean :=
  if !GTK_IS_TOOL_ITEM toolitem then FALSE else bit w.item.visible_vertical

/-! ## Parent change -/

/-- `gtk_tool_item_parent_set`, the hook run after the widget's parent changed;
the previous parent it is given is not looked at. -/
def gtk_tool_item_parent_set (w : World) (_prev_parent : Option ParentWidget) : World :=
  if (gtk_widget_get_parent w).isSome then
    gtk_tool_item_toolbar_reconfigured w GtkToolItemPtr.item
  else w

/-! ## Action binding -/

/-- Modelled from the spec: `gtk_action_is_visible` (gtkaction.c): the action's
observable property `visible`. -/
def gtk_action_is_visible (w : World) (action : Nat) : Bool := (w.actions action).visible

/-- Modelled from the spec: `gtk_action_is_sensitive` (gtkaction.c): the action's
observable property `sensitive`. -/
def gtk_action_is_sensitive (w : World) (action : Nat) : Bool := (w.actions action).sensitive

/-- Modelled from the spec: `gtk_action_get_tooltip` (gtkaction.c): the action's
observable property `tooltip`. -/
def gtk_action_get_tooltip (w : World) (action : Nat) : Option String :=
  (w.actions action).tooltip

/-- Modelled from the spec: `gtk_action_get_visible_horizontal` (gtkaction.c):
the action's observable property `visible-horizontal`. -/
def gtk_action_get_visible_horizontal (w : World) (action : Nat) : gboolean :=
  bit (w.actions action).visible_horizontal

/-- Modelled from the spec: `gtk_action_get_visible_vertical` (gtkaction.c): the
action's observable property `visible-vertical`. -/
def gtk_action_get_visible_vertical (w : World) (action : Nat) : gboolean :=
  bit (w.actions action).visible_vertical

/-- Modelled from the spec: `gtk_action_get_is_important` (gtkaction.c): the
action's observable property `is-important`. -/
def gtk_action_get_is_important (w : World) (action : Nat) : gboolean :=
  bit (w.actions action).is_important

/-- Modelled from the spec: `gtk_widget_show` (gtkwidget.c) on the tool item
(`visible → show/hide`): when the item is not visible the flag is stored and the
`visible` property notification is delivered. -/
def gtk_widget_show (w : World) : World :=
  if w.item.visible then w
  else g_object_notify { w with item := { w.item with visible := true } } "visible"

/-- Modelled from the spec: `gtk_widget_hide` (gtkwidget.c) on the tool item
(`visible → show/hide`): when the item is visible the flag is cleared and the
`visible` property notification is delivered. -/
def gtk_widget_hide (w : World) : World :=
  if w.item.visible then
    g_object_notify { w with item := { w.item with visible := false } } "visible"
  else w

/-- `gtk_tool_item_update`, with a non-null action. -/
def gtk_tool_item_update (w : World) (action : Nat) (property_name : String) : World :=
  if property_name = "visible" then
    if gtk_action_is_visible w action then gtk_widget_show w else gtk_widget_hide w
  else if property_name = "sensitive" then
    gtk_widget_set_sensitive_item w (gtk_action_is_sensitive w action)
  else if property_name = "tooltip" then
    gtk_tool_item_set_tooltip_text w GtkToolItemPtr.item (gtk_action_get_tooltip w action)
  else if property_name = "visible-horizontal" then
    gtk_tool_item_set_visible_horizontal w GtkToolItemPtr.item
      (gtk_action_get_visible_horizontal w action)
  else if property_name = "visible-vertical" then
    gtk_tool_item_set_visible_vertical w GtkToolItemPtr.item
      (gtk_action_get_visible_vertical w action)
  else if property_name = "is-important" then
    gtk_tool_item_set_is_important w GtkToolItemPtr.item (gtk_action_get_is_important w action)
  else w

/-- `gtk_tool_item_sync_action_properties`. -/
def gtk_tool_item_sync_action_properties (w : World) (action : Option Nat) : World :=
  match action with
  | none => w
  | some action =>
    let w := if gtk_action_is_visible w action then gtk_widget_show w else gtk_widget_hide w
    let w := gtk_widget_set_sensitive_item w (gtk_action_is_sensitive w action)
    let w := gtk_tool_item_set_tooltip_text w GtkToolItemPtr.item
      (gtk_action_get_tooltip w action)
    let w := gtk_tool_item_set_visible_horizontal w GtkToolItemPtr.item
      (gtk_action_get_visible_horizontal w action)
    let w := gtk_tool_item_set_visible_vertical w GtkToolItemPtr.item
      (gtk_action_get_visible_vertical w action)
    gtk_tool_item_set_is_important w GtkToolItemPtr.item (gtk_action_get_is_important w action)

/-- Modelled from the spec: `gtk_activatable_do_set_related_action`
(gtkactivatable.c), the generic activatable binder: the call is recorded
(listeners attached) and the sync is invoked with the new action. -/
def gtk_activatable_do_set_related_action (w : World) (action : Option Nat) : World :=
  gtk_tool_item_sync_action_properties (w.emit (Effect.do_set_related_action action)) action

/-- `gtk_tool_item_set_related_action`. -/
def gtk_tool_item_set_related_action (w : World) (action : Option Nat) : World :=
  if w.item.action = action then w
  else
    let w := gtk_activatable_do_set_related_action w action
    let w := { w with item := { w.item with action := action } }
    match action with
    | some _ => gtk_tool_item_rebuild_menu w GtkToolItemPtr.item
    | none => w

/-- The tooltip text shown for the tool item: the item keeps none of its own,
the tooltip setter hands the text to the child of the bin, so it is the child's
text when there is a child. -/
def tool_item_tooltip_text (w : World) : Option String :=
  match gtk_bin_get_child w with
  | some child => (w.objs child).tooltip_text
  | none => none

/-! ## Lifecycle events -/

/-- The operations that act on the drag window of a tool item. -/
inductive Event where
  | realize
  | unrealize
  | map
  | unmap
  | size_allocate (allocation : GtkAllocation)
  | toolbar_reconfigured
  | set_use_drag_window (use_drag_window : gboolean)

/-- Runs one operation on the tool item. -/
def step (w : World) : Event → World
  | .realize => gtk_tool_item_realize w
  | .unrealize => gtk_tool_item_unrealize w
  | .map => gtk_tool_item_map w
  | .unmap => gtk_tool_item_unmap w
  | .size_allocate allocation => gtk_tool_item_size_allocate w allocation
  | .toolbar_reconfigured => gtk_tool_item_toolbar_reconfigured w GtkToolItemPtr.item
  | .set_use_drag_window v => gtk_tool_item_set_use_drag_window w GtkToolItemPtr.item v

/-- An operation the widget system may run in this state: realize only when the
widget is not realized, the others at any time. -/
def Event.allowed (w : World) : Event → Bool
  | .realize => !w.item.realized
  | _ => true

/-- Runs a sequence of operations, stopping with `none` at one that is not
allowed. -/
def run (w : World) : List Event → Option World
  | [] => some w
  | e :: es => if e.allowed w then run (step w e) es else none

/-- The states a newly created tool item can get to. -/
def Reachable (w : World) : Prop :=
  ∃ objs actions next events, run (gtk_tool_item_new objs actions next) events = some w

/-- A well-formed lifecycle operation: realize only when not realized, map only
when realized and not mapped, unmap only when mapped, unrealize only when not
mapped; the others at any time. -/
def Event.wellFormed (w : World) : Event → Bool
  | .realize => !w.item.realized
  | .map => w.item.realized && !w.item.mapped
  | .unmap => w.item.mapped
  | .unrealize => !w.item.mapped
  | _ => true

/-- Runs a sequence of operations, stopping with `none` at one that is not
well-formed. -/
def runWellFormed (w : World) : List Event → Option World
  | [] => some w
  | e :: es => if e.wellFormed w then runWellFormed (step w e) es else none

/-- The states a newly created tool item can get to by well-formed lifecycle
operations. -/
def LifecycleReachable (w : World) : Prop :=
  ∃ objs actions next events,
    runWellFormed (gtk_tool_item_new objs actions next) events = some w

/-! ## Proxy operations and reference accounting -/

/-- The operations that act on the proxy menu item of a tool item: a
`set_proxy_menu_item` call with any arguments, a run of the default
`create-menu-proxy` handler, and a change of the bound action (which gives the
handler something to do). -/
inductive ProxyEvent where
  | set_proxy (menu_item_id : Option String) (menu_item : Option Nat)
  | create_menu_proxy
  | set_related_action (action : Option Nat)

/-- Runs one proxy operation on the tool item. -/
def proxyStep (w : World) : ProxyEvent → World
  | .set_proxy menu_item_id menu_item =>
    gtk_tool_item_set_proxy_menu_item w GtkToolItemPtr.item menu_item_id menu_item
  | .create_menu_proxy => (_gtk_tool_item_create_menu_proxy w).1
  | .set_related_action action => gtk_tool_item_set_related_action w action

/-- Runs a sequence of proxy operations. -/
def proxyRun (w : World) : List ProxyEvent → World
  | [] => w
  | e :: es => proxyRun (proxyStep w e) es

/-- The states a newly created tool item can get to by proxy operations. -/
def ProxyReachable (w : World) : Prop :=
  ∃ objs actions next events, proxyRun (gtk_tool_item_new objs actions next) events = w

/-- The references on the object at `a` that the code of the tool item has taken
so far (`g_object_ref_sink` calls). -/
def refsTaken (w : World) (a : Nat) : Nat := w.log.count (Effect.ref_sink a)

/-- The references on the object at `a` that the code of the tool item has
released so far (`g_object_unref` calls). -/
def refsReleased (w : World) (a : Nat) : Nat := w.log.count (Effect.unref a)

/-- The calls the sync of action properties can make: property notifications,
resize requests and tooltip calls on the child. -/
def Effect.isSyncCall : Effect → Bool
  | .notify _ => true
  | .queue_resize => true
  | .set_tooltip_text _ _ => true
  | _ => false

/-- The later world `w'` was reached from `w` by calls that all satisfy `p`. -/
def onlyCalls (p : Effect → Bool) (w w' : World) : Prop :=
  ∃ l : List Effect, w'.log = w.log ++ l ∧ l.all p = true

/-- The calls the sync of action properties can make on an item without child:
property notifications and resize requests. -/
def Effect.isNotifyOrResize : Effect → Bool
  | .notify _ => true
  | .queue_resize => true
  | _ => false

/-! ## Property setters with handlers connected to the notification -/

/-- Modelled from the spec: `g_object_notify` (GObject) on the tool item when
handlers are connected to the property notification: the notification is emitted
(recorded) and the class handler runs, as in `g_object_notify`, and then the
connected handlers run, given as the one function `observer` they compose to.
Observers see the item as it is at that moment. -/
def g_object_notify_observed (observer : World → World) (w : World)
    (property_name : String) : World :=
  observer (g_object_notify w property_name)

/-- `gtk_tool_item_set_visible_horizontal` with handlers connected to the
notification. -/
def gtk_tool_item_set_visible_horizontal_observed (observer : World → World) (w : World)
    (toolitem : GtkToolItemPtr) (visible_horizontal : gboolean) : World :=
  if !GTK_IS_TOOL_ITEM toolitem then w
  else
    let visible_horizontal : Bool := visible_horizontal != FALSE
    if w.item.visible_horizontal != visible_horizontal then
      let w := { w with item := { w.item with visible_horizontal := visible_horizontal } }
      let w := g_object_notify_observed observer w "visible-horizontal"
      gtk_widget_queue_resize w
    else w

/-- `gtk_tool_item_set_visible_vertical` with handlers connected to the
notification. -/
def gtk_tool_item_set_visible_vertical_observed (observer : World → World) (w : World)
    (toolitem : GtkToolItemPtr) (visible_vertical : gboolean) : World :=
  if !GTK_IS_TOOL_ITEM toolitem then w
  else
    let visible_vertical : Bool := visible_vertical != FALSE
    if w.item.visible_vertical != visible_vertical then
      let w := { w with item := { w.item with visible_vertical := visible_vertical } }
      let w := g_object_notify_observed observer w "visible-vertical"
      gtk_widget_queue_resize w
    else w

/-- `gtk_tool_item_set_is_important` with handlers connected to the
notification. -/
def gtk_tool_item_set_is_important_observed (observer : World → World) (w : World)
    (tool_item : GtkToolItemPtr) (is_important : gboolean) : World :=
  if !GTK_IS_TOOL_ITEM tool_item then w
  else
    let is_important : Bool := is_important != FALSE
    if is_important != w.item.is_important then
      let w := { w with item := { w.item with is_important := is_important } }
      let w := gtk_widget_queue_resize w
      g_object_notify_observed observer w "is-important"
    else w

/-- A handler connected to `notify::visible-horizontal` that copies the flag it
reads from the item into `expand`. -/
def mirrorVisibleHorizontal (w : World) : World :=
  gtk_tool_item_set_expand w GtkToolItemPtr.item
    (gtk_tool_item_get_visible_horizontal w GtkToolItemPtr.item)

/-- A handler connected to `notify::visible-vertical` that copies the flag it
reads from the item into `expand`. -/
def mirrorVisibleVertical (w : World) : World :=
  gtk_tool_item_set_expand w GtkToolItemPtr.item
    (gtk_tool_item_get_visible_vertical w GtkToolItemPtr.item)

/-- A handler connected to `notify::is-important` that copies the flag it reads
from the item into `expand`. -/
def mirrorIsImportant (w : World) : World :=
  gtk_tool_item_set_expand w GtkToolItemPtr.item
    (gtk_tool_item_get_is_important w GtkToolItemPtr.item)

/-! ## Sample worlds -/

/-- A widget with the defaults of a newly created one. -/
def plainWidget : GtkWidget :=
  { is_menu_item := false, sensitive := true, visible := false
    allocation := ⟨-1, -1, 1, 1⟩, tooltip_text := none, ref_count := 1, floating := false }

/-- A menu item held by its creator. -/
def plainMenuItem : GtkWidget := { plainWidget with is_menu_item := true }

/-- An action that is visible everywhere, the overflow menu included. -/
def plainAction : GtkAction :=
  { visible := true, sensitive := true, tooltip := none, visible_horizontal := true
    visible_vertical := true, is_important := false, visible_overflown := true }

/-- An action that is kept out of the overflow menu. -/
def hiddenAction : GtkAction := { plainAction with visible_overflown := false }

/-- A new tool item; the widgets at even addresses are menu items, action `0` is
shown in the overflow menu, the other actions are not. -/
def newWorld : World :=
  gtk_tool_item_new (fun a => if a % 2 = 0 then plainMenuItem else plainWidget)
    (fun a => if a = 0 then plainAction else hiddenAction) 100

/-- A vertical toolbar. -/
def verticalShell : GtkToolShell :=
  { orientation := GTK_ORIENTATION_VERTICAL, icon_size := GTK_ICON_SIZE_MENU
    style := GTK_TOOLBAR_BOTH, relief_style := GTK_RELIEF_NORMAL, text_alignment := 1
    text_orientation := GTK_ORIENTATION_VERTICAL, text_size_group := some 7
    ellipsize_mode := PANGO_ELLIPSIZE_END }

/-- The new tool item placed in a vertical toolbar. -/
def shellWorld : World :=
  { newWorld with item := { newWorld.item with parent := some (ParentWidget.tool_shell verticalShell) } }

/-- The new tool item placed in a container that is no tool shell. -/
def boxWorld : World :=
  { newWorld with item := { newWorld.item with parent := some ParentWidget.plain } }

/-- The new tool item bound to action `0`, which is shown in the overflow menu. -/
def boundWorld : World :=
  { newWorld with item := { newWorld.item with action := some 0 } }

/-- The new tool item bound to action `1`, which is kept out of the overflow
menu, with menu item `4` installed as proxy under the id `"mine"`. -/
def boundHiddenWorld : World :=
  { newWorld with
    item := { newWorld.item with action := some 1, menu_item_id := some "mine", menu_item := some 4 } }

/-- The new tool item after menu item `0` was installed as proxy under `"a"`
and the application then made that menu item insensitive. -/
def staleProxyWorld : World :=
  gtk_widget_set_sensitive
    (gtk_tool_item_set_proxy_menu_item newWorld GtkToolItemPtr.item (some "a") (some 0)) 0 false

/-- The new tool item with menu item `0` installed as proxy under `"a"`. -/
def proxyWorld : World :=
  gtk_tool_item_set_proxy_menu_item newWorld GtkToolItemPtr.item (some "a") (some 0)

/-- The operations of scenario S2 up to the allocation: the flag is switched on,
then the widget is realized, mapped and allocated `(10, 20, 100, 30)`. -/
def dragEvents : List Event :=
  [Event.set_use_drag_window 5, Event.realize, Event.map,
   Event.size_allocate ⟨10, 20, 100, 30⟩]

/-- The new tool item after the operations `dragEvents`. -/
def dragWorld : World :=
  step (step (step (step newWorld (Event.set_use_drag_window 5)) Event.realize) Event.map)
    (Event.size_allocate ⟨10, 20, 100, 30⟩)

/-- The calls made into the host widget system between world `w` and the later
world `w'`. -/
def callsSince (w w' : World) : List Effect := w'.log.drop w.log.length

/-- The item of `dragWorld` with the visible widget `3` as its child. -/
def childWorld : World :=
  { dragWorld with
    item := { dragWorld.item with child := some 3 }
    objs := setObj dragWorld.objs 3 { plainWidget with visible := true } }

/-- The action of scenario S5: visible, not sensitive, tooltip `"hi"`,
important. -/
def tipAction : GtkAction :=
  { visible := true, sensitive := false, tooltip := some "hi", visible_horizontal := true
    visible_vertical := false, is_important := true, visible_overflown := true }

/-- A new tool item without child, among actions that all are `tipAction`. -/
def tipWorld : World :=
  gtk_tool_item_new (fun a => if a % 2 = 0 then plainMenuItem else plainWidget)
    (fun _ => tipAction) 100

/-- The item of `tipWorld` with widget `3` as its child. -/
def tipChildWorld : World :=
  { tipWorld with item := { tipWorld.item with child := some 3 } }

/-- The item of `tipWorld` after action `0` was bound and the application then
hid the item. -/
def hiddenBoundWorld : World :=
  gtk_widget_hide (gtk_tool_item_set_related_action tipWorld (some 0))

/-- What the well-formed lifecycle keeps true of a tool item: the drag window is
present exactly when the flag is set and the widget is realized, a mapped widget
is realized, and a drag window that is present is shown exactly when the widget
is mapped. -/
def LifecycleInvariant (w : World) : Prop :=
  w.item.drag_window.isSome = (w.item.use_drag_window && w.item.realized) ∧
  (w.item.mapped = true → w.item.realized = true) ∧
  ∀ d, w.item.drag_window = some d → d.shown = w.item.mapped

/-- The operations of a tool item that is realized and mapped before the flag
is switched on. -/
def lateFlagEvents : List Event :=
  [Event.realize, Event.map, Event.set_use_drag_window 1]

/-- The new tool item after the operations `lateFlagEvents`. -/
def lateFlagWorld : World :=
  step (step (step newWorld Event.realize) Event.map) (Event.set_use_drag_window 1)

/-- The reference calls `gtk_tool_item_set_proxy_menu_item` makes when its
arguments pass the checks: none when the menu item given is the stored one,
otherwise a release of the stored one (if any) and then a reference on the one
given (if any). -/
def proxyRefCalls (stored menu_item : Option Nat) : List Effect :=
  if stored = menu_item then []
  else
    (match stored with
      | some old => [Effect.unref old]
      | none => [])
    ++ (match menu_item with
      | some m => [Effect.ref_sink m]
      | none => [])

/-- The references on `a` taken and not released, beyond the one owed to `a`
when it is the stored proxy. -/
def refBalance (w : World) (a : Nat) : Int :=
  (refsTaken w a : Int) - (refsReleased w a : Int)
    - (if w.item.menu_item = some a then 1 else 0)

/-- Scenario S3 around a handler run: action `0` is bound, menu item `0` is
installed under `"a"`, the default handler runs (and installs the menu item it
creates, at address `100`), then menu item `2` is installed under `"b"`, twice. -/
def proxyEvents : List ProxyEvent :=
  [ProxyEvent.set_related_action (some 0), ProxyEvent.set_proxy (some "a") (some 0),
   ProxyEvent.create_menu_proxy, ProxyEvent.set_proxy (some "b") (some 2),
   ProxyEvent.set_proxy (some "b") (some 2)]

/-- The new tool item after the operations `proxyEvents`. -/
def proxyRunWorld : World := proxyRun newWorld proxyEvents

/-- A new tool item with both visibility flags switched off. -/
def invisibleWorld : World :=
  { newWorld with
    item := { newWorld.item with visible_horizontal := false, visible_vertical := false } }

/-! ## Theorems -/

/-! ### Shared lemmas -/

/-- What `gtk_tool_item_set_proxy_menu_item` leaves in the item when its
arguments pass the checks: the id and the menu item given. -/
theorem set_proxy_item (w : World) (id : String) (m : Option Nat)
    (hm : ∀ a, m = some a → GTK_IS_MENU_ITEM w a = true) :
    (gtk_tool_item_set_proxy_menu_item w GtkToolItemPtr.item (some id) m).item
      = { w.item with menu_item_id := some id, menu_item := m } := by
  unfold gtk_tool_item_set_proxy_menu_item
  cases m with
  | none =>
    simp only [GTK_IS_TOOL_ITEM]
    cases h : w.item.menu_item <;> simp [h, g_object_unref]
  | some a =>
    have ha := hm a rfl
    simp only [GTK_IS_TOOL_ITEM, ha]
    by_cases h : w.item.menu_item = some a
    · simp [h]
    · cases h' : w.item.menu_item <;>
        simp_all [g_object_unref, g_object_ref_sink, gtk_widget_set_sensitive]

/-- No call of `gtk_tool_item_set_proxy_menu_item` changes which widgets are
menu items. -/
theorem set_proxy_is_menu_item (w : World) (p : GtkToolItemPtr) (id : Option String)
    (m : Option Nat) (a : Nat) :
    GTK_IS_MENU_ITEM (gtk_tool_item_set_proxy_menu_item w p id m) a = GTK_IS_MENU_ITEM w a := by
  unfold gtk_tool_item_set_proxy_menu_item GTK_IS_MENU_ITEM
  split
  · rfl
  split
  · rfl
  cases id with
  | none => rfl
  | some id =>
    simp only
    split
    · cases hold : w.item.menu_item <;> cases m <;>
        simp [g_object_unref, g_object_ref_sink, gtk_widget_set_sensitive, setObj] <;>
        (repeat' split) <;> simp_all
    · rfl

/-- The lookup `gtk_tool_item_get_proxy_menu_item` under a non-null id. -/
theorem get_proxy_eq (w : World) (id : String) :
    gtk_tool_item_get_proxy_menu_item w GtkToolItemPtr.item (some id)
      = if w.item.menu_item_id = some id then w.item.menu_item else none := by
  unfold gtk_tool_item_get_proxy_menu_item
  cases h : w.item.menu_item_id <;> simp [GTK_IS_TOOL_ITEM]

/-- The item after the default handler ran with an action that is shown in the
overflow menu: the created menu item is stored under the handler's id. -/
theorem create_menu_proxy_item_of_overflown (w : World) (a : Nat)
    (ha : w.item.action = some a) (hv : (w.actions a).visible_overflown = true) :
    (_gtk_tool_item_create_menu_proxy w).1.item
      = { w.item with menu_item_id := some "gtk-action-menu-item"
                      menu_item := some (gtk_action_create_menu_item w a).2 } := by
  unfold _gtk_tool_item_create_menu_proxy
  simp only [ha, hv, if_true]
  have hm : ∀ b, some (gtk_action_create_menu_item w a).2 = some b →
      GTK_IS_MENU_ITEM (g_object_ref_sink (gtk_action_create_menu_item w a).1
        (gtk_action_create_menu_item w a).2) b = true := by
    intro b hb
    cases hb
    simp [GTK_IS_MENU_ITEM, g_object_ref_sink, gtk_action_create_menu_item, setObj]
  have h := set_proxy_item (g_object_ref_sink (gtk_action_create_menu_item w a).1
    (gtk_action_create_menu_item w a).2) "gtk-action-menu-item"
    (some (gtk_action_create_menu_item w a).2) hm
  simp only [g_object_unref, h]
  simp [g_object_ref_sink, gtk_action_create_menu_item, ha]

/-- The item after the default handler ran with an action that is kept out of
the overflow menu: no proxy is stored, under the handler's id. -/
theorem create_menu_proxy_item_of_hidden (w : World) (a : Nat)
    (ha : w.item.action = some a) (hv : (w.actions a).visible_overflown = false) :
    (_gtk_tool_item_create_menu_proxy w).1.item
      = { w.item with menu_item_id := some "gtk-action-menu-item", menu_item := none } := by
  unfold _gtk_tool_item_create_menu_proxy
  simp only [ha, hv]
  rw [if_neg (by decide), set_proxy_item w "gtk-action-menu-item" none (by intro b hb; cases hb)]
  simp [ha]

/-- Every operation on the drag window keeps it present exactly when the flag
is set and the widget is realized. -/
theorem step_keeps_drag_window (w : World) (e : Event)
    (h : w.item.drag_window.isSome = (w.item.use_drag_window && w.item.realized)) :
    (step w e).item.drag_window.isSome
      = ((step w e).item.use_drag_window && (step w e).item.realized) := by
  obtain ⟨⟨vh, vv, ho, ex, udw, imp, uaa, dw, mid, mi, act, par, ch, re, ma, vis, sen, al⟩,
    objs, actions, next, log⟩ := w
  simp only at h
  cases e with
  | realize =>
    cases udw <;> cases re <;> cases dw <;>
      simp_all [step, gtk_tool_item_realize, create_drag_window, World.emit]
  | unrealize =>
    cases dw <;> simp [step, gtk_tool_item_unrealize, destroy_drag_window, World.emit]
  | map =>
    cases dw <;> simp_all [step, gtk_tool_item_map, gdk_window_show]
  | unmap =>
    cases dw <;> simp_all [step, gtk_tool_item_unmap, gdk_window_hide]
  | size_allocate r =>
    cases dw <;> cases ch <;>
      simp_all [step, gtk_tool_item_size_allocate, gtk_widget_set_allocation,
        gdk_window_move_resize, gtk_bin_get_child, _gtk_widget_set_simple_clip, World.emit,
        gtk_widget_size_allocate] <;>
      split <;> simp_all
  | toolbar_reconfigured =>
    cases dw <;>
      simp_all [step, gtk_tool_item_toolbar_reconfigured, GTK_IS_TOOL_ITEM, g_signal_emit,
        gdk_window_raise, gtk_widget_queue_resize, World.emit]
  | set_use_drag_window v =>
    by_cases hv : v = FALSE <;> cases udw <;> cases re <;> cases ma <;> cases dw <;>
      simp_all [step, gtk_tool_item_set_use_drag_window, GTK_IS_TOOL_ITEM, create_drag_window,
        destroy_drag_window, gtk_widget_get_realized, gtk_widget_get_mapped, gdk_window_show,
        World.emit]

/-- The property kept by `step` holds along every run. -/
theorem run_keeps_drag_window (events : List Event) (w w' : World)
    (h : w.item.drag_window.isSome = (w.item.use_drag_window && w.item.realized))
    (hr : run w events = some w') :
    w'.item.drag_window.isSome = (w'.item.use_drag_window && w'.item.realized) := by
  induction events generalizing w with
  | nil =>
    simp only [run, Option.some.injEq] at hr
    rw [← hr]
    exact h
  | cons e es ih =>
    simp only [run] at hr
    split at hr
    · exact ih (step w e) (step_keeps_drag_window w e h) hr
    · cases hr

/-- The class handler for property notifications leaves the item itself as it
is. -/
theorem property_notify_item (w : World) (name : String) :
    (gtk_tool_item_property_notify w name).item = w.item := by
  unfold gtk_tool_item_property_notify
  cases w.item.menu_item with
  | none => rfl
  | some m =>
    simp only
    split <;> rfl

/-- After `gtk_tool_item_set_visible_horizontal` the flag is the canonical
boolean of the argument. -/
theorem set_visible_horizontal_flag (w : World) (v : gboolean) :
    (gtk_tool_item_set_visible_horizontal w GtkToolItemPtr.item v).item.visible_horizontal
      = (v != FALSE) := by
  unfold gtk_tool_item_set_visible_horizontal
  by_cases h : w.item.visible_horizontal = (v != FALSE)
  · simp [GTK_IS_TOOL_ITEM, h]
  · simp [GTK_IS_TOOL_ITEM, h, gtk_widget_queue_resize, World.emit, g_object_notify,
      property_notify_item]

/-- After `gtk_tool_item_set_visible_vertical` the flag is the canonical boolean
of the argument. -/
theorem set_visible_vertical_flag (w : World) (v : gboolean) :
    (gtk_tool_item_set_visible_vertical w GtkToolItemPtr.item v).item.visible_vertical
      = (v != FALSE) := by
  unfold gtk_tool_item_set_visible_vertical
  by_cases h : w.item.visible_vertical = (v != FALSE)
  · simp [GTK_IS_TOOL_ITEM, h]
  · simp [GTK_IS_TOOL_ITEM, h, gtk_widget_queue_resize, World.emit, g_object_notify,
      property_notify_item]

/-- After `gtk_tool_item_set_homogeneous` the flag is the canonical boolean of
the argument. -/
theorem set_homogeneous_flag (w : World) (v : gboolean) :
    (gtk_tool_item_set_homogeneous w GtkToolItemPtr.item v).item.homogeneous
      = (v != FALSE) := by
  unfold gtk_tool_item_set_homogeneous
  by_cases h : w.item.homogeneous = (v != FALSE)
  · simp [GTK_IS_TOOL_ITEM, h]
  · simp [GTK_IS_TOOL_ITEM, h, gtk_widget_queue_resize, gtk_widget_child_notify, World.emit]

/-- After `gtk_tool_item_set_expand` the flag is the canonical boolean of the
argument. -/
theorem set_expand_flag (w : World) (v : gboolean) :
    (gtk_tool_item_set_expand w GtkToolItemPtr.item v).item.expand = (v != FALSE) := by
  unfold gtk_tool_item_set_expand
  by_cases h : w.item.expand = (v != FALSE)
  · simp [GTK_IS_TOOL_ITEM, h]
  · simp [GTK_IS_TOOL_ITEM, h, gtk_widget_queue_resize, gtk_widget_child_notify, World.emit]

/-- After `gtk_tool_item_set_is_important` the flag is the canonical boolean of
the argument. -/
theorem set_is_important_flag (w : World) (v : gboolean) :
    (gtk_tool_item_set_is_important w GtkToolItemPtr.item v).item.is_important
      = (v != FALSE) := by
  unfold gtk_tool_item_set_is_important
  by_cases h : (v != FALSE) = w.item.is_important
  · simp [GTK_IS_TOOL_ITEM, h]
  · simp [GTK_IS_TOOL_ITEM, h, gtk_widget_queue_resize, World.emit, g_object_notify,
      property_notify_item]

/-- After `gtk_tool_item_set_use_drag_window` the flag is the canonical boolean
of the argument. -/
theorem set_use_drag_window_flag (w : World) (v : gboolean) :
    (gtk_tool_item_set_use_drag_window w GtkToolItemPtr.item v).item.use_drag_window
      = (v != FALSE) := by
  obtain ⟨⟨vh, vv, ho, ex, udw, imp, uaa, dw, mid, mi, act, par, ch, re, ma, vis, sen, al⟩,
    objs, actions, next, log⟩ := w
  by_cases hv : v = FALSE <;> cases udw <;> cases re <;> cases ma <;> cases dw <;>
    simp_all [gtk_tool_item_set_use_drag_window, GTK_IS_TOOL_ITEM, create_drag_window,
      destroy_drag_window, gtk_widget_get_realized, gtk_widget_get_mapped, gdk_window_show,
      World.emit]

/-- The calls made since `w` when the later trace extends the trace of `w`. -/
theorem callsSince_of_log (w w' : World) (l : List Effect) (h : w'.log = w.log ++ l) :
    callsSince w w' = l := by
  simp [callsSince, h]

/-- A property notification on the tool item adds itself to the trace and
nothing else. -/
theorem g_object_notify_log (w : World) (name : String) :
    (g_object_notify w name).log = w.log ++ [Effect.notify name] := by
  unfold g_object_notify gtk_tool_item_property_notify
  cases h : w.item.menu_item with
  | none => simp [World.emit, h]
  | some m =>
    simp only [World.emit, h]
    split <;> simp [gtk_widget_set_sensitive]

/-- A property notification on the tool item leaves the item itself as it is. -/
theorem g_object_notify_item (w : World) (name : String) :
    (g_object_notify w name).item = w.item := by
  simp [g_object_notify, property_notify_item, World.emit]

/-- Reading back a one-bit field through `!= FALSE` gives the bit. -/
theorem bit_bne_FALSE (b : Bool) : (bit b != FALSE) = b := by
  cases b <;> decide

/-- A property notification on the tool item leaves the actions as they are. -/
theorem g_object_notify_actions (w : World) (name : String) :
    (g_object_notify w name).actions = w.actions := by
  unfold g_object_notify gtk_tool_item_property_notify
  cases h : w.item.menu_item with
  | none => simp [World.emit, h]
  | some m =>
    simp only [World.emit, h]
    split <;> simp [gtk_widget_set_sensitive]

/-- A property notification for a property other than `sensitive` leaves the
other widgets as they are. -/
theorem g_object_notify_objs (w : World) (name : String) (hne : name ≠ "sensitive") :
    (g_object_notify w name).objs = w.objs := by
  unfold g_object_notify gtk_tool_item_property_notify
  cases h : w.item.menu_item <;> simp [World.emit, h, hne]

/-- The item after `gtk_tool_item_set_visible_horizontal`. -/
theorem set_visible_horizontal_item (w : World) (v : gboolean) :
    (gtk_tool_item_set_visible_horizontal w GtkToolItemPtr.item v).item
      = { w.item with visible_horizontal := (v != FALSE) } := by
  unfold gtk_tool_item_set_visible_horizontal
  by_cases h : w.item.visible_horizontal = (v != FALSE)
  · simp [GTK_IS_TOOL_ITEM, h.symm]
  · simp [GTK_IS_TOOL_ITEM, h, gtk_widget_queue_resize, World.emit, g_object_notify_item]

/-- The item after `gtk_tool_item_set_visible_vertical`. -/
theorem set_visible_vertical_item (w : World) (v : gboolean) :
    (gtk_tool_item_set_visible_vertical w GtkToolItemPtr.item v).item
      = { w.item with visible_vertical := (v != FALSE) } := by
  unfold gtk_tool_item_set_visible_vertical
  by_cases h : w.item.visible_vertical = (v != FALSE)
  · simp [GTK_IS_TOOL_ITEM, h.symm]
  · simp [GTK_IS_TOOL_ITEM, h, gtk_widget_queue_resize, World.emit, g_object_notify_item]

/-- The item after `gtk_tool_item_set_is_important`. -/
theorem set_is_important_item (w : World) (v : gboolean) :
    (gtk_tool_item_set_is_important w GtkToolItemPtr.item v).item
      = { w.item with is_important := (v != FALSE) } := by
  unfold gtk_tool_item_set_is_important
  by_cases h : (v != FALSE) = w.item.is_important
  · simp [GTK_IS_TOOL_ITEM, h]
  · simp [GTK_IS_TOOL_ITEM, h, gtk_widget_queue_resize, World.emit, g_object_notify_item]

/-- The item after `gtk_tool_item_set_expand`. -/
theorem set_expand_item (w : World) (v : gboolean) :
    (gtk_tool_item_set_expand w GtkToolItemPtr.item v).item
      = { w.item with expand := (v != FALSE) } := by
  unfold gtk_tool_item_set_expand
  by_cases h : w.item.expand = (v != FALSE)
  · simp [GTK_IS_TOOL_ITEM, h.symm]
  · simp [GTK_IS_TOOL_ITEM, h, gtk_widget_queue_resize, gtk_widget_child_notify, World.emit]

/-- The item after `gtk_tool_item_set_homogeneous`. -/
theorem set_homogeneous_item (w : World) (v : gboolean) :
    (gtk_tool_item_set_homogeneous w GtkToolItemPtr.item v).item
      = { w.item with homogeneous := (v != FALSE) } := by
  unfold gtk_tool_item_set_homogeneous
  by_cases h : w.item.homogeneous = (v != FALSE)
  · simp [GTK_IS_TOOL_ITEM, h.symm]
  · simp [GTK_IS_TOOL_ITEM, h, gtk_widget_queue_resize, gtk_widget_child_notify, World.emit]

/-- The three flag setters that notify leave the other widgets and the actions
as they are. -/
theorem notifying_setters_frame (w : World) (v : gboolean) :
    (gtk_tool_item_set_visible_horizontal w GtkToolItemPtr.item v).objs = w.objs ∧
    (gtk_tool_item_set_visible_horizontal w GtkToolItemPtr.item v).actions = w.actions ∧
    (gtk_tool_item_set_visible_vertical w GtkToolItemPtr.item v).objs = w.objs ∧
    (gtk_tool_item_set_visible_vertical w GtkToolItemPtr.item v).actions = w.actions ∧
    (gtk_tool_item_set_is_important w GtkToolItemPtr.item v).objs = w.objs ∧
    (gtk_tool_item_set_is_important w GtkToolItemPtr.item v).actions = w.actions := by
  have h1 : ∀ (u : World) (name : String), name ≠ "sensitive" →
      (gtk_widget_queue_resize (g_object_notify u name)).objs = u.objs ∧
      (gtk_widget_queue_resize (g_object_notify u name)).actions = u.actions ∧
      (g_object_notify (gtk_widget_queue_resize u) name).objs = u.objs ∧
      (g_object_notify (gtk_widget_queue_resize u) name).actions = u.actions := by
    intro u name hne
    simp [gtk_widget_queue_resize, World.emit, g_object_notify_objs, g_object_notify_actions,
      hne]
  refine ⟨?_, ?_, ?_, ?_, ?_, ?_⟩
  · unfold gtk_tool_item_set_visible_horizontal
    by_cases h : w.item.visible_horizontal = (v != FALSE)
    · simp [GTK_IS_TOOL_ITEM, h]
    · simp [GTK_IS_TOOL_ITEM, h, h1]
  · unfold gtk_tool_item_set_visible_horizontal
    by_cases h : w.item.visible_horizontal = (v != FALSE)
    · simp [GTK_IS_TOOL_ITEM, h]
    · simp [GTK_IS_TOOL_ITEM, h, h1]
  · unfold gtk_tool_item_set_visible_vertical
    by_cases h : w.item.visible_vertical = (v != FALSE)
    · simp [GTK_IS_TOOL_ITEM, h]
    · simp [GTK_IS_TOOL_ITEM, h, h1]
  · unfold gtk_tool_item_set_visible_vertical
    by_cases h : w.item.visible_vertical = (v != FALSE)
    · simp [GTK_IS_TOOL_ITEM, h]
    · simp [GTK_IS_TOOL_ITEM, h, h1]
  · unfold gtk_tool_item_set_is_important
    by_cases h : (v != FALSE) = w.item.is_important
    · simp [GTK_IS_TOOL_ITEM, h]
    · simp [GTK_IS_TOOL_ITEM, h, h1]
  · unfold gtk_tool_item_set_is_important
    by_cases h : (v != FALSE) = w.item.is_important
    · simp [GTK_IS_TOOL_ITEM, h]
    · simp [GTK_IS_TOOL_ITEM, h, h1]

/-- Showing or hiding the item stores the wanted visibility and leaves the rest
of the item, the other widgets and the actions as they are. -/
theorem show_or_hide_frame (w : World) (b : Bool) :
    (if b then gtk_widget_show w else gtk_widget_hide w).item = { w.item with visible := b } ∧
    (if b then gtk_widget_show w else gtk_widget_hide w).objs = w.objs ∧
    (if b then gtk_widget_show w else gtk_widget_hide w).actions = w.actions := by
  obtain ⟨⟨vh, vv, ho, ex, udw, imp, uaa, dw, mid, mi, act, par, ch, re, ma, vis, sen, al⟩,
    objs, actions, next, log⟩ := w
  cases b <;> cases vis <;>
    simp [gtk_widget_show, gtk_widget_hide, g_object_notify_item, g_object_notify_objs,
      g_object_notify_actions]

/-- Setting the item's sensitivity stores the flag and leaves the rest of the
item and the actions as they are. -/
theorem set_sensitive_item_frame (w : World) (b : Bool) :
    (gtk_widget_set_sensitive_item w b).item = { w.item with sensitive := b } ∧
    (gtk_widget_set_sensitive_item w b).actions = w.actions := by
  unfold gtk_widget_set_sensitive_item
  by_cases h : w.item.sensitive = b
  · simp [h.symm]
  · simp [h, g_object_notify_item, g_object_notify_actions]

/-- The tooltip setter leaves the item and the actions as they are; the text
goes to the child when there is one, and no widget changes when there is none. -/
theorem set_tooltip_text_frame (w : World) (text : Option String) :
    (gtk_tool_item_set_tooltip_text w GtkToolItemPtr.item text).item = w.item ∧
    (gtk_tool_item_set_tooltip_text w GtkToolItemPtr.item text).actions = w.actions ∧
    (∀ c, w.item.child = some c →
      ((gtk_tool_item_set_tooltip_text w GtkToolItemPtr.item text).objs c).tooltip_text = text ∧
      ∀ b, b ≠ c →
        (gtk_tool_item_set_tooltip_text w GtkToolItemPtr.item text).objs b = w.objs b) ∧
    (w.item.child = none →
      gtk_tool_item_set_tooltip_text w GtkToolItemPtr.item text = w) := by
  unfold gtk_tool_item_set_tooltip_text
  cases h : w.item.child with
  | none => simp [GTK_IS_TOOL_ITEM, gtk_bin_get_child, h]
  | some c =>
    simp only [GTK_IS_TOOL_ITEM, gtk_bin_get_child, h, gtk_widget_set_tooltip_text]
    refine ⟨by simp, by simp, ?_, by simp⟩
    intro c' hc
    cases hc
    refine ⟨by simp [setObj], ?_⟩
    intro b hb
    simp [setObj, hb]

/-- What the sync leaves: the item's visibility, sensitivity and three flags are
those of the action and the rest of the item is kept, the actions are untouched,
the child (when there is one) has the action's tooltip, and without a child no
tooltip call is made. -/
theorem sync_action_properties_result (w : World) (a : Nat) :
    (gtk_tool_item_sync_action_properties w (some a)).item
      = { w.item with
          visible := (w.actions a).visible
          sensitive := (w.actions a).sensitive
          visible_horizontal := (w.actions a).visible_horizontal
          visible_vertical := (w.actions a).visible_vertical
          is_important := (w.actions a).is_important } ∧
    (gtk_tool_item_sync_action_properties w (some a)).actions = w.actions ∧
    (∀ c, w.item.child = some c →
      ((gtk_tool_item_sync_action_properties w (some a)).objs c).tooltip_text
        = (w.actions a).tooltip) := by
  simp only [gtk_tool_item_sync_action_properties]
  obtain ⟨i1, -, a1⟩ := show_or_hide_frame w (gtk_action_is_visible w a)
  generalize (if gtk_action_is_visible w a = true then gtk_widget_show w
    else gtk_widget_hide w) = w1 at i1 a1 ⊢
  obtain ⟨i2, a2⟩ := set_sensitive_item_frame w1 (gtk_action_is_sensitive w1 a)
  generalize gtk_widget_set_sensitive_item w1 (gtk_action_is_sensitive w1 a) = w2 at i2 a2 ⊢
  obtain ⟨i3, a3, o3, -⟩ := set_tooltip_text_frame w2 (gtk_action_get_tooltip w2 a)
  generalize gtk_tool_item_set_tooltip_text w2 GtkToolItemPtr.item
    (gtk_action_get_tooltip w2 a) = w3 at i3 a3 o3 ⊢
  have i4 := set_visible_horizontal_item w3 (gtk_action_get_visible_horizontal w3 a)
  obtain ⟨o4, a4, -⟩ := notifying_setters_frame w3 (gtk_action_get_visible_horizontal w3 a)
  generalize gtk_tool_item_set_visible_horizontal w3 GtkToolItemPtr.item
    (gtk_action_get_visible_horizontal w3 a) = w4 at i4 a4 o4 ⊢
  have i5 := set_visible_vertical_item w4 (gtk_action_get_visible_vertical w4 a)
  obtain ⟨-, -, o5, a5, -⟩ := notifying_setters_frame w4 (gtk_action_get_visible_vertical w4 a)
  generalize gtk_tool_item_set_visible_vertical w4 GtkToolItemPtr.item
    (gtk_action_get_visible_vertical w4 a) = w5 at i5 a5 o5 ⊢
  have i6 := set_is_important_item w5 (gtk_action_get_is_important w5 a)
  obtain ⟨-, -, -, -, o6, a6⟩ := notifying_setters_frame w5 (gtk_action_get_is_important w5 a)
  generalize gtk_tool_item_set_is_important w5 GtkToolItemPtr.item
    (gtk_action_get_is_important w5 a) = w6 at i6 a6 o6 ⊢
  have e2 : w2.actions = w.actions := by rw [a2, a1]
  have e3 : w3.actions = w.actions := by rw [a3, e2]
  have e4 : w4.actions = w.actions := by rw [a4, e3]
  have e5 : w5.actions = w.actions := by rw [a5, e4]
  refine ⟨?_, by rw [a6, e5], ?_⟩
  · rw [i6, i5, i4, i3, i2, i1]
    simp [gtk_action_is_visible, gtk_action_is_sensitive, gtk_action_get_visible_horizontal,
      gtk_action_get_visible_vertical, gtk_action_get_is_important, bit_bne_FALSE, a1, e3, e4, e5]
  · intro c hc
    have hc2 : w2.item.child = some c := by rw [i2, i1]; exact hc
    rw [o6, o5, o4, (o3 c hc2).1]
    simp [gtk_action_get_tooltip, e2]

/-- Telling the shell to rebuild its menu touches neither the item nor the
other widgets nor the actions. -/
theorem rebuild_menu_frame (w : World) (p : GtkToolItemPtr) :
    (gtk_tool_item_rebuild_menu w p).item = w.item ∧
    (gtk_tool_item_rebuild_menu w p).objs = w.objs ∧
    (gtk_tool_item_rebuild_menu w p).actions = w.actions := by
  unfold gtk_tool_item_rebuild_menu
  split
  · exact ⟨rfl, rfl, rfl⟩
  · split <;> exact ⟨rfl, rfl, rfl⟩

/-- The canonical boolean of an argument, read back as a `gboolean`, is `1` for
a non-zero argument and `0` for zero. -/
theorem bit_canonical (v : gboolean) : bit (v != FALSE) = if v = 0 then 0 else 1 := by
  by_cases h : v = 0 <;> simp [bit, TRUE, FALSE, h]

/-- `gtk_tool_item_set_use_drag_window` leaves the other five flags as they
are. -/
theorem set_use_drag_window_other_flags (w : World) (v : gboolean) :
    (gtk_tool_item_set_use_drag_window w GtkToolItemPtr.item v).item.visible_horizontal
      = w.item.visible_horizontal ∧
    (gtk_tool_item_set_use_drag_window w GtkToolItemPtr.item v).item.visible_vertical
      = w.item.visible_vertical ∧
    (gtk_tool_item_set_use_drag_window w GtkToolItemPtr.item v).item.homogeneous
      = w.item.homogeneous ∧
    (gtk_tool_item_set_use_drag_window w GtkToolItemPtr.item v).item.expand
      = w.item.expand ∧
    (gtk_tool_item_set_use_drag_window w GtkToolItemPtr.item v).item.is_important
      = w.item.is_important := by
  obtain ⟨⟨vh, vv, ho, ex, udw, imp, uaa, dw, mid, mi, act, par, ch, re, ma, vis, sen, al⟩,
    objs, actions, next, log⟩ := w
  by_cases hv : v = FALSE <;> cases udw <;> cases re <;> cases ma <;> cases dw <;>
    simp_all [gtk_tool_item_set_use_drag_window, GTK_IS_TOOL_ITEM, create_drag_window,
      destroy_drag_window, gtk_widget_get_realized, gtk_widget_get_mapped, gdk_window_show,
      World.emit]

/-- Every well-formed lifecycle operation keeps `LifecycleInvariant`. -/
theorem step_keeps_lifecycle (w : World) (e : Event) (h : LifecycleInvariant w)
    (he : e.wellFormed w = true) : LifecycleInvariant (step w e) := by
  obtain ⟨⟨vh, vv, ho, ex, udw, imp, uaa, dw, mid, mi, act, par, ch, re, ma, vis, sen, al⟩,
    objs, actions, next, log⟩ := w
  unfold LifecycleInvariant at h ⊢
  simp only at h
  cases e with
  | realize =>
    cases udw <;> cases re <;> cases ma <;> cases dw <;>
      simp_all [step, gtk_tool_item_realize, create_drag_window, World.emit, Event.wellFormed,
        gdk_window_new, gtk_widget_get_allocation]
  | unrealize =>
    cases dw <;> cases ma <;>
      simp_all [step, gtk_tool_item_unrealize, destroy_drag_window, World.emit,
        Event.wellFormed]
  | map =>
    cases dw <;> cases re <;>
      simp_all [step, gtk_tool_item_map, gdk_window_show, Event.wellFormed]
  | unmap =>
    cases dw <;> cases re <;> cases udw <;>
      simp_all [step, gtk_tool_item_unmap, gdk_window_hide, Event.wellFormed]
  | size_allocate r =>
    cases dw <;> cases ch <;> cases re <;> cases udw <;> cases ma <;>
      simp_all [step, gtk_tool_item_size_allocate, gtk_widget_set_allocation,
        gdk_window_move_resize, gtk_bin_get_child, _gtk_widget_set_simple_clip, World.emit,
        gtk_widget_size_allocate] <;>
      split <;> simp_all
  | toolbar_reconfigured =>
    cases dw <;> cases re <;> cases udw <;> cases ma <;>
      simp_all [step, gtk_tool_item_toolbar_reconfigured, GTK_IS_TOOL_ITEM, g_signal_emit,
        gdk_window_raise, gtk_widget_queue_resize, World.emit]
  | set_use_drag_window v =>
    by_cases hv : v = FALSE <;> cases udw <;> cases re <;> cases ma <;> cases dw <;>
      simp_all [step, gtk_tool_item_set_use_drag_window, GTK_IS_TOOL_ITEM, create_drag_window,
        destroy_drag_window, gtk_widget_get_realized, gtk_widget_get_mapped, gdk_window_show,
        World.emit, gdk_window_new, gtk_widget_get_allocation]

/-- `LifecycleInvariant` holds along every well-formed run. -/
theorem run_keeps_lifecycle (events : List Event) (w w' : World) (h : LifecycleInvariant w)
    (hr : runWellFormed w events = some w') : LifecycleInvariant w' := by
  induction events generalizing w with
  | nil =>
    simp only [runWellFormed, Option.some.injEq] at hr
    rw [← hr]
    exact h
  | cons e es ih =>
    simp only [runWellFormed] at hr
    split at hr
    · rename_i he
      exact ih (step w e) (step_keeps_lifecycle w e h he) hr
    · cases hr

/-- No call at all is a run of calls satisfying `p`. -/
theorem onlyCalls_refl (p : Effect → Bool) (w : World) : onlyCalls p w w :=
  ⟨[], by simp, by simp⟩

/-- Runs of calls satisfying `p` compose. -/
theorem onlyCalls_trans (p : Effect → Bool) (w1 w2 w3 : World) (h12 : onlyCalls p w1 w2)
    (h23 : onlyCalls p w2 w3) : onlyCalls p w1 w3 := by
  obtain ⟨l1, e1, a1⟩ := h12
  obtain ⟨l2, e2, a2⟩ := h23
  exact ⟨l1 ++ l2, by rw [e2, e1, List.append_assoc], by simp [List.all_append, a1, a2]⟩

/-- A run of calls satisfying `p` does not change how often a call that does not
satisfy `p` occurs in the trace. -/
theorem onlyCalls_count (p : Effect → Bool) (w w' : World) (e : Effect)
    (h : onlyCalls p w w') (he : p e = false) : w'.log.count e = w.log.count e := by
  obtain ⟨l, hl, ha⟩ := h
  rw [hl, List.count_append]
  have : l.count e = 0 := by
    apply List.count_eq_zero_of_not_mem
    intro hm
    have := List.all_eq_true.mp ha e hm
    rw [he] at this
    cases this
  omega

/-- A property notification is a sync call. -/
theorem g_object_notify_onlyCalls (w : World) (name : String) :
    onlyCalls Effect.isSyncCall w (g_object_notify w name) :=
  ⟨[Effect.notify name], g_object_notify_log w name, by simp [Effect.isSyncCall]⟩

/-- The sync of action properties makes sync calls only. -/
theorem sync_action_properties_onlyCalls (w : World) (action : Option Nat) :
    onlyCalls Effect.isSyncCall w (gtk_tool_item_sync_action_properties w action) := by
  have hshow : ∀ (u : World) (b : Bool),
      onlyCalls Effect.isSyncCall u (if b then gtk_widget_show u else gtk_widget_hide u) := by
    intro u b
    cases b <;> simp only [gtk_widget_show, gtk_widget_hide, Bool.false_eq_true, if_false,
      if_true] <;> split <;>
      first | exact onlyCalls_refl _ _ | exact g_object_notify_onlyCalls _ _
  have hsens : ∀ (u : World) (b : Bool),
      onlyCalls Effect.isSyncCall u (gtk_widget_set_sensitive_item u b) := by
    intro u b
    unfold gtk_widget_set_sensitive_item
    split
    · exact onlyCalls_refl _ _
    · exact g_object_notify_onlyCalls _ _
  have htip : ∀ (u : World) (t : Option String),
      onlyCalls Effect.isSyncCall u
        (gtk_tool_item_set_tooltip_text u GtkToolItemPtr.item t) := by
    intro u t
    unfold gtk_tool_item_set_tooltip_text
    simp only [GTK_IS_TOOL_ITEM, Bool.not_true, Bool.false_eq_true, if_false]
    cases gtk_bin_get_child u with
    | none => exact onlyCalls_refl _ _
    | some c => exact ⟨[Effect.set_tooltip_text c t], rfl, by simp [Effect.isSyncCall]⟩
  have hq : ∀ u : World, onlyCalls Effect.isSyncCall u (gtk_widget_queue_resize u) :=
    fun u => ⟨[Effect.queue_resize], rfl, by simp [Effect.isSyncCall]⟩
  have hst : ∀ (u : World) (i : GtkToolItem),
      onlyCalls Effect.isSyncCall u { u with item := i } :=
    fun u i => ⟨[], by simp, by simp⟩
  have hvh : ∀ (u : World) (v : gboolean),
      onlyCalls Effect.isSyncCall u
        (gtk_tool_item_set_visible_horizontal u GtkToolItemPtr.item v) := by
    intro u v
    unfold gtk_tool_item_set_visible_horizontal
    simp only [GTK_IS_TOOL_ITEM, Bool.not_true, Bool.false_eq_true, if_false]
    split
    · exact onlyCalls_trans _ _ _ _ (hst _ _)
        (onlyCalls_trans _ _ _ _ (g_object_notify_onlyCalls _ _) (hq _))
    · exact onlyCalls_refl _ _
  have hvv : ∀ (u : World) (v : gboolean),
      onlyCalls Effect.isSyncCall u
        (gtk_tool_item_set_visible_vertical u GtkToolItemPtr.item v) := by
    intro u v
    unfold gtk_tool_item_set_visible_vertical
    simp only [GTK_IS_TOOL_ITEM, Bool.not_true, Bool.false_eq_true, if_false]
    split
    · exact onlyCalls_trans _ _ _ _ (hst _ _)
        (onlyCalls_trans _ _ _ _ (g_object_notify_onlyCalls _ _) (hq _))
    · exact onlyCalls_refl _ _
  have himp : ∀ (u : World) (v : gboolean),
      onlyCalls Effect.isSyncCall u
        (gtk_tool_item_set_is_important u GtkToolItemPtr.item v) := by
    intro u v
    unfold gtk_tool_item_set_is_important
    simp only [GTK_IS_TOOL_ITEM, Bool.not_true, Bool.false_eq_true, if_false]
    split
    · exact onlyCalls_trans _ _ _ _ (hst _ _)
        (onlyCalls_trans _ _ _ _ (hq _) (g_object_notify_onlyCalls _ _))
    · exact onlyCalls_refl _ _
  cases action with
  | none => exact onlyCalls_refl _ _
  | some a =>
    simp only [gtk_tool_item_sync_action_properties]
    exact onlyCalls_trans _ _ _ _ (onlyCalls_trans _ _ _ _ (onlyCalls_trans _ _ _ _
      (onlyCalls_trans _ _ _ _ (onlyCalls_trans _ _ _ _ (hshow _ _) (hsens _ _)) (htip _ _))
      (hvh _ _)) (hvv _ _)) (himp _ _)

/-- A call that does not satisfy `p` does not occur among calls that all satisfy
`p`. -/
theorem count_eq_zero_of_all (p : Effect → Bool) (l : List Effect) (e : Effect)
    (ha : l.all p = true) (he : p e = false) : l.count e = 0 := by
  apply List.count_eq_zero_of_not_mem
  intro hm
  have := List.all_eq_true.mp ha e hm
  rw [he] at this
  cases this

/-- The sync of action properties leaves the parent of the item as it is. -/
theorem sync_action_properties_parent (w : World) (action : Option Nat) :
    (gtk_tool_item_sync_action_properties w action).item.parent = w.item.parent := by
  cases action with
  | none => rfl
  | some a => rw [(sync_action_properties_result w a).1]

/-- The trace of `gtk_tool_item_set_related_action` with an action other than
the bound one: the binder call, then sync calls, then the notification of the
shell when the action is non-null and the parent is a tool shell. -/
theorem set_related_action_log (w : World) (action : Option Nat)
    (hne : w.item.action ≠ action) :
    ∃ l : List Effect, l.all Effect.isSyncCall = true ∧
      (gtk_tool_item_set_related_action w action).log
        = w.log ++ ([Effect.do_set_related_action action] ++ l
            ++ (if action.isSome && GTK_IS_TOOL_SHELL (gtk_widget_get_parent w)
                then [Effect.shell_rebuild_menu] else [])) := by
  obtain ⟨l, hl, ha⟩ := sync_action_properties_onlyCalls
    (w.emit (Effect.do_set_related_action action)) action
  have hp := sync_action_properties_parent (w.emit (Effect.do_set_related_action action)) action
  refine ⟨l, ha, ?_⟩
  cases action with
  | none =>
    simp only [gtk_tool_item_set_related_action, hne, if_false,
      gtk_activatable_do_set_related_action, hl]
    simp [World.emit]
  | some a =>
    have hp' : (gtk_tool_item_sync_action_properties
        (w.emit (Effect.do_set_related_action (some a))) (some a)).item.parent
        = w.item.parent := hp
    simp only [gtk_tool_item_set_related_action, hne, if_false,
      gtk_activatable_do_set_related_action, gtk_tool_item_rebuild_menu, GTK_IS_TOOL_ITEM,
      gtk_widget_get_parent, hp', Bool.not_true, Bool.false_eq_true]
    simp only [World.emit] at hl ⊢
    by_cases hs : GTK_IS_TOOL_SHELL w.item.parent = true
    · simp [hs, gtk_tool_shell_rebuild_menu, World.emit, hl]
    · simp [hs, hl]

/-- The trace after `gtk_tool_item_set_proxy_menu_item` when its arguments pass
the checks. -/
theorem set_proxy_log (w : World) (id : String) (m : Option Nat)
    (hm : ∀ a, m = some a → GTK_IS_MENU_ITEM w a = true) :
    (gtk_tool_item_set_proxy_menu_item w GtkToolItemPtr.item (some id) m).log
      = w.log ++ proxyRefCalls w.item.menu_item m := by
  unfold gtk_tool_item_set_proxy_menu_item proxyRefCalls
  cases m with
  | none =>
    simp only [GTK_IS_TOOL_ITEM]
    cases h : w.item.menu_item <;> simp [h, g_object_unref]
  | some a =>
    have ha := hm a rfl
    simp only [GTK_IS_TOOL_ITEM, ha]
    by_cases h : w.item.menu_item = some a
    · simp [h]
    · cases h' : w.item.menu_item <;>
        simp_all [g_object_unref, g_object_ref_sink, gtk_widget_set_sensitive]

/-- `gtk_tool_item_set_proxy_menu_item` does nothing unless the receiver is the
tool item, the id is non-null and the object given, if any, is a menu item. -/
theorem set_proxy_rejected (w : World) (p : GtkToolItemPtr) (id : Option String)
    (m : Option Nat)
    (h : p ≠ GtkToolItemPtr.item ∨ id = none ∨ ∃ a, m = some a ∧ GTK_IS_MENU_ITEM w a = false) :
    gtk_tool_item_set_proxy_menu_item w p id m = w := by
  unfold gtk_tool_item_set_proxy_menu_item
  rcases h with h | h | ⟨a, rfl, ha⟩
  · cases p <;> simp_all [GTK_IS_TOOL_ITEM]
  · subst h
    split
    · rfl
    · split <;> rfl
  · split
    · rfl
    · simp [ha]

/-- Among the reference calls of a `set_proxy_menu_item`, the references taken
on `a` less those released are what the new proxy is owed less what the old one
was. -/
theorem proxyRefCalls_balance (stored m : Option Nat) (a : Nat) :
    ((proxyRefCalls stored m).count (Effect.ref_sink a) : Int)
        - ((proxyRefCalls stored m).count (Effect.unref a) : Int)
      = (if m = some a then 1 else 0) - (if stored = some a then 1 else 0) := by
  unfold proxyRefCalls
  by_cases hs : stored = m
  · simp [hs]
  · cases stored with
    | none =>
      cases m with
      | none => exact absurd rfl hs
      | some n => by_cases hn : n = a <;> simp [hs, List.count_cons, hn]
    | some old =>
      cases m with
      | none => by_cases ho : old = a <;> simp [List.count_cons, ho]
      | some n =>
        have hne : ¬ old = n := fun e => hs (by rw [e])
        simp only [Option.some.injEq, hne, if_false]
        by_cases ho : old = a
        · subst ho
          have hn : ¬ n = old := fun e => hne e.symm
          simp [List.count_cons, hn]
        · by_cases hn : n = a <;> simp [List.count_cons, ho, hn]

/-- `gtk_tool_item_set_proxy_menu_item` keeps the reference balance of every
object, whatever its arguments. -/
theorem set_proxy_keeps_balance (w : World) (p : GtkToolItemPtr) (id : Option String)
    (m : Option Nat) (a : Nat) :
    refBalance (gtk_tool_item_set_proxy_menu_item w p id m) a = refBalance w a := by
  by_cases hp : p = GtkToolItemPtr.item
  · subst hp
    cases id with
    | none => rw [set_proxy_rejected w _ none m (Or.inr (Or.inl rfl))]
    | some id =>
      by_cases hm : ∀ b, m = some b → GTK_IS_MENU_ITEM w b = true
      · have hb := proxyRefCalls_balance w.item.menu_item m a
        simp only [refBalance, refsTaken, refsReleased, set_proxy_log w id m hm,
          set_proxy_item w id m hm, List.count_append, Nat.cast_add]
        omega
      · push_neg at hm
        obtain ⟨b, hb, hnm⟩ := hm
        rw [set_proxy_rejected w _ (some id) m
          (Or.inr (Or.inr ⟨b, hb, by simpa using hnm⟩))]
  · rw [set_proxy_rejected w p id m (Or.inl hp)]

/-- Taking a reference on `m` raises the balance of `m` by one and of no other
object. -/
theorem ref_sink_balance (w : World) (m a : Nat) :
    refBalance (g_object_ref_sink w m) a = refBalance w a + (if m = a then 1 else 0) := by
  by_cases h : m = a
  · simp [refBalance, refsTaken, refsReleased, g_object_ref_sink, List.count_append,
      List.count_cons, h]
    omega
  · simp [refBalance, refsTaken, refsReleased, g_object_ref_sink, List.count_append,
      List.count_cons, h]

/-- Releasing a reference on `m` lowers the balance of `m` by one and of no
other object. -/
theorem unref_balance (w : World) (m a : Nat) :
    refBalance (g_object_unref w m) a = refBalance w a - (if m = a then 1 else 0) := by
  by_cases h : m = a
  · simp [refBalance, refsTaken, refsReleased, g_object_unref, List.count_append,
      List.count_cons, h]
    omega
  · simp [refBalance, refsTaken, refsReleased, g_object_unref, List.count_append,
      List.count_cons, h]

/-- The default `create-menu-proxy` handler keeps the reference balance of every
object. -/
theorem create_menu_proxy_keeps_balance (w : World) (a : Nat) :
    refBalance (_gtk_tool_item_create_menu_proxy w).1 a = refBalance w a := by
  unfold _gtk_tool_item_create_menu_proxy
  cases hact : w.item.action with
  | none => rfl
  | some act =>
    simp only
    split
    · simp only [unref_balance, set_proxy_keeps_balance, ref_sink_balance]
      have : refBalance (gtk_action_create_menu_item w act).1 a = refBalance w a := by
        simp [refBalance, refsTaken, refsReleased, gtk_action_create_menu_item,
          List.count_append, List.count_cons]
      rw [this]
      omega
    · exact set_proxy_keeps_balance w _ _ _ a

/-- `gtk_tool_item_set_related_action` keeps the reference balance of every
object. -/
theorem set_related_action_keeps_balance (w : World) (action : Option Nat) (a : Nat) :
    refBalance (gtk_tool_item_set_related_action w action) a = refBalance w a := by
  by_cases hcur : w.item.action = action
  · simp [gtk_tool_item_set_related_action, hcur]
  · obtain ⟨l, hall, hlog⟩ := set_related_action_log w action hcur
    have hmi : (gtk_tool_item_set_related_action w action).item.menu_item
        = w.item.menu_item := by
      cases action with
      | none =>
        simp [gtk_tool_item_set_related_action, hcur, gtk_activatable_do_set_related_action,
          gtk_tool_item_sync_action_properties, World.emit]
      | some b =>
        simp only [gtk_tool_item_set_related_action, hcur, if_false,
          gtk_activatable_do_set_related_action, (rebuild_menu_frame _ _).1,
          (sync_action_properties_result _ b).1]
        simp [World.emit]
    have h1 := count_eq_zero_of_all Effect.isSyncCall l (Effect.ref_sink a) hall rfl
    have h2 := count_eq_zero_of_all Effect.isSyncCall l (Effect.unref a) hall rfl
    have h3 : List.count (Effect.ref_sink a)
        (if action.isSome && GTK_IS_TOOL_SHELL (gtk_widget_get_parent w)
         then [Effect.shell_rebuild_menu] else []) = 0 := by
      split <;> simp
    have h4 : List.count (Effect.unref a)
        (if action.isSome && GTK_IS_TOOL_SHELL (gtk_widget_get_parent w)
         then [Effect.shell_rebuild_menu] else []) = 0 := by
      split <;> simp
    simp only [refBalance, refsTaken, refsReleased, hlog, hmi, List.count_append, h1, h2, h3,
      h4]
    simp [List.count_cons]

/-- Every proxy operation keeps the reference balance of every object. -/
theorem proxyStep_keeps_balance (w : World) (e : ProxyEvent) (a : Nat) :
    refBalance (proxyStep w e) a = refBalance w a := by
  cases e with
  | set_proxy id m => exact set_proxy_keeps_balance w _ id m a
  | create_menu_proxy => exact create_menu_proxy_keeps_balance w a
  | set_related_action action => exact set_related_action_keeps_balance w action a

/-- The reference balance of every object is the same before and after a run of
proxy operations. -/
theorem proxyRun_keeps_balance (events : List ProxyEvent) (w : World) (a : Nat) :
    refBalance (proxyRun w events) a = refBalance w a := by
  induction events generalizing w with
  | nil => rfl
  | cons e es ih =>
    simp only [proxyRun]
    rw [ih, proxyStep_keeps_balance]

/-- Setting the item's sensitivity changes the tooltip text of no widget. -/
theorem set_sensitive_item_tooltips (w : World) (s : Bool) (b : Nat) :
    ((gtk_widget_set_sensitive_item w s).objs b).tooltip_text = (w.objs b).tooltip_text := by
  unfold gtk_widget_set_sensitive_item g_object_notify gtk_tool_item_property_notify
  split
  · rfl
  · cases hm : w.item.menu_item with
    | none => simp [World.emit, hm]
    | some m =>
      simp only [World.emit, hm, if_true, gtk_widget_set_sensitive, setObj]
      split <;> simp_all

/-- The sync changes the tooltip text of no widget other than the child. -/
theorem sync_action_properties_tooltips (w : World) (a b : Nat)
    (hb : w.item.child ≠ some b) :
    ((gtk_tool_item_sync_action_properties w (some a)).objs b).tooltip_text
      = (w.objs b).tooltip_text := by
  simp only [gtk_tool_item_sync_action_properties]
  obtain ⟨i1, o1, -⟩ := show_or_hide_frame w (gtk_action_is_visible w a)
  generalize (if gtk_action_is_visible w a = true then gtk_widget_show w
    else gtk_widget_hide w) = w1 at i1 o1 ⊢
  obtain ⟨i2, -⟩ := set_sensitive_item_frame w1 (gtk_action_is_sensitive w1 a)
  have t2 := set_sensitive_item_tooltips w1 (gtk_action_is_sensitive w1 a) b
  generalize gtk_widget_set_sensitive_item w1 (gtk_action_is_sensitive w1 a) = w2 at i2 t2 ⊢
  obtain ⟨-, -, o3, n3⟩ := set_tooltip_text_frame w2 (gtk_action_get_tooltip w2 a)
  have hc2 : w2.item.child = w.item.child := by rw [i2, i1]
  have t3 : ((gtk_tool_item_set_tooltip_text w2 GtkToolItemPtr.item
      (gtk_action_get_tooltip w2 a)).objs b).tooltip_text = (w2.objs b).tooltip_text := by
    cases hch : w2.item.child with
    | none => rw [n3 hch]
    | some c =>
      have hbc : b ≠ c := fun e => hb (by rw [← hc2, hch, e])
      rw [(o3 c hch).2 b hbc]
  generalize gtk_tool_item_set_tooltip_text w2 GtkToolItemPtr.item
    (gtk_action_get_tooltip w2 a) = w3 at t3 ⊢
  obtain ⟨o4, -, -⟩ := notifying_setters_frame w3 (gtk_action_get_visible_horizontal w3 a)
  generalize gtk_tool_item_set_visible_horizontal w3 GtkToolItemPtr.item
    (gtk_action_get_visible_horizontal w3 a) = w4 at o4 ⊢
  obtain ⟨-, -, o5, -, -⟩ := notifying_setters_frame w4 (gtk_action_get_visible_vertical w4 a)
  generalize gtk_tool_item_set_visible_vertical w4 GtkToolItemPtr.item
    (gtk_action_get_visible_vertical w4 a) = w5 at o5 ⊢
  obtain ⟨-, -, -, -, o6, -⟩ := notifying_setters_frame w5 (gtk_action_get_is_important w5 a)
  rw [o6, o5, o4, t3, t2, o1]

/-- On an item without child the sync makes property notifications and resize
requests only: no tooltip call. -/
theorem sync_action_properties_onlyCalls_without_child (w : World) (a : Nat)
    (hc : w.item.child = none) :
    onlyCalls Effect.isNotifyOrResize w
      (gtk_tool_item_sync_action_properties w (some a)) := by
  have hnot : ∀ (u : World) (name : String),
      onlyCalls Effect.isNotifyOrResize u (g_object_notify u name) :=
    fun u name => ⟨[Effect.notify name], g_object_notify_log u name,
      by simp [Effect.isNotifyOrResize]⟩
  have hshow : ∀ (u : World) (b : Bool),
      onlyCalls Effect.isNotifyOrResize u
        (if b then gtk_widget_show u else gtk_widget_hide u) := by
    intro u b
    cases b <;> simp only [gtk_widget_show, gtk_widget_hide, Bool.false_eq_true, if_false,
      if_true] <;> split <;>
      first | exact onlyCalls_refl _ _ | exact hnot _ _
  have hsens : ∀ (u : World) (b : Bool),
      onlyCalls Effect.isNotifyOrResize u (gtk_widget_set_sensitive_item u b) := by
    intro u b
    unfold gtk_widget_set_sensitive_item
    split
    · exact onlyCalls_refl _ _
    · exact hnot _ _
  have hq : ∀ u : World, onlyCalls Effect.isNotifyOrResize u (gtk_widget_queue_resize u) :=
    fun u => ⟨[Effect.queue_resize], rfl, by simp [Effect.isNotifyOrResize]⟩
  have hst : ∀ (u : World) (i : GtkToolItem),
      onlyCalls Effect.isNotifyOrResize u { u with item := i } :=
    fun u i => ⟨[], by simp, by simp⟩
  have hvh : ∀ (u : World) (v : gboolean),
      onlyCalls Effect.isNotifyOrResize u
        (gtk_tool_item_set_visible_horizontal u GtkToolItemPtr.item v) := by
    intro u v
    unfold gtk_tool_item_set_visible_horizontal
    simp only [GTK_IS_TOOL_ITEM, Bool.not_true, Bool.false_eq_true, if_false]
    split
    · exact onlyCalls_trans _ _ _ _ (hst _ _) (onlyCalls_trans _ _ _ _ (hnot _ _) (hq _))
    · exact onlyCalls_refl _ _
  have hvv : ∀ (u : World) (v : gboolean),
      onlyCalls Effect.isNotifyOrResize u
        (gtk_tool_item_set_visible_vertical u GtkToolItemPtr.item v) := by
    intro u v
    unfold gtk_tool_item_set_visible_vertical
    simp only [GTK_IS_TOOL_ITEM, Bool.not_true, Bool.false_eq_true, if_false]
    split
    · exact onlyCalls_trans _ _ _ _ (hst _ _) (onlyCalls_trans _ _ _ _ (hnot _ _) (hq _))
    · exact onlyCalls_refl _ _
  have himp : ∀ (u : World) (v : gboolean),
      onlyCalls Effect.isNotifyOrResize u
        (gtk_tool_item_set_is_important u GtkToolItemPtr.item v) := by
    intro u v
    unfold gtk_tool_item_set_is_important
    simp only [GTK_IS_TOOL_ITEM, Bool.not_true, Bool.false_eq_true, if_false]
    split
    · exact onlyCalls_trans _ _ _ _ (hst _ _) (onlyCalls_trans _ _ _ _ (hq _) (hnot _ _))
    · exact onlyCalls_refl _ _
  simp only [gtk_tool_item_sync_action_properties]
  obtain ⟨i1, -, -⟩ := show_or_hide_frame w (gtk_action_is_visible w a)
  have c1 := hshow w (gtk_action_is_visible w a)
  generalize (if gtk_action_is_visible w a = true then gtk_widget_show w
    else gtk_widget_hide w) = w1 at i1 c1 ⊢
  obtain ⟨i2, -⟩ := set_sensitive_item_frame w1 (gtk_action_is_sensitive w1 a)
  have c2 := hsens w1 (gtk_action_is_sensitive w1 a)
  generalize gtk_widget_set_sensitive_item w1 (gtk_action_is_sensitive w1 a) = w2 at i2 c2 ⊢
  have hc2 : w2.item.child = none := by rw [i2, i1]; exact hc
  rw [(set_tooltip_text_frame w2 (gtk_action_get_tooltip w2 a)).2.2.2 hc2]
  exact onlyCalls_trans _ _ _ _ (onlyCalls_trans _ _ _ _ (onlyCalls_trans _ _ _ _
    (onlyCalls_trans _ _ _ _ c1 c2) (hvh _ _)) (hvv _ _)) (himp _ _)

/-- Binding an action to an item without child makes no tooltip call. -/
theorem set_related_action_no_tooltip_call (w : World) (a : Nat)
    (hne : w.item.action ≠ some a) (hc : w.item.child = none) (c : Nat) (t : Option String) :
    Effect.set_tooltip_text c t ∉ callsSince w (gtk_tool_item_set_related_action w (some a)) := by
  obtain ⟨l, hl, hall⟩ := sync_action_properties_onlyCalls_without_child
    (w.emit (Effect.do_set_related_action (some a))) a hc
  have hlog : (gtk_tool_item_set_related_action w (some a)).log
      = w.log ++ ([Effect.do_set_related_action (some a)] ++ l
          ++ (if GTK_IS_TOOL_SHELL (gtk_widget_get_parent
                (gtk_tool_item_sync_action_properties
                  (w.emit (Effect.do_set_related_action (some a))) (some a)))
              then [Effect.shell_rebuild_menu] else [])) := by
    simp only [gtk_tool_item_set_related_action, hne, if_false,
      gtk_activatable_do_set_related_action, gtk_tool_item_rebuild_menu, GTK_IS_TOOL_ITEM,
      gtk_widget_get_parent, Bool.not_true, Bool.false_eq_true]
    simp only [World.emit] at hl ⊢
    split
    · simp [gtk_tool_shell_rebuild_menu, World.emit, hl]
    · simp [hl]
  rw [callsSince_of_log w _ _ hlog]
  intro hmem
  simp only [List.mem_append, List.mem_singleton] at hmem
  rcases hmem with (hmem | hmem) | hmem
  · cases hmem
  · have := List.all_eq_true.mp hall _ hmem
    simp [Effect.isNotifyOrResize] at this
  · split at hmem
    · simp at hmem
    · simp at hmem

/-! ### Claims -/

/-- C1: for a tool item whose parent is absent or is no tool shell, each of the
eight shell queries returns its fixed default (horizontal, large-toolbar, icons,
none-relief, 0.5, horizontal, no size group, none-ellipsize); with a tool-shell
parent each query returns what that shell answers. -/
theorem shell_query_default_or_forwarded (w : World) :
    ((gtk_widget_get_parent w = none ∨ GTK_IS_TOOL_SHELL (gtk_widget_get_parent w) = false) →
      gtk_tool_item_get_orientation w GtkToolItemPtr.item = GTK_ORIENTATION_HORIZONTAL ∧
      gtk_tool_item_get_icon_size w GtkToolItemPtr.item = GTK_ICON_SIZE_LARGE_TOOLBAR ∧
      gtk_tool_item_get_toolbar_style w GtkToolItemPtr.item = GTK_TOOLBAR_ICONS ∧
      gtk_tool_item_get_relief_style w GtkToolItemPtr.item = GTK_RELIEF_NONE ∧
      gtk_tool_item_get_text_alignment w GtkToolItemPtr.item = 0.5 ∧
      gtk_tool_item_get_text_orientation w GtkToolItemPtr.item = GTK_ORIENTATION_HORIZONTAL ∧
      gtk_tool_item_get_text_size_group w GtkToolItemPtr.item = none ∧
      gtk_tool_item_get_ellipsize_mode w GtkToolItemPtr.item = PANGO_ELLIPSIZE_NONE) ∧
    (∀ shell, gtk_widget_get_parent w = some (ParentWidget.tool_shell shell) →
      gtk_tool_item_get_orientation w GtkToolItemPtr.item = shell.orientation ∧
      gtk_tool_item_get_icon_size w GtkToolItemPtr.item = shell.icon_size ∧
      gtk_tool_item_get_toolbar_style w GtkToolItemPtr.item = shell.style ∧
      gtk_tool_item_get_relief_style w GtkToolItemPtr.item = shell.relief_style ∧
      gtk_tool_item_get_text_alignment w GtkToolItemPtr.item = shell.text_alignment ∧
      gtk_tool_item_get_text_orientation w GtkToolItemPtr.item = shell.text_orientation ∧
      gtk_tool_item_get_text_size_group w GtkToolItemPtr.item = shell.text_size_group ∧
      gtk_tool_item_get_ellipsize_mode w GtkToolItemPtr.item = shell.ellipsize_mode) := by
  constructor
  · intro h
    have hp : ∀ shell, gtk_widget_get_parent w ≠ some (ParentWidget.tool_shell shell) := by
      intro shell hs
      rcases h with h | h
      · rw [h] at hs; cases hs
      · rw [hs] at h; simp [GTK_IS_TOOL_SHELL] at h
    simp only [gtk_tool_item_get_orientation, gtk_tool_item_get_icon_size,
      gtk_tool_item_get_toolbar_style, gtk_tool_item_get_relief_style,
      gtk_tool_item_get_text_alignment, gtk_tool_item_get_text_orientation,
      gtk_tool_item_get_text_size_group, gtk_tool_item_get_ellipsize_mode, GTK_IS_TOOL_ITEM]
    cases hq : gtk_widget_get_parent w with
    | none => simp
    | some p =>
      cases p with
      | plain => simp
      | tool_shell shell => exact absurd hq (hp shell)
  · intro shell hs
    simp [gtk_tool_item_get_orientation, gtk_tool_item_get_icon_size,
      gtk_tool_item_get_toolbar_style, gtk_tool_item_get_relief_style,
      gtk_tool_item_get_text_alignment, gtk_tool_item_get_text_orientation,
      gtk_tool_item_get_text_size_group, gtk_tool_item_get_ellipsize_mode, GTK_IS_TOOL_ITEM, hs]

/-- C1, at sample items: a new item without parent and an item in a plain
container answer the defaults, an item in a vertical toolbar answers what the
toolbar says. -/
theorem shell_query_default_or_forwarded_witness :
    (gtk_tool_item_get_orientation newWorld GtkToolItemPtr.item = GTK_ORIENTATION_HORIZONTAL ∧
      gtk_tool_item_get_icon_size newWorld GtkToolItemPtr.item = GTK_ICON_SIZE_LARGE_TOOLBAR ∧
      gtk_tool_item_get_toolbar_style newWorld GtkToolItemPtr.item = GTK_TOOLBAR_ICONS ∧
      gtk_tool_item_get_relief_style newWorld GtkToolItemPtr.item = GTK_RELIEF_NONE ∧
      gtk_tool_item_get_text_alignment newWorld GtkToolItemPtr.item = 0.5 ∧
      gtk_tool_item_get_text_orientation newWorld GtkToolItemPtr.item
        = GTK_ORIENTATION_HORIZONTAL ∧
      gtk_tool_item_get_text_size_group newWorld GtkToolItemPtr.item = none ∧
      gtk_tool_item_get_ellipsize_mode newWorld GtkToolItemPtr.item = PANGO_ELLIPSIZE_NONE) ∧
    gtk_tool_item_get_toolbar_style boxWorld GtkToolItemPtr.item = GTK_TOOLBAR_ICONS ∧
    (gtk_tool_item_get_orientation shellWorld GtkToolItemPtr.item = GTK_ORIENTATION_VERTICAL ∧
      gtk_tool_item_get_icon_size shellWorld GtkToolItemPtr.item = GTK_ICON_SIZE_MENU ∧
      gtk_tool_item_get_toolbar_style shellWorld GtkToolItemPtr.item = GTK_TOOLBAR_BOTH ∧
      gtk_tool_item_get_relief_style shellWorld GtkToolItemPtr.item = GTK_RELIEF_NORMAL ∧
      gtk_tool_item_get_text_alignment shellWorld GtkToolItemPtr.item = 1 ∧
      gtk_tool_item_get_text_orientation shellWorld GtkToolItemPtr.item
        = GTK_ORIENTATION_VERTICAL ∧
      gtk_tool_item_get_text_size_group shellWorld GtkToolItemPtr.item = some 7 ∧
      gtk_tool_item_get_ellipsize_mode shellWorld GtkToolItemPtr.item = PANGO_ELLIPSIZE_END) :=
  ⟨(shell_query_default_or_forwarded newWorld).1 (Or.inl rfl),
   ((shell_query_default_or_forwarded boxWorld).1 (Or.inr rfl)).2.2.1,
   (shell_query_default_or_forwarded shellWorld).2 verticalShell rfl⟩

/-- C2: after `set_proxy_menu_item (id, m)` with a non-null id and `m` a menu
item or none, the lookup under `id` returns `m` and the lookup under any other
id returns none; after a later `set_proxy_menu_item` under another id the lookup
under the earlier id returns none. -/
theorem get_proxy_after_set_proxy (w : World) (id : String) (m : Option Nat)
    (hm : ∀ a, m = some a → GTK_IS_MENU_ITEM w a = true) :
    gtk_tool_item_get_proxy_menu_item
        (gtk_tool_item_set_proxy_menu_item w GtkToolItemPtr.item (some id) m)
        GtkToolItemPtr.item (some id) = m ∧
    (∀ id' : Option String, id' ≠ some id →
      gtk_tool_item_get_proxy_menu_item
        (gtk_tool_item_set_proxy_menu_item w GtkToolItemPtr.item (some id) m)
        GtkToolItemPtr.item id' = none) ∧
    (∀ (id2 : String) (m2 : Option Nat), id2 ≠ id →
      (∀ a, m2 = some a → GTK_IS_MENU_ITEM w a = true) →
      gtk_tool_item_get_proxy_menu_item
        (gtk_tool_item_set_proxy_menu_item
          (gtk_tool_item_set_proxy_menu_item w GtkToolItemPtr.item (some id) m)
          GtkToolItemPtr.item (some id2) m2)
        GtkToolItemPtr.item (some id) = none) := by
  refine ⟨?_, ?_, ?_⟩
  · rw [get_proxy_eq, set_proxy_item w id m hm]
    simp
  · intro id' hid
    cases id' with
    | none => simp [gtk_tool_item_get_proxy_menu_item, GTK_IS_TOOL_ITEM]
    | some id' =>
      rw [get_proxy_eq, set_proxy_item w id m hm]
      have : id ≠ id' := fun h => hid (by rw [h])
      simp [this]
  · intro id2 m2 hid hm2
    have hm2' : ∀ a, m2 = some a → GTK_IS_MENU_ITEM
        (gtk_tool_item_set_proxy_menu_item w GtkToolItemPtr.item (some id) m) a = true := by
      intro a ha
      rw [set_proxy_is_menu_item]
      exact hm2 a ha
    rw [get_proxy_eq, set_proxy_item _ id2 m2 hm2']
    simp [hid]

/-- C2, on a new item: menu item `0` installed under `"a"` is found under `"a"`
and not under `"b"`; once menu item `2` is installed under `"b"`, nothing is
found under `"a"`. -/
theorem get_proxy_after_set_proxy_witness :
    gtk_tool_item_get_proxy_menu_item
        (gtk_tool_item_set_proxy_menu_item newWorld GtkToolItemPtr.item (some "a") (some 0))
        GtkToolItemPtr.item (some "a") = some 0 ∧
    gtk_tool_item_get_proxy_menu_item
        (gtk_tool_item_set_proxy_menu_item newWorld GtkToolItemPtr.item (some "a") (some 0))
        GtkToolItemPtr.item (some "b") = none ∧
    gtk_tool_item_get_proxy_menu_item
        (gtk_tool_item_set_proxy_menu_item
          (gtk_tool_item_set_proxy_menu_item newWorld GtkToolItemPtr.item (some "a") (some 0))
          GtkToolItemPtr.item (some "b") (some 2))
        GtkToolItemPtr.item (some "a") = none :=
  have hm : ∀ a, some 0 = some a → GTK_IS_MENU_ITEM newWorld a = true := by
    intro a ha
    cases ha
    decide
  ⟨(get_proxy_after_set_proxy newWorld "a" (some 0) hm).1,
   (get_proxy_after_set_proxy newWorld "a" (some 0) hm).2.1 (some "b") (by decide),
   (get_proxy_after_set_proxy newWorld "a" (some 0) hm).2.2 "b" (some 2) (by decide)
     (by intro a ha; cases ha; decide)⟩

/-- C3: the default `create-menu-proxy` handler returns true exactly when an
action is bound, whatever that action's `visible-overflown` flag; without an
action it returns false and changes nothing. -/
theorem create_menu_proxy_handled_iff_action (w : World) :
    ((_gtk_tool_item_create_menu_proxy w).2 = TRUE ↔ w.item.action ≠ none) ∧
    (w.item.action = none → _gtk_tool_item_create_menu_proxy w = (w, FALSE)) := by
  unfold _gtk_tool_item_create_menu_proxy
  cases h : w.item.action with
  | none => simp [TRUE, FALSE]
  | some a =>
    simp only
    split <;> simp

/-- C3, at sample items: the handler is unhandled on a new item and leaves it
as it is, and is handled on items bound to either kind of action. -/
theorem create_menu_proxy_handled_iff_action_witness :
    (_gtk_tool_item_create_menu_proxy newWorld).2 = FALSE ∧
    (_gtk_tool_item_create_menu_proxy newWorld).1.item = newWorld.item ∧
    (_gtk_tool_item_create_menu_proxy boundWorld).2 = TRUE ∧
    (_gtk_tool_item_create_menu_proxy boundHiddenWorld).2 = TRUE :=
  have h := (create_menu_proxy_handled_iff_action newWorld).2 rfl
  ⟨by rw [h], by rw [h],
   (create_menu_proxy_handled_iff_action boundWorld).1.2 (by decide),
   (create_menu_proxy_handled_iff_action boundHiddenWorld).1.2 (by decide)⟩

/-- C4 as stated fails: on an item bound to an action shown in the overflow
menu, after the default handler ran, the lookup under `"action-menu-item"` does
not return the menu item created from the action (it returns none). -/
theorem action_menu_item_id_counterexample :
    boundWorld.item.action = some 0 ∧
    (boundWorld.actions 0).visible_overflown = true ∧
    gtk_tool_item_get_proxy_menu_item (_gtk_tool_item_create_menu_proxy boundWorld).1
      GtkToolItemPtr.item (some "action-menu-item")
      ≠ some (gtk_action_create_menu_item boundWorld 0).2 ∧
    gtk_tool_item_get_proxy_menu_item (_gtk_tool_item_create_menu_proxy boundWorld).1
      GtkToolItemPtr.item (some "action-menu-item") = none := by
  have h := create_menu_proxy_item_of_overflown boundWorld 0 rfl rfl
  refine ⟨rfl, rfl, ?_, ?_⟩ <;> rw [get_proxy_eq, h] <;> simp

/-- C4, amended: with a bound action whose `visible-overflown` flag is true,
the default handler returns true and stores the menu item created from the
action under the id `"gtk-action-menu-item"`: the lookup under that id returns
the created menu item, which is a menu item, and the lookup under
`"action-menu-item"` returns none. -/
theorem create_menu_proxy_stores_action_item (w : World) (a : Nat)
    (ha : w.item.action = some a) (hv : (w.actions a).visible_overflown = true) :
    (_gtk_tool_item_create_menu_proxy w).2 = TRUE ∧
    gtk_tool_item_get_proxy_menu_item (_gtk_tool_item_create_menu_proxy w).1
      GtkToolItemPtr.item (some "gtk-action-menu-item")
      = some (gtk_action_create_menu_item w a).2 ∧
    GTK_IS_MENU_ITEM (_gtk_tool_item_create_menu_proxy w).1
      (gtk_action_create_menu_item w a).2 = true ∧
    gtk_tool_item_get_proxy_menu_item (_gtk_tool_item_create_menu_proxy w).1
      GtkToolItemPtr.item (some "action-menu-item") = none := by
  have h := create_menu_proxy_item_of_overflown w a ha hv
  refine ⟨?_, ?_, ?_, ?_⟩
  · simp [_gtk_tool_item_create_menu_proxy, ha, hv]
  · rw [get_proxy_eq, h]
    simp
  · simp only [_gtk_tool_item_create_menu_proxy, ha, hv, if_true]
    simp only [GTK_IS_MENU_ITEM, g_object_unref, setObj, if_true]
    have := set_proxy_is_menu_item (g_object_ref_sink (gtk_action_create_menu_item w a).1
      (gtk_action_create_menu_item w a).2) GtkToolItemPtr.item (some "gtk-action-menu-item")
      (some (gtk_action_create_menu_item w a).2) (gtk_action_create_menu_item w a).2
    simp only [GTK_IS_MENU_ITEM] at this
    rw [this]
    simp [g_object_ref_sink, gtk_action_create_menu_item, setObj]
  · rw [get_proxy_eq, h]
    simp

/-- C4, amended, on the item bound to action `0`: the handler creates menu item
`100` and it is found under `"gtk-action-menu-item"`. -/
theorem create_menu_proxy_stores_action_item_witness :
    (_gtk_tool_item_create_menu_proxy boundWorld).2 = TRUE ∧
    gtk_tool_item_get_proxy_menu_item (_gtk_tool_item_create_menu_proxy boundWorld).1
      GtkToolItemPtr.item (some "gtk-action-menu-item") = some 100 ∧
    GTK_IS_MENU_ITEM (_gtk_tool_item_create_menu_proxy boundWorld).1 100 = true ∧
    gtk_tool_item_get_proxy_menu_item (_gtk_tool_item_create_menu_proxy boundWorld).1
      GtkToolItemPtr.item (some "action-menu-item") = none :=
  create_menu_proxy_stores_action_item boundWorld 0 rfl rfl

/-- C5: with a bound action whose `visible-overflown` flag is false, whatever
proxy was stored, the default handler returns true and leaves no stored proxy
while the stored id is the handler's id, so the lookup under that id sees none;
`retrieve_proxy_menu_item` with only the default handler returns none, before
and after. -/
theorem create_menu_proxy_clears_when_not_overflown (w : World) (a : Nat)
    (ha : w.item.action = some a) (hv : (w.actions a).visible_overflown = false) :
    (_gtk_tool_item_create_menu_proxy w).2 = TRUE ∧
    (_gtk_tool_item_create_menu_proxy w).1.item.menu_item = none ∧
    (_gtk_tool_item_create_menu_proxy w).1.item.menu_item_id = some "gtk-action-menu-item" ∧
    gtk_tool_item_get_proxy_menu_item (_gtk_tool_item_create_menu_proxy w).1
      GtkToolItemPtr.item (some "gtk-action-menu-item") = none ∧
    (gtk_tool_item_retrieve_proxy_menu_item [] w GtkToolItemPtr.item).2 = none ∧
    (gtk_tool_item_retrieve_proxy_menu_item [] (_gtk_tool_item_create_menu_proxy w).1
      GtkToolItemPtr.item).2 = none := by
  have h := create_menu_proxy_item_of_hidden w a ha hv
  have hr : ∀ v : World, v.item.action = some a → (v.actions a).visible_overflown = false →
      (gtk_tool_item_retrieve_proxy_menu_item [] v GtkToolItemPtr.item).2 = none := by
    intro v hva hvv
    have := create_menu_proxy_item_of_hidden (v.emit (Effect.emit "create-menu-proxy")) a hva hvv
    simp only [gtk_tool_item_retrieve_proxy_menu_item, GTK_IS_TOOL_ITEM, emit_create_menu_proxy]
    simp [this]
  refine ⟨?_, ?_, ?_, ?_, hr w ha hv, ?_⟩
  · simp [_gtk_tool_item_create_menu_proxy, ha, hv]
  · rw [h]
  · rw [h]
  · rw [get_proxy_eq, h]
    simp
  · apply hr
    · rw [h]
      exact ha
    · simp only [_gtk_tool_item_create_menu_proxy, ha, hv]
      have : (gtk_tool_item_set_proxy_menu_item w GtkToolItemPtr.item
          (some "gtk-action-menu-item") none).actions = w.actions := by
        unfold gtk_tool_item_set_proxy_menu_item
        simp only [GTK_IS_TOOL_ITEM]
        cases hm : w.item.menu_item <;> simp [hm, g_object_unref]
      simp only [Bool.false_eq_true, if_false]
      rw [this]
      exact hv

/-- C5, on the item bound to action `1` with menu item `4` installed under
`"mine"`: the handler returns true, the proxy is gone and the id is the
handler's. -/
theorem create_menu_proxy_clears_when_not_overflown_witness :
    (_gtk_tool_item_create_menu_proxy boundHiddenWorld).2 = TRUE ∧
    (_gtk_tool_item_create_menu_proxy boundHiddenWorld).1.item.menu_item = none ∧
    (_gtk_tool_item_create_menu_proxy boundHiddenWorld).1.item.menu_item_id
      = some "gtk-action-menu-item" ∧
    gtk_tool_item_get_proxy_menu_item (_gtk_tool_item_create_menu_proxy boundHiddenWorld).1
      GtkToolItemPtr.item (some "gtk-action-menu-item") = none ∧
    (gtk_tool_item_retrieve_proxy_menu_item [] boundHiddenWorld GtkToolItemPtr.item).2 = none ∧
    (gtk_tool_item_retrieve_proxy_menu_item []
      (_gtk_tool_item_create_menu_proxy boundHiddenWorld).1 GtkToolItemPtr.item).2 = none :=
  create_menu_proxy_clears_when_not_overflown boundHiddenWorld 1 rfl rfl

/-- C6: with a proxy menu item installed, once the item's `sensitive` flag is
set to `s` and the notification for `"sensitive"` is delivered, the proxy's
`sensitive` flag is `s` (through the class handler alone, and through
`gtk_widget_set_sensitive` on the item when the flag changes); a notification
for any other property name changes nothing. -/
theorem proxy_sensitivity_follows_item (w : World) (m : Nat) (s : Bool)
    (hm : w.item.menu_item = some m) :
    ((gtk_tool_item_property_notify
        { w with item := { w.item with sensitive := s } } "sensitive").objs m).sensitive = s ∧
    (w.item.sensitive ≠ s → ((gtk_widget_set_sensitive_item w s).objs m).sensitive = s) ∧
    (∀ name : String, name ≠ "sensitive" → gtk_tool_item_property_notify w name = w) := by
  refine ⟨?_, ?_, ?_⟩
  · simp [gtk_tool_item_property_notify, hm, gtk_widget_set_sensitive, gtk_widget_get_sensitive,
      setObj]
  · intro hs
    simp [gtk_widget_set_sensitive_item, hs, g_object_notify, gtk_tool_item_property_notify,
      World.emit, hm, gtk_widget_set_sensitive, gtk_widget_get_sensitive, setObj]
  · intro name hn
    simp [gtk_tool_item_property_notify, hm, hn]

/-- C6, on the new item with menu item `0` installed: making the item
insensitive makes the proxy insensitive, making it sensitive again makes the
proxy sensitive, and a `"visible"` notification changes nothing. -/
theorem proxy_sensitivity_follows_item_witness :
    ((gtk_tool_item_property_notify
        { proxyWorld with item := { proxyWorld.item with sensitive := false } }
        "sensitive").objs 0).sensitive = false ∧
    ((gtk_widget_set_sensitive_item proxyWorld false).objs 0).sensitive = false ∧
    ((gtk_widget_set_sensitive_item
        (gtk_widget_set_sensitive_item proxyWorld false) true).objs 0).sensitive = true ∧
    gtk_tool_item_property_notify proxyWorld "visible" = proxyWorld :=
  ⟨(proxy_sensitivity_follows_item proxyWorld 0 false rfl).1,
   (proxy_sensitivity_follows_item proxyWorld 0 false rfl).2.1 (by decide),
   (proxy_sensitivity_follows_item (gtk_widget_set_sensitive_item proxyWorld false) 0 true
     rfl).2.1 (by decide),
   (proxy_sensitivity_follows_item proxyWorld 0 false rfl).2.2 "visible" (by decide)⟩

/-- C7 as stated fails: menu item `0` is the stored proxy of a sensitive item
and has been made insensitive since; after `set_proxy_menu_item ("a", 0)` it is
still insensitive while the item is sensitive. -/
theorem set_proxy_same_item_counterexample :
    staleProxyWorld.item.menu_item = some 0 ∧
    GTK_IS_MENU_ITEM staleProxyWorld 0 = true ∧
    (gtk_tool_item_set_proxy_menu_item staleProxyWorld GtkToolItemPtr.item
      (some "a") (some 0)).item.sensitive = true ∧
    ((gtk_tool_item_set_proxy_menu_item staleProxyWorld GtkToolItemPtr.item
      (some "a") (some 0)).objs 0).sensitive = false := by
  refine ⟨by decide, by decide, by decide, by decide⟩

/-- C7, amended: for a non-null id and a menu item `m`, `set_proxy_menu_item
(id, m)` stores the id and `m` and leaves the rest of the item, its `sensitive`
flag included, as it was; when `m` is not the proxy currently stored, afterwards
the `sensitive` flag of `m` is the item's `sensitive` flag; when `m` is the proxy
already stored, the call only replaces the id: the world it returns is the world
given with the new id, so every widget, `m` and its `sensitive` flag included,
and the trace of calls are as they were. -/
theorem set_proxy_propagates_sensitivity (w : World) (id : String) (m : Nat)
    (hm : GTK_IS_MENU_ITEM w m = true) :
    (gtk_tool_item_set_proxy_menu_item w GtkToolItemPtr.item (some id) (some m)).item
      = { w.item with menu_item_id := some id, menu_item := some m } ∧
    (gtk_tool_item_set_proxy_menu_item w GtkToolItemPtr.item (some id) (some m)).item.sensitive
      = w.item.sensitive ∧
    (w.item.menu_item ≠ some m →
      ((gtk_tool_item_set_proxy_menu_item w GtkToolItemPtr.item (some id) (some m)).objs m).sensitive
        = w.item.sensitive) ∧
    (w.item.menu_item = some m →
      (gtk_tool_item_set_proxy_menu_item w GtkToolItemPtr.item (some id) (some m)).objs
        = w.objs) ∧
    (w.item.menu_item = some m →
      gtk_tool_item_set_proxy_menu_item w GtkToolItemPtr.item (some id) (some m)
        = { w with item := { w.item with menu_item_id := some id } } ∧
      (gtk_tool_item_set_proxy_menu_item w GtkToolItemPtr.item (some id)
        (some m)).item.menu_item_id = some id ∧
      ((gtk_tool_item_set_proxy_menu_item w GtkToolItemPtr.item (some id)
        (some m)).objs m).sensitive = (w.objs m).sensitive) := by
  have hitem := set_proxy_item w id (some m) (by intro a ha; cases ha; exact hm)
  have hsame : w.item.menu_item = some m →
      gtk_tool_item_set_proxy_menu_item w GtkToolItemPtr.item (some id) (some m)
        = { w with item := { w.item with menu_item_id := some id } } := by
    intro heq
    unfold gtk_tool_item_set_proxy_menu_item
    simp [GTK_IS_TOOL_ITEM, hm, heq]
  refine ⟨hitem, ?_, ?_, ?_, ?_⟩
  · rw [hitem]
  · intro hne
    unfold gtk_tool_item_set_proxy_menu_item
    simp only [GTK_IS_TOOL_ITEM, hm]
    cases h : w.item.menu_item <;>
      simp_all [g_object_unref, g_object_ref_sink, gtk_widget_set_sensitive,
        gtk_widget_get_sensitive, setObj]
  · intro heq
    rw [hsame heq]
  · intro heq
    refine ⟨hsame heq, ?_, ?_⟩
    · rw [hitem]
    · rw [hsame heq]

/-- C7, amended, at sample items: installing menu item `2` on the item whose
proxy is `0` gives `2` the item's sensitivity; installing `0` again under the id
`"z"` replaces the id and nothing else, so `0` stays insensitive. -/
theorem set_proxy_propagates_sensitivity_witness :
    ((gtk_tool_item_set_proxy_menu_item staleProxyWorld GtkToolItemPtr.item
      (some "b") (some 2)).objs 2).sensitive = staleProxyWorld.item.sensitive ∧
    (gtk_tool_item_set_proxy_menu_item staleProxyWorld GtkToolItemPtr.item
      (some "a") (some 0)).objs = staleProxyWorld.objs ∧
    gtk_tool_item_set_proxy_menu_item staleProxyWorld GtkToolItemPtr.item (some "z") (some 0)
      = { staleProxyWorld with
          item := { staleProxyWorld.item with menu_item_id := some "z" } } ∧
    (gtk_tool_item_set_proxy_menu_item staleProxyWorld GtkToolItemPtr.item
      (some "z") (some 0)).item.menu_item_id = some "z" ∧
    ((gtk_tool_item_set_proxy_menu_item staleProxyWorld GtkToolItemPtr.item
      (some "z") (some 0)).objs 0).sensitive = (staleProxyWorld.objs 0).sensitive :=
  ⟨(set_proxy_propagates_sensitivity staleProxyWorld "b" 2 (by decide)).2.2.1 (by decide),
   (set_proxy_propagates_sensitivity staleProxyWorld "a" 0 (by decide)).2.2.2.1 (by decide),
   (set_proxy_propagates_sensitivity staleProxyWorld "z" 0 (by decide)).2.2.2.2 (by decide)⟩

/-- C8: in every state a newly created tool item reaches by realize (when not
realized), unrealize, map, unmap, size-allocate, toolbar_reconfigured and
set_use_drag_window with any argument, the drag window is present exactly when
`use_drag_window` is set and the widget is realized; and so it is right after
one more set_use_drag_window call. -/
theorem drag_window_iff_flag_and_realized (w : World) (h : Reachable w) :
    (w.item.drag_window ≠ none ↔ (w.item.use_drag_window = true ∧ w.item.realized = true)) ∧
    ∀ v : gboolean,
      ((gtk_tool_item_set_use_drag_window w GtkToolItemPtr.item v).item.drag_window ≠ none ↔
        ((gtk_tool_item_set_use_drag_window w GtkToolItemPtr.item v).item.use_drag_window = true ∧
         (gtk_tool_item_set_use_drag_window w GtkToolItemPtr.item v).item.realized = true)) := by
  obtain ⟨objs, actions, next, events, hr⟩ := h
  have h0 := run_keeps_drag_window events (gtk_tool_item_new objs actions next) w rfl hr
  have key : ∀ u : World,
      u.item.drag_window.isSome = (u.item.use_drag_window && u.item.realized) →
      (u.item.drag_window ≠ none ↔ (u.item.use_drag_window = true ∧ u.item.realized = true)) := by
    intro u hu
    rw [← Bool.and_eq_true, ← hu, Option.isSome_iff_ne_none]
  refine ⟨key w h0, fun v => ?_⟩
  exact key _ (step_keeps_drag_window w (Event.set_use_drag_window v) h0)

/-- C8, after scenario S2: the item that had the flag switched on and was then
realized, mapped and allocated has its drag window, and has none once the flag
is switched off. -/
theorem drag_window_iff_flag_and_realized_witness :
    Reachable dragWorld ∧
    (dragWorld.item.drag_window ≠ none ↔
      (dragWorld.item.use_drag_window = true ∧ dragWorld.item.realized = true)) ∧
    dragWorld.item.drag_window ≠ none ∧
    (gtk_tool_item_set_use_drag_window dragWorld GtkToolItemPtr.item 0).item.drag_window
      = none :=
  have hr : Reachable dragWorld := ⟨_, _, 100, dragEvents, rfl⟩
  ⟨hr, (drag_window_iff_flag_and_realized dragWorld hr).1,
   ((drag_window_iff_flag_and_realized dragWorld hr).1).2 ⟨by decide, by decide⟩,
   by
     have h := (drag_window_iff_flag_and_realized dragWorld hr).2 0
     by_contra hne
     exact absurd (h.1 hne).1 (by decide)⟩

/-- C9: after `size_allocate (r)` the item's allocation is `r`; a child that is
present and visible is allocated exactly `r`, an absent or invisible child is
not allocated (no widget changes and no allocation call is made); a drag window
that is present is moved and resized to exactly `r`, and none is created. -/
theorem size_allocate_passes_rectangle (w : World) (r : GtkAllocation) :
    (gtk_tool_item_size_allocate w r).item.allocation = r ∧
    (∀ c, w.item.child = some c → (w.objs c).visible = true →
      ((gtk_tool_item_size_allocate w r).objs c).allocation = r ∧
      Effect.size_allocate c r ∈ callsSince w (gtk_tool_item_size_allocate w r)) ∧
    ((w.item.child = none ∨ ∃ c, w.item.child = some c ∧ (w.objs c).visible = false) →
      (gtk_tool_item_size_allocate w r).objs = w.objs ∧
      ∀ c r', Effect.size_allocate c r' ∉ callsSince w (gtk_tool_item_size_allocate w r)) ∧
    (∀ d, w.item.drag_window = some d →
      (gtk_tool_item_size_allocate w r).item.drag_window
        = some { x := r.x, y := r.y, width := r.width, height := r.height, shown := d.shown } ∧
      Effect.window_move_resize r.x r.y r.width r.height
        ∈ callsSince w (gtk_tool_item_size_allocate w r)) ∧
    (w.item.drag_window = none → (gtk_tool_item_size_allocate w r).item.drag_window = none) := by
  obtain ⟨⟨vh, vv, ho, ex, udw, imp, uaa, dw, mid, mi, act, par, ch, re, ma, vis, sen, al⟩,
    objs, actions, next, log⟩ := w
  refine ⟨?_, ?_, ?_, ?_, ?_⟩
  · cases dw <;> cases ch <;>
      simp [gtk_tool_item_size_allocate, gtk_widget_set_allocation, gdk_window_move_resize,
        gtk_bin_get_child, _gtk_widget_set_simple_clip, World.emit, gtk_widget_size_allocate,
        gtk_widget_get_visible] <;>
      split <;> simp
  · intro c hc hvis
    simp only [Option.some.injEq] at hc
    subst hc
    cases dw <;>
      simp_all [gtk_tool_item_size_allocate, gtk_widget_set_allocation, gdk_window_move_resize,
        gtk_bin_get_child, _gtk_widget_set_simple_clip, World.emit, gtk_widget_size_allocate,
        gtk_widget_get_visible, callsSince, setObj]
  · intro h
    rcases h with h | ⟨c, hc, hvis⟩
    · simp only at h
      subst h
      cases dw <;>
        simp [gtk_tool_item_size_allocate, gtk_widget_set_allocation, gdk_window_move_resize,
          gtk_bin_get_child, _gtk_widget_set_simple_clip, World.emit, callsSince]
    · simp only [Option.some.injEq] at hc
      subst hc
      cases dw <;>
        simp_all [gtk_tool_item_size_allocate, gtk_widget_set_allocation, gdk_window_move_resize,
          gtk_bin_get_child, _gtk_widget_set_simple_clip, World.emit, gtk_widget_get_visible,
          callsSince]
  · intro d hd
    simp only [Option.some.injEq] at hd
    subst hd
    cases ch with
    | none =>
      simp [gtk_tool_item_size_allocate, gtk_widget_set_allocation, gdk_window_move_resize,
        gtk_bin_get_child, _gtk_widget_set_simple_clip, World.emit, callsSince]
    | some c =>
      simp only [gtk_tool_item_size_allocate, gtk_widget_set_allocation, gdk_window_move_resize,
        gtk_bin_get_child, _gtk_widget_set_simple_clip, World.emit, gtk_widget_size_allocate,
        gtk_widget_get_visible, callsSince]
      split <;> simp
  · intro hd
    simp only at hd
    subst hd
    cases ch with
    | none =>
      simp [gtk_tool_item_size_allocate, gtk_widget_set_allocation, gtk_bin_get_child,
        _gtk_widget_set_simple_clip, World.emit]
    | some c =>
      simp only [gtk_tool_item_size_allocate, gtk_widget_set_allocation, gtk_bin_get_child,
        _gtk_widget_set_simple_clip, World.emit, gtk_widget_size_allocate,
        gtk_widget_get_visible]
      split <;> simp

/-- C9, on the mapped item with a drag window and the visible child `3`:
allocating `(1, 2, 3, 4)` gives that rectangle to the item, to the child and to
the drag window; without a child no widget is touched. -/
theorem size_allocate_passes_rectangle_witness :
    (gtk_tool_item_size_allocate childWorld ⟨1, 2, 3, 4⟩).item.allocation = ⟨1, 2, 3, 4⟩ ∧
    ((gtk_tool_item_size_allocate childWorld ⟨1, 2, 3, 4⟩).objs 3).allocation = ⟨1, 2, 3, 4⟩ ∧
    (gtk_tool_item_size_allocate childWorld ⟨1, 2, 3, 4⟩).item.drag_window
      = some { x := 1, y := 2, width := 3, height := 4, shown := true } ∧
    (gtk_tool_item_size_allocate dragWorld ⟨1, 2, 3, 4⟩).objs = dragWorld.objs :=
  ⟨(size_allocate_passes_rectangle childWorld ⟨1, 2, 3, 4⟩).1,
   ((size_allocate_passes_rectangle childWorld ⟨1, 2, 3, 4⟩).2.1 3 rfl rfl).1,
   ((size_allocate_passes_rectangle childWorld ⟨1, 2, 3, 4⟩).2.2.2.1
     { x := 10, y := 20, width := 100, height := 30, shown := true } rfl).1,
   ((size_allocate_passes_rectangle dragWorld ⟨1, 2, 3, 4⟩).2.2.1 (Or.inl rfl)).1⟩

/-- C10: each of the six flag setters, called with a value whose canonical
boolean is the current value of its flag, returns the world it was given: the
item, the other widgets and the trace of calls are unchanged, so no property or
child-property notification is emitted and no resize is requested. Hence calling
a setter twice with the same argument gives what calling it once gives. -/
theorem setter_with_current_value_changes_nothing (w : World) (v : gboolean) :
    (((v != FALSE) = w.item.visible_horizontal →
        gtk_tool_item_set_visible_horizontal w GtkToolItemPtr.item v = w) ∧
     ((v != FALSE) = w.item.visible_vertical →
        gtk_tool_item_set_visible_vertical w GtkToolItemPtr.item v = w) ∧
     ((v != FALSE) = w.item.homogeneous →
        gtk_tool_item_set_homogeneous w GtkToolItemPtr.item v = w) ∧
     ((v != FALSE) = w.item.expand →
        gtk_tool_item_set_expand w GtkToolItemPtr.item v = w) ∧
     ((v != FALSE) = w.item.is_important →
        gtk_tool_item_set_is_important w GtkToolItemPtr.item v = w) ∧
     ((v != FALSE) = w.item.use_drag_window →
        gtk_tool_item_set_use_drag_window w GtkToolItemPtr.item v = w)) ∧
    (gtk_tool_item_set_visible_horizontal
        (gtk_tool_item_set_visible_horizontal w GtkToolItemPtr.item v) GtkToolItemPtr.item v
        = gtk_tool_item_set_visible_horizontal w GtkToolItemPtr.item v ∧
     gtk_tool_item_set_visible_vertical
        (gtk_tool_item_set_visible_vertical w GtkToolItemPtr.item v) GtkToolItemPtr.item v
        = gtk_tool_item_set_visible_vertical w GtkToolItemPtr.item v ∧
     gtk_tool_item_set_homogeneous
        (gtk_tool_item_set_homogeneous w GtkToolItemPtr.item v) GtkToolItemPtr.item v
        = gtk_tool_item_set_homogeneous w GtkToolItemPtr.item v ∧
     gtk_tool_item_set_expand
        (gtk_tool_item_set_expand w GtkToolItemPtr.item v) GtkToolItemPtr.item v
        = gtk_tool_item_set_expand w GtkToolItemPtr.item v ∧
     gtk_tool_item_set_is_important
        (gtk_tool_item_set_is_important w GtkToolItemPtr.item v) GtkToolItemPtr.item v
        = gtk_tool_item_set_is_important w GtkToolItemPtr.item v ∧
     gtk_tool_item_set_use_drag_window
        (gtk_tool_item_set_use_drag_window w GtkToolItemPtr.item v) GtkToolItemPtr.item v
        = gtk_tool_item_set_use_drag_window w GtkToolItemPtr.item v) := by
  have h1 : ∀ u : World, (v != FALSE) = u.item.visible_horizontal →
      gtk_tool_item_set_visible_horizontal u GtkToolItemPtr.item v = u := by
    intro u h
    simp [gtk_tool_item_set_visible_horizontal, GTK_IS_TOOL_ITEM, h]
  have h2 : ∀ u : World, (v != FALSE) = u.item.visible_vertical →
      gtk_tool_item_set_visible_vertical u GtkToolItemPtr.item v = u := by
    intro u h
    simp [gtk_tool_item_set_visible_vertical, GTK_IS_TOOL_ITEM, h]
  have h3 : ∀ u : World, (v != FALSE) = u.item.homogeneous →
      gtk_tool_item_set_homogeneous u GtkToolItemPtr.item v = u := by
    intro u h
    simp [gtk_tool_item_set_homogeneous, GTK_IS_TOOL_ITEM, h]
  have h4 : ∀ u : World, (v != FALSE) = u.item.expand →
      gtk_tool_item_set_expand u GtkToolItemPtr.item v = u := by
    intro u h
    simp [gtk_tool_item_set_expand, GTK_IS_TOOL_ITEM, h]
  have h5 : ∀ u : World, (v != FALSE) = u.item.is_important →
      gtk_tool_item_set_is_important u GtkToolItemPtr.item v = u := by
    intro u h
    simp [gtk_tool_item_set_is_important, GTK_IS_TOOL_ITEM, h]
  have h6 : ∀ u : World, (v != FALSE) = u.item.use_drag_window →
      gtk_tool_item_set_use_drag_window u GtkToolItemPtr.item v = u := by
    intro u h
    simp [gtk_tool_item_set_use_drag_window, GTK_IS_TOOL_ITEM, h]
  exact ⟨⟨h1 w, h2 w, h3 w, h4 w, h5 w, h6 w⟩,
    h1 _ (set_visible_horizontal_flag w v).symm, h2 _ (set_visible_vertical_flag w v).symm,
    h3 _ (set_homogeneous_flag w v).symm, h4 _ (set_expand_flag w v).symm,
    h5 _ (set_is_important_flag w v).symm, h6 _ (set_use_drag_window_flag w v).symm⟩

/-- C10, on a new item (visible in both orientations, the other flags off):
setting the visibility flags with `7` and the other flags with `0` changes
nothing, and no call is recorded. -/
theorem setter_with_current_value_changes_nothing_witness :
    gtk_tool_item_set_visible_horizontal newWorld GtkToolItemPtr.item 7 = newWorld ∧
    gtk_tool_item_set_visible_vertical newWorld GtkToolItemPtr.item 7 = newWorld ∧
    gtk_tool_item_set_homogeneous newWorld GtkToolItemPtr.item 0 = newWorld ∧
    gtk_tool_item_set_expand newWorld GtkToolItemPtr.item 0 = newWorld ∧
    gtk_tool_item_set_is_important newWorld GtkToolItemPtr.item 0 = newWorld ∧
    gtk_tool_item_set_use_drag_window newWorld GtkToolItemPtr.item 0 = newWorld ∧
    (gtk_tool_item_set_expand newWorld GtkToolItemPtr.item 0).log = [] :=
  ⟨(setter_with_current_value_changes_nothing newWorld 7).1.1 (by decide),
   (setter_with_current_value_changes_nothing newWorld 7).1.2.1 (by decide),
   (setter_with_current_value_changes_nothing newWorld 0).1.2.2.1 (by decide),
   (setter_with_current_value_changes_nothing newWorld 0).1.2.2.2.1 (by decide),
   (setter_with_current_value_changes_nothing newWorld 0).1.2.2.2.2.1 (by decide),
   (setter_with_current_value_changes_nothing newWorld 0).1.2.2.2.2.2 (by decide),
   by rw [(setter_with_current_value_changes_nothing newWorld 0).1.2.2.2.1 (by decide)]; rfl⟩

/-- C11: setting visible-horizontal, visible-vertical, is-important, expand or
homogeneous to a value different from the current one makes exactly these
calls: one notification naming the property and one resize request; the
notification is a property notification for visible-horizontal, visible-vertical
and is-important and a child-property notification for expand and homogeneous. -/
theorem setter_with_new_value_notifies_once (w : World) (v : gboolean) :
    ((v != FALSE) ≠ w.item.visible_horizontal →
      callsSince w (gtk_tool_item_set_visible_horizontal w GtkToolItemPtr.item v)
        = [Effect.notify "visible-horizontal", Effect.queue_resize]) ∧
    ((v != FALSE) ≠ w.item.visible_vertical →
      callsSince w (gtk_tool_item_set_visible_vertical w GtkToolItemPtr.item v)
        = [Effect.notify "visible-vertical", Effect.queue_resize]) ∧
    ((v != FALSE) ≠ w.item.is_important →
      callsSince w (gtk_tool_item_set_is_important w GtkToolItemPtr.item v)
        = [Effect.queue_resize, Effect.notify "is-important"]) ∧
    ((v != FALSE) ≠ w.item.expand →
      callsSince w (gtk_tool_item_set_expand w GtkToolItemPtr.item v)
        = [Effect.child_notify "expand", Effect.queue_resize]) ∧
    ((v != FALSE) ≠ w.item.homogeneous →
      callsSince w (gtk_tool_item_set_homogeneous w GtkToolItemPtr.item v)
        = [Effect.child_notify "homogeneous", Effect.queue_resize]) := by
  have hn := g_object_notify_log
  refine ⟨?_, ?_, ?_, ?_, ?_⟩
  · intro h
    apply callsSince_of_log
    have h' : ¬ w.item.visible_horizontal = (v != FALSE) := fun e => h e.symm
    simp [gtk_tool_item_set_visible_horizontal, GTK_IS_TOOL_ITEM, h', gtk_widget_queue_resize,
      World.emit, hn]
  · intro h
    apply callsSince_of_log
    have h' : ¬ w.item.visible_vertical = (v != FALSE) := fun e => h e.symm
    simp [gtk_tool_item_set_visible_vertical, GTK_IS_TOOL_ITEM, h', gtk_widget_queue_resize,
      World.emit, hn]
  · intro h
    apply callsSince_of_log
    simp [gtk_tool_item_set_is_important, GTK_IS_TOOL_ITEM, h, gtk_widget_queue_resize,
      World.emit, hn]
  · intro h
    apply callsSince_of_log
    have h' : ¬ w.item.expand = (v != FALSE) := fun e => h e.symm
    simp [gtk_tool_item_set_expand, GTK_IS_TOOL_ITEM, h', gtk_widget_queue_resize,
      gtk_widget_child_notify, World.emit]
  · intro h
    apply callsSince_of_log
    have h' : ¬ w.item.homogeneous = (v != FALSE) := fun e => h e.symm
    simp [gtk_tool_item_set_homogeneous, GTK_IS_TOOL_ITEM, h', gtk_widget_queue_resize,
      gtk_widget_child_notify, World.emit]

/-- C11, on a new item (visible in both orientations, the other flags off):
switching the two visibility flags off and the three other flags on makes one
notification and one resize request each. -/
theorem setter_with_new_value_notifies_once_witness :
    callsSince newWorld (gtk_tool_item_set_visible_horizontal newWorld GtkToolItemPtr.item 0)
      = [Effect.notify "visible-horizontal", Effect.queue_resize] ∧
    callsSince newWorld (gtk_tool_item_set_visible_vertical newWorld GtkToolItemPtr.item 0)
      = [Effect.notify "visible-vertical", Effect.queue_resize] ∧
    callsSince newWorld (gtk_tool_item_set_is_important newWorld GtkToolItemPtr.item 2)
      = [Effect.queue_resize, Effect.notify "is-important"] ∧
    callsSince newWorld (gtk_tool_item_set_expand newWorld GtkToolItemPtr.item 2)
      = [Effect.child_notify "expand", Effect.queue_resize] ∧
    callsSince newWorld (gtk_tool_item_set_homogeneous newWorld GtkToolItemPtr.item 2)
      = [Effect.child_notify "homogeneous", Effect.queue_resize] :=
  ⟨(setter_with_new_value_notifies_once newWorld 0).1 (by decide),
   (setter_with_new_value_notifies_once newWorld 0).2.1 (by decide),
   (setter_with_new_value_notifies_once newWorld 2).2.2.1 (by decide),
   (setter_with_new_value_notifies_once newWorld 2).2.2.2.1 (by decide),
   (setter_with_new_value_notifies_once newWorld 2).2.2.2.2 (by decide)⟩

/-- C12: when the parent-set hook runs with a non-null new parent,
`toolbar-reconfigured` is emitted exactly once and one resize is requested (the
calls made are the emission, a raise of the drag window if there is one, and the
resize request); with no new parent the hook does nothing at all. -/
theorem parent_set_reconfigures_iff_parent (w : World) (prev_parent : Option ParentWidget) :
    (gtk_widget_get_parent w ≠ none →
      callsSince w (gtk_tool_item_parent_set w prev_parent)
        = [Effect.emit "toolbar-reconfigured"]
          ++ (if w.item.drag_window.isSome then [Effect.window_raise] else [])
          ++ [Effect.queue_resize] ∧
      (callsSince w (gtk_tool_item_parent_set w prev_parent)).count
        (Effect.emit "toolbar-reconfigured") = 1 ∧
      (callsSince w (gtk_tool_item_parent_set w prev_parent)).count Effect.queue_resize = 1) ∧
    (gtk_widget_get_parent w = none →
      gtk_tool_item_parent_set w prev_parent = w ∧
      callsSince w (gtk_tool_item_parent_set w prev_parent) = []) := by
  constructor
  · intro h
    have hs : (gtk_widget_get_parent w).isSome = true := by
      cases hp : gtk_widget_get_parent w with
      | none => exact absurd hp h
      | some p => rfl
    have hl : callsSince w (gtk_tool_item_parent_set w prev_parent)
        = [Effect.emit "toolbar-reconfigured"]
          ++ (if w.item.drag_window.isSome then [Effect.window_raise] else [])
          ++ [Effect.queue_resize] := by
      apply callsSince_of_log
      cases hd : w.item.drag_window <;>
        simp [gtk_tool_item_parent_set, hs, gtk_tool_item_toolbar_reconfigured, GTK_IS_TOOL_ITEM,
          g_signal_emit, gdk_window_raise, gtk_widget_queue_resize, World.emit, hd]
    refine ⟨hl, ?_, ?_⟩ <;> rw [hl] <;> cases w.item.drag_window <;> simp [List.count_cons]
  · intro h
    have hw : gtk_tool_item_parent_set w prev_parent = w := by
      simp [gtk_tool_item_parent_set, h]
    exact ⟨hw, by rw [hw]; simp [callsSince]⟩

/-- C12, at sample items: placed in a toolbar the hook emits
`toolbar-reconfigured` once and requests a resize; without a parent it does
nothing. -/
theorem parent_set_reconfigures_iff_parent_witness :
    callsSince shellWorld (gtk_tool_item_parent_set shellWorld none)
      = [Effect.emit "toolbar-reconfigured", Effect.queue_resize] ∧
    gtk_tool_item_parent_set newWorld (some ParentWidget.plain) = newWorld :=
  ⟨((parent_set_reconfigures_iff_parent shellWorld none).1 (by decide)).1,
   ((parent_set_reconfigures_iff_parent newWorld (some ParentWidget.plain)).2 rfl).1⟩

/-- C13 as stated fails: on an item without child and with
`use_action_appearance` set, after action `0` (tooltip `"hi"`) is bound no
tooltip `"hi"` is held for the item and no tooltip call was made; and on an item
that already has action `0` bound and was hidden since, `set_related_action`
with that action leaves the item hidden although the action is visible. -/
theorem set_related_action_sync_counterexample :
    tipWorld.item.use_action_appearance = true ∧
    tipWorld.item.child = none ∧
    (tipWorld.actions 0).tooltip = some "hi" ∧
    tool_item_tooltip_text (gtk_tool_item_set_related_action tipWorld (some 0)) = none ∧
    (gtk_tool_item_set_related_action tipWorld (some 0)).log
      = [Effect.do_set_related_action (some 0), Effect.notify "visible",
         Effect.notify "sensitive", Effect.notify "visible-vertical", Effect.queue_resize,
         Effect.queue_resize, Effect.notify "is-important"] ∧
    hiddenBoundWorld.item.use_action_appearance = true ∧
    (hiddenBoundWorld.actions 0).visible = true ∧
    (gtk_tool_item_set_related_action hiddenBoundWorld (some 0)).item.visible = false := by
  refine ⟨by decide, by decide, by decide, by decide, by decide, by decide, by decide, by decide⟩

/-- C13, amended: with `use_action_appearance` set and an action `a` that is not
the action already bound, after `set_related_action (a)` and the sync it
triggers the item is bound to `a`, its visibility, sensitivity,
visible_horizontal, visible_vertical and is_important are the action's
properties and the rest of the item is as before (the flag is still set); when
the item has a child the tooltip text is the action's tooltip, and without a
child no tooltip is set: no tooltip call is made on any widget, and the tooltip
text of every widget other than the child is as it was. -/
theorem set_related_action_syncs_item (w : World) (a : Nat)
    (huaa : w.item.use_action_appearance = true) (hne : w.item.action ≠ some a) :
    (gtk_tool_item_set_related_action w (some a)).item
      = { w.item with
          action := some a
          visible := (w.actions a).visible
          sensitive := (w.actions a).sensitive
          visible_horizontal := (w.actions a).visible_horizontal
          visible_vertical := (w.actions a).visible_vertical
          is_important := (w.actions a).is_important } ∧
    (gtk_tool_item_set_related_action w (some a)).item.use_action_appearance = true ∧
    (gtk_tool_item_set_related_action w (some a)).actions = w.actions ∧
    (w.item.child ≠ none →
      tool_item_tooltip_text (gtk_tool_item_set_related_action w (some a))
        = (w.actions a).tooltip) ∧
    (w.item.child = none →
      tool_item_tooltip_text (gtk_tool_item_set_related_action w (some a)) = none) ∧
    (w.item.child = none →
      ∀ (c : Nat) (t : Option String),
        Effect.set_tooltip_text c t
          ∉ callsSince w (gtk_tool_item_set_related_action w (some a))) ∧
    (∀ b, w.item.child ≠ some b →
      ((gtk_tool_item_set_related_action w (some a)).objs b).tooltip_text
        = (w.objs b).tooltip_text) := by
  obtain ⟨hi, ha, ht⟩ := sync_action_properties_result
    (w.emit (Effect.do_set_related_action (some a))) a
  have hitem : (gtk_tool_item_set_related_action w (some a)).item
      = { w.item with
          action := some a
          visible := (w.actions a).visible
          sensitive := (w.actions a).sensitive
          visible_horizontal := (w.actions a).visible_horizontal
          visible_vertical := (w.actions a).visible_vertical
          is_important := (w.actions a).is_important } := by
    simp only [gtk_tool_item_set_related_action, hne, if_false,
      gtk_activatable_do_set_related_action, (rebuild_menu_frame _ _).1, hi]
    simp [World.emit]
  have hobjs : (gtk_tool_item_set_related_action w (some a)).objs
      = (gtk_tool_item_sync_action_properties
          (w.emit (Effect.do_set_related_action (some a))) (some a)).objs := by
    simp only [gtk_tool_item_set_related_action, hne, if_false,
      gtk_activatable_do_set_related_action, (rebuild_menu_frame _ _).2.1]
  refine ⟨hitem, ?_, ?_, ?_, ?_, ?_, ?_⟩
  · rw [hitem]
    exact huaa
  · simp only [gtk_tool_item_set_related_action, hne, if_false,
      gtk_activatable_do_set_related_action, (rebuild_menu_frame _ _).2.2, ha]
    simp [World.emit]
  · intro hc
    cases hch : w.item.child with
    | none => exact absurd hch hc
    | some c =>
      have := ht c (by simpa [World.emit] using hch)
      simp only [tool_item_tooltip_text, gtk_bin_get_child, hitem, hch, hobjs, this]
      simp [World.emit]
  · intro hc
    simp [tool_item_tooltip_text, gtk_bin_get_child, hitem, hc]
  · intro hc c t
    exact set_related_action_no_tooltip_call w a hne hc c t
  · intro b hb
    rw [hobjs]
    exact sync_action_properties_tooltips
      (w.emit (Effect.do_set_related_action (some a))) a b hb

/-- C13, amended, on scenario S5: with widget `3` as the child, after the action
is bound the item is visible, not sensitive and important, and its tooltip reads
`"hi"`; without a child no tooltip call on widget `3` is made and the tooltip
text of widget `3` is as it was. -/
theorem set_related_action_syncs_item_witness :
    (gtk_tool_item_set_related_action tipChildWorld (some 0)).item.visible = true ∧
    (gtk_tool_item_set_related_action tipChildWorld (some 0)).item.sensitive = false ∧
    (gtk_tool_item_set_related_action tipChildWorld (some 0)).item.is_important = true ∧
    tool_item_tooltip_text (gtk_tool_item_set_related_action tipChildWorld (some 0))
      = some "hi" ∧
    Effect.set_tooltip_text 3 (some "hi")
      ∉ callsSince tipWorld (gtk_tool_item_set_related_action tipWorld (some 0)) ∧
    ((gtk_tool_item_set_related_action tipWorld (some 0)).objs 3).tooltip_text
      = (tipWorld.objs 3).tooltip_text :=
  have h := set_related_action_syncs_item tipChildWorld 0 (by decide) (by decide)
  have h' := set_related_action_syncs_item tipWorld 0 (by decide) (by decide)
  ⟨by rw [h.1]; rfl, by rw [h.1]; rfl, by rw [h.1]; rfl, h.2.2.2.1 (by decide),
   h'.2.2.2.2.2.1 rfl 3 (some "hi"), h'.2.2.2.2.2.2 3 (by decide)⟩

/-- C14: `set_proxy_menu_item` called with a null id, or with a non-null object
that is not a menu item, returns the world it was given (stored id, stored
proxy, reference counts and sensitivities unchanged); `get_proxy_menu_item`
called with a null id returns none. -/
theorem proxy_argument_checks (w : World) :
    (∀ m : Option Nat,
      gtk_tool_item_set_proxy_menu_item w GtkToolItemPtr.item none m = w) ∧
    (∀ (id : Option String) (a : Nat), GTK_IS_MENU_ITEM w a = false →
      gtk_tool_item_set_proxy_menu_item w GtkToolItemPtr.item id (some a) = w) ∧
    gtk_tool_item_get_proxy_menu_item w GtkToolItemPtr.item none = none := by
  refine ⟨?_, ?_, ?_⟩
  · intro m
    unfold gtk_tool_item_set_proxy_menu_item
    split
    · rfl
    · split <;> rfl
  · intro id a ha
    simp [gtk_tool_item_set_proxy_menu_item, GTK_IS_TOOL_ITEM, ha]
  · simp [gtk_tool_item_get_proxy_menu_item, GTK_IS_TOOL_ITEM]

/-- C14, on the item with menu item `0` installed under `"a"`: a call with a
null id and a call with widget `1`, which is no menu item, change nothing. -/
theorem proxy_argument_checks_witness :
    gtk_tool_item_set_proxy_menu_item proxyWorld GtkToolItemPtr.item none (some 2)
      = proxyWorld ∧
    gtk_tool_item_set_proxy_menu_item proxyWorld GtkToolItemPtr.item (some "b") (some 1)
      = proxyWorld ∧
    gtk_tool_item_get_proxy_menu_item proxyWorld GtkToolItemPtr.item none = none :=
  ⟨(proxy_argument_checks proxyWorld).1 (some 2),
   (proxy_argument_checks proxyWorld).2.1 (some "b") 1 (by decide),
   (proxy_argument_checks proxyWorld).2.2⟩

/-- C15, the code at the failing input: with a receiver that is null or no tool
item, `gtk_tool_item_get_text_alignment` returns `0` (the enum constant
`GTK_ORIENTATION_HORIZONTAL`), not the documented default `0.5`; the other seven
queries return their documented defaults and the six boolean getters return
false. -/
theorem receiver_check_fallbacks (w : World) (a : Nat) :
    gtk_tool_item_get_text_alignment w GtkToolItemPtr.null = 0 ∧
    gtk_tool_item_get_text_alignment w (GtkToolItemPtr.other a) = 0 ∧
    gtk_tool_item_get_text_alignment w GtkToolItemPtr.null ≠ 0.5 ∧
    gtk_tool_item_get_text_alignment w (GtkToolItemPtr.other a) ≠ 0.5 ∧
    gtk_tool_item_get_orientation w GtkToolItemPtr.null = GTK_ORIENTATION_HORIZONTAL ∧
    gtk_tool_item_get_icon_size w GtkToolItemPtr.null = GTK_ICON_SIZE_LARGE_TOOLBAR ∧
    gtk_tool_item_get_toolbar_style w GtkToolItemPtr.null = GTK_TOOLBAR_ICONS ∧
    gtk_tool_item_get_relief_style w GtkToolItemPtr.null = GTK_RELIEF_NONE ∧
    gtk_tool_item_get_text_orientation w GtkToolItemPtr.null = GTK_ORIENTATION_HORIZONTAL ∧
    gtk_tool_item_get_text_size_group w GtkToolItemPtr.null = none ∧
    gtk_tool_item_get_ellipsize_mode w GtkToolItemPtr.null = PANGO_ELLIPSIZE_NONE ∧
    gtk_tool_item_get_expand w GtkToolItemPtr.null = FALSE ∧
    gtk_tool_item_get_homogeneous w GtkToolItemPtr.null = FALSE ∧
    gtk_tool_item_get_is_important w GtkToolItemPtr.null = FALSE ∧
    gtk_tool_item_get_use_drag_window w GtkToolItemPtr.null = FALSE ∧
    gtk_tool_item_get_visible_horizontal w GtkToolItemPtr.null = FALSE ∧
    gtk_tool_item_get_visible_vertical w GtkToolItemPtr.null = FALSE ∧
    gtk_tool_item_get_orientation w (GtkToolItemPtr.other a) = GTK_ORIENTATION_HORIZONTAL ∧
    gtk_tool_item_get_icon_size w (GtkToolItemPtr.other a) = GTK_ICON_SIZE_LARGE_TOOLBAR ∧
    gtk_tool_item_get_toolbar_style w (GtkToolItemPtr.other a) = GTK_TOOLBAR_ICONS ∧
    gtk_tool_item_get_relief_style w (GtkToolItemPtr.other a) = GTK_RELIEF_NONE ∧
    gtk_tool_item_get_text_orientation w (GtkToolItemPtr.other a) = GTK_ORIENTATION_HORIZONTAL ∧
    gtk_tool_item_get_text_size_group w (GtkToolItemPtr.other a) = none ∧
    gtk_tool_item_get_ellipsize_mode w (GtkToolItemPtr.other a) = PANGO_ELLIPSIZE_NONE ∧
    gtk_tool_item_get_expand w (GtkToolItemPtr.other a) = FALSE ∧
    gtk_tool_item_get_homogeneous w (GtkToolItemPtr.other a) = FALSE ∧
    gtk_tool_item_get_is_important w (GtkToolItemPtr.other a) = FALSE ∧
    gtk_tool_item_get_use_drag_window w (GtkToolItemPtr.other a) = FALSE ∧
    gtk_tool_item_get_visible_horizontal w (GtkToolItemPtr.other a) = FALSE ∧
    gtk_tool_item_get_visible_vertical w (GtkToolItemPtr.other a) = FALSE := by
  simp only [gtk_tool_item_get_text_alignment, gtk_tool_item_get_orientation, gtk_tool_item_get_icon_size, gtk_tool_item_get_toolbar_style, gtk_tool_item_get_relief_style, gtk_tool_item_get_text_orientation, gtk_tool_item_get_text_size_group, gtk_tool_item_get_ellipsize_mode, gtk_tool_item_get_expand, gtk_tool_item_get_homogeneous, gtk_tool_item_get_is_important, gtk_tool_item_get_use_drag_window, gtk_tool_item_get_visible_horizontal, gtk_tool_item_get_visible_vertical, GTK_IS_TOOL_ITEM]
  norm_num

/-- C16: for each of the six flags and every integer argument `v`, after the
setter is called with `v` the getter of that flag returns `1` when `v` is
non-zero and `0` when `v` is zero, and the getters of the other five flags return
what they returned before. -/
theorem setter_then_getter_canonical (w : World) (v : gboolean) :
    gtk_tool_item_get_visible_horizontal (gtk_tool_item_set_visible_horizontal w GtkToolItemPtr.item v)
      GtkToolItemPtr.item = (if v = 0 then 0 else 1) ∧
    gtk_tool_item_get_visible_vertical (gtk_tool_item_set_visible_horizontal w GtkToolItemPtr.item v)
      GtkToolItemPtr.item = gtk_tool_item_get_visible_vertical w GtkToolItemPtr.item ∧
    gtk_tool_item_get_homogeneous (gtk_tool_item_set_visible_horizontal w GtkToolItemPtr.item v)
      GtkToolItemPtr.item = gtk_tool_item_get_homogeneous w GtkToolItemPtr.item ∧
    gtk_tool_item_get_expand (gtk_tool_item_set_visible_horizontal w GtkToolItemPtr.item v)
      GtkToolItemPtr.item = gtk_tool_item_get_expand w GtkToolItemPtr.item ∧
    gtk_tool_item_get_is_important (gtk_tool_item_set_visible_horizontal w GtkToolItemPtr.item v)
      GtkToolItemPtr.item = gtk_tool_item_get_is_important w GtkToolItemPtr.item ∧
    gtk_tool_item_get_use_drag_window (gtk_tool_item_set_visible_horizontal w GtkToolItemPtr.item v)
      GtkToolItemPtr.item = gtk_tool_item_get_use_drag_window w GtkToolItemPtr.item ∧
    gtk_tool_item_get_visible_vertical (gtk_tool_item_set_visible_vertical w GtkToolItemPtr.item v)
      GtkToolItemPtr.item = (if v = 0 then 0 else 1) ∧
    gtk_tool_item_get_visible_horizontal (gtk_tool_item_set_visible_vertical w GtkToolItemPtr.item v)
      GtkToolItemPtr.item = gtk_tool_item_get_visible_horizontal w GtkToolItemPtr.item ∧
    gtk_tool_item_get_homogeneous (gtk_tool_item_set_visible_vertical w GtkToolItemPtr.item v)
      GtkToolItemPtr.item = gtk_tool_item_get_homogeneous w GtkToolItemPtr.item ∧
    gtk_tool_item_get_expand (gtk_tool_item_set_visible_vertical w GtkToolItemPtr.item v)
      GtkToolItemPtr.item = gtk_tool_item_get_expand w GtkToolItemPtr.item ∧
    gtk_tool_item_get_is_important (gtk_tool_item_set_visible_vertical w GtkToolItemPtr.item v)
      GtkToolItemPtr.item = gtk_tool_item_get_is_important w GtkToolItemPtr.item ∧
    gtk_tool_item_get_use_drag_window (gtk_tool_item_set_visible_vertical w GtkToolItemPtr.item v)
      GtkToolItemPtr.item = gtk_tool_item_get_use_drag_window w GtkToolItemPtr.item ∧
    gtk_tool_item_get_homogeneous (gtk_tool_item_set_homogeneous w GtkToolItemPtr.item v)
      GtkToolItemPtr.item = (if v = 0 then 0 else 1) ∧
    gtk_tool_item_get_visible_horizontal (gtk_tool_item_set_homogeneous w GtkToolItemPtr.item v)
      GtkToolItemPtr.item = gtk_tool_item_get_visible_horizontal w GtkToolItemPtr.item ∧
    gtk_tool_item_get_visible_vertical (gtk_tool_item_set_homogeneous w GtkToolItemPtr.item v)
      GtkToolItemPtr.item = gtk_tool_item_get_visible_vertical w GtkToolItemPtr.item ∧
    gtk_tool_item_get_expand (gtk_tool_item_set_homogeneous w GtkToolItemPtr.item v)
      GtkToolItemPtr.item = gtk_tool_item_get_expand w GtkToolItemPtr.item ∧
    gtk_tool_item_get_is_important (gtk_tool_item_set_homogeneous w GtkToolItemPtr.item v)
      GtkToolItemPtr.item = gtk_tool_item_get_is_important w GtkToolItemPtr.item ∧
    gtk_tool_item_get_use_drag_window (gtk_tool_item_set_homogeneous w GtkToolItemPtr.item v)
      GtkToolItemPtr.item = gtk_tool_item_get_use_drag_window w GtkToolItemPtr.item ∧
    gtk_tool_item_get_expand (gtk_tool_item_set_expand w GtkToolItemPtr.item v)
      GtkToolItemPtr.item = (if v = 0 then 0 else 1) ∧
    gtk_tool_item_get_visible_horizontal (gtk_tool_item_set_expand w GtkToolItemPtr.item v)
      GtkToolItemPtr.item = gtk_tool_item_get_visible_horizontal w GtkToolItemPtr.item ∧
    gtk_tool_item_get_visible_vertical (gtk_tool_item_set_expand w GtkToolItemPtr.item v)
      GtkToolItemPtr.item = gtk_tool_item_get_visible_vertical w GtkToolItemPtr.item ∧
    gtk_tool_item_get_homogeneous (gtk_tool_item_set_expand w GtkToolItemPtr.item v)
      GtkToolItemPtr.item = gtk_tool_item_get_homogeneous w GtkToolItemPtr.item ∧
    gtk_tool_item_get_is_important (gtk_tool_item_set_expand w GtkToolItemPtr.item v)
      GtkToolItemPtr.item = gtk_tool_item_get_is_important w GtkToolItemPtr.item ∧
    gtk_tool_item_get_use_drag_window (gtk_tool_item_set_expand w GtkToolItemPtr.item v)
      GtkToolItemPtr.item = gtk_tool_item_get_use_drag_window w GtkToolItemPtr.item ∧
    gtk_tool_item_get_is_important (gtk_tool_item_set_is_important w GtkToolItemPtr.item v)
      GtkToolItemPtr.item = (if v = 0 then 0 else 1) ∧
    gtk_tool_item_get_visible_horizontal (gtk_tool_item_set_is_important w GtkToolItemPtr.item v)
      GtkToolItemPtr.item = gtk_tool_item_get_visible_horizontal w GtkToolItemPtr.item ∧
    gtk_tool_item_get_visible_vertical (gtk_tool_item_set_is_important w GtkToolItemPtr.item v)
      GtkToolItemPtr.item = gtk_tool_item_get_visible_vertical w GtkToolItemPtr.item ∧
    gtk_tool_item_get_homogeneous (gtk_tool_item_set_is_important w GtkToolItemPtr.item v)
      GtkToolItemPtr.item = gtk_tool_item_get_homogeneous w GtkToolItemPtr.item ∧
    gtk_tool_item_get_expand (gtk_tool_item_set_is_important w GtkToolItemPtr.item v)
      GtkToolItemPtr.item = gtk_tool_item_get_expand w GtkToolItemPtr.item ∧
    gtk_tool_item_get_use_drag_window (gtk_tool_item_set_is_important w GtkToolItemPtr.item v)
      GtkToolItemPtr.item = gtk_tool_item_get_use_drag_window w GtkToolItemPtr.item ∧
    gtk_tool_item_get_use_drag_window (gtk_tool_item_set_use_drag_window w GtkToolItemPtr.item v)
      GtkToolItemPtr.item = (if v = 0 then 0 else 1) ∧
    gtk_tool_item_get_visible_horizontal (gtk_tool_item_set_use_drag_window w GtkToolItemPtr.item v)
      GtkToolItemPtr.item = gtk_tool_item_get_visible_horizontal w GtkToolItemPtr.item ∧
    gtk_tool_item_get_visible_vertical (gtk_tool_item_set_use_drag_window w GtkToolItemPtr.item v)
      GtkToolItemPtr.item = gtk_tool_item_get_visible_vertical w GtkToolItemPtr.item ∧
    gtk_tool_item_get_homogeneous (gtk_tool_item_set_use_drag_window w GtkToolItemPtr.item v)
      GtkToolItemPtr.item = gtk_tool_item_get_homogeneous w GtkToolItemPtr.item ∧
    gtk_tool_item_get_expand (gtk_tool_item_set_use_drag_window w GtkToolItemPtr.item v)
      GtkToolItemPtr.item = gtk_tool_item_get_expand w GtkToolItemPtr.item ∧
    gtk_tool_item_get_is_important (gtk_tool_item_set_use_drag_window w GtkToolItemPtr.item v)
      GtkToolItemPtr.item = gtk_tool_item_get_is_important w GtkToolItemPtr.item := by
  obtain ⟨h1, h2, h3, h4, h5⟩ := set_use_drag_window_other_flags w v
  simp only [gtk_tool_item_get_visible_horizontal, gtk_tool_item_get_visible_vertical, gtk_tool_item_get_homogeneous, gtk_tool_item_get_expand, gtk_tool_item_get_is_important, gtk_tool_item_get_use_drag_window, GTK_IS_TOOL_ITEM, set_visible_horizontal_item,
    set_visible_vertical_item, set_homogeneous_item, set_expand_item, set_is_important_item,
    set_use_drag_window_flag, h1, h2, h3, h4, h5, bit_canonical]
  simp

/-- C17: in every state a newly created tool item reaches by well-formed
lifecycle operations interleaved with set_use_drag_window, size-allocate and
toolbar_reconfigured, a drag window that is present is shown exactly when the
widget is mapped; and so it is right after one more set_use_drag_window call,
also one that switches the flag on while the widget is mapped. -/
theorem drag_window_shown_iff_mapped (w : World) (h : LifecycleReachable w) :
    (∀ d, w.item.drag_window = some d → (d.shown = true ↔ w.item.mapped = true)) ∧
    ∀ (v : gboolean) (d : GdkWindow),
      (gtk_tool_item_set_use_drag_window w GtkToolItemPtr.item v).item.drag_window = some d →
      (d.shown = true ↔
        (gtk_tool_item_set_use_drag_window w GtkToolItemPtr.item v).item.mapped = true) := by
  obtain ⟨objs, actions, next, events, hr⟩ := h
  have h0 : LifecycleInvariant (gtk_tool_item_new objs actions next) := by
    refine ⟨rfl, ?_, ?_⟩
    · intro hm
      cases hm
    · intro d hd
      cases hd
  have hw := run_keeps_lifecycle events _ w h0 hr
  refine ⟨fun d hd => by rw [hw.2.2 d hd], fun v d hd => ?_⟩
  have hs := step_keeps_lifecycle w (Event.set_use_drag_window v) hw rfl
  rw [hs.2.2 d hd]
  rfl

/-- C17, on a new item that is realized and mapped before the flag is switched
on: the drag window is created shown; after unmap it is present and hidden. -/
theorem drag_window_shown_iff_mapped_witness :
    LifecycleReachable lateFlagWorld ∧
    lateFlagWorld.item.mapped = true ∧
    lateFlagWorld.item.drag_window
      = some { x := -1, y := -1, width := 1, height := 1, shown := true } ∧
    ((({ x := -1, y := -1, width := 1, height := 1, shown := true } : GdkWindow).shown = true) ↔
      lateFlagWorld.item.mapped = true) :=
  have hr : LifecycleReachable lateFlagWorld := ⟨_, _, 100, lateFlagEvents, rfl⟩
  ⟨hr, rfl, rfl,
   (drag_window_shown_iff_mapped lateFlagWorld hr).1
     { x := -1, y := -1, width := 1, height := 1, shown := true } rfl⟩

/-- C18 as stated fails for `set_is_important`: switching the flag on on a new
item requests the resize first and emits the notification after it. -/
theorem set_is_important_order_counterexample :
    (1 != FALSE) ≠ newWorld.item.is_important ∧
    callsSince newWorld (gtk_tool_item_set_is_important newWorld GtkToolItemPtr.item 1)
      = [Effect.queue_resize, Effect.notify "is-important"] ∧
    (callsSince newWorld
        (gtk_tool_item_set_is_important newWorld GtkToolItemPtr.item 1)).indexOf
        Effect.queue_resize
      < (callsSince newWorld
        (gtk_tool_item_set_is_important newWorld GtkToolItemPtr.item 1)).indexOf
        (Effect.notify "is-important") := by
  refine ⟨by decide, by decide, by decide⟩

/-- C18, amended: called with a value different from the current one,
`set_visible_horizontal` and `set_visible_vertical` store, then notify, then
request the resize, and `set_is_important` stores, then requests the resize, then
notifies. In all three the field already holds the new value when the
notification is emitted: whatever handlers are connected to the notification,
they run on a world in which the field is the new value (for the visibility
setters before the resize request is recorded, for `set_is_important` after it),
and with no handler connected these are the setters themselves. -/
theorem setter_effect_order (observer : World → World) (w : World) (v : gboolean) :
    (gtk_tool_item_set_visible_horizontal_observed (fun u => u) w GtkToolItemPtr.item v
        = gtk_tool_item_set_visible_horizontal w GtkToolItemPtr.item v ∧
     gtk_tool_item_set_visible_vertical_observed (fun u => u) w GtkToolItemPtr.item v
        = gtk_tool_item_set_visible_vertical w GtkToolItemPtr.item v ∧
     gtk_tool_item_set_is_important_observed (fun u => u) w GtkToolItemPtr.item v
        = gtk_tool_item_set_is_important w GtkToolItemPtr.item v) ∧
    ((v != FALSE) ≠ w.item.visible_horizontal →
      (gtk_tool_item_set_visible_horizontal_observed observer w GtkToolItemPtr.item v
        = gtk_widget_queue_resize (observer (g_object_notify
            { w with item := { w.item with visible_horizontal := (v != FALSE) } }
            "visible-horizontal")) ∧
       (g_object_notify
            { w with item := { w.item with visible_horizontal := (v != FALSE) } }
            "visible-horizontal").item.visible_horizontal = (v != FALSE) ∧
       (g_object_notify
            { w with item := { w.item with visible_horizontal := (v != FALSE) } }
            "visible-horizontal").log = w.log ++ [Effect.notify "visible-horizontal"]) ∧
      (∃ u : World, u.item.visible_horizontal = (v != FALSE) ∧ u.log = w.log ∧
        gtk_tool_item_set_visible_horizontal w GtkToolItemPtr.item v
          = gtk_widget_queue_resize (g_object_notify u "visible-horizontal")) ∧
      callsSince w (gtk_tool_item_set_visible_horizontal w GtkToolItemPtr.item v)
        = [Effect.notify "visible-horizontal", Effect.queue_resize]) ∧
    ((v != FALSE) ≠ w.item.visible_vertical →
      (gtk_tool_item_set_visible_vertical_observed observer w GtkToolItemPtr.item v
        = gtk_widget_queue_resize (observer (g_object_notify
            { w with item := { w.item with visible_vertical := (v != FALSE) } }
            "visible-vertical")) ∧
       (g_object_notify
            { w with item := { w.item with visible_vertical := (v != FALSE) } }
            "visible-vertical").item.visible_vertical = (v != FALSE) ∧
       (g_object_notify
            { w with item := { w.item with visible_vertical := (v != FALSE) } }
            "visible-vertical").log = w.log ++ [Effect.notify "visible-vertical"]) ∧
      (∃ u : World, u.item.visible_vertical = (v != FALSE) ∧ u.log = w.log ∧
        gtk_tool_item_set_visible_vertical w GtkToolItemPtr.item v
          = gtk_widget_queue_resize (g_object_notify u "visible-vertical")) ∧
      callsSince w (gtk_tool_item_set_visible_vertical w GtkToolItemPtr.item v)
        = [Effect.notify "visible-vertical", Effect.queue_resize]) ∧
    ((v != FALSE) ≠ w.item.is_important →
      (gtk_tool_item_set_is_important_observed observer w GtkToolItemPtr.item v
        = observer (g_object_notify (gtk_widget_queue_resize
            { w with item := { w.item with is_important := (v != FALSE) } })
            "is-important") ∧
       (g_object_notify (gtk_widget_queue_resize
            { w with item := { w.item with is_important := (v != FALSE) } })
            "is-important").item.is_important = (v != FALSE) ∧
       (g_object_notify (gtk_widget_queue_resize
            { w with item := { w.item with is_important := (v != FALSE) } })
            "is-important").log
          = w.log ++ [Effect.queue_resize, Effect.notify "is-important"]) ∧
      (∃ u : World, u.item.is_important = (v != FALSE) ∧
        u.log = w.log ++ [Effect.queue_resize] ∧
        gtk_tool_item_set_is_important w GtkToolItemPtr.item v
          = g_object_notify u "is-important") ∧
      callsSince w (gtk_tool_item_set_is_important w GtkToolItemPtr.item v)
        = [Effect.queue_resize, Effect.notify "is-important"]) := by
  refine ⟨⟨rfl, rfl, rfl⟩, ?_, ?_, ?_⟩
  · intro h
    have h' : ¬ w.item.visible_horizontal = (v != FALSE) := fun e => h e.symm
    have he : gtk_tool_item_set_visible_horizontal w GtkToolItemPtr.item v
        = gtk_widget_queue_resize (g_object_notify
            { w with item := { w.item with visible_horizontal := (v != FALSE) } }
            "visible-horizontal") := by
      simp [gtk_tool_item_set_visible_horizontal, GTK_IS_TOOL_ITEM, h']
    refine ⟨⟨?_, ?_, ?_⟩,
      ⟨{ w with item := { w.item with visible_horizontal := (v != FALSE) } },
      rfl, rfl, he⟩, ?_⟩
    · simp [gtk_tool_item_set_visible_horizontal_observed, GTK_IS_TOOL_ITEM, h',
        g_object_notify_observed]
    · rw [g_object_notify_item]
    · rw [g_object_notify_log]
    · apply callsSince_of_log
      rw [he]
      simp [gtk_widget_queue_resize, World.emit, g_object_notify_log]
  · intro h
    have h' : ¬ w.item.visible_vertical = (v != FALSE) := fun e => h e.symm
    have he : gtk_tool_item_set_visible_vertical w GtkToolItemPtr.item v
        = gtk_widget_queue_resize (g_object_notify
            { w with item := { w.item with visible_vertical := (v != FALSE) } }
            "visible-vertical") := by
      simp [gtk_tool_item_set_visible_vertical, GTK_IS_TOOL_ITEM, h']
    refine ⟨⟨?_, ?_, ?_⟩,
      ⟨{ w with item := { w.item with visible_vertical := (v != FALSE) } },
      rfl, rfl, he⟩, ?_⟩
    · simp [gtk_tool_item_set_visible_vertical_observed, GTK_IS_TOOL_ITEM, h',
        g_object_notify_observed]
    · rw [g_object_notify_item]
    · rw [g_object_notify_log]
    · apply callsSince_of_log
      rw [he]
      simp [gtk_widget_queue_resize, World.emit, g_object_notify_log]
  · intro h
    have he : gtk_tool_item_set_is_important w GtkToolItemPtr.item v
        = g_object_notify (gtk_widget_queue_resize
            { w with item := { w.item with is_important := (v != FALSE) } })
            "is-important" := by
      simp [gtk_tool_item_set_is_important, GTK_IS_TOOL_ITEM, h]
    refine ⟨⟨?_, ?_, ?_⟩, ⟨gtk_widget_queue_resize
      { w with item := { w.item with is_important := (v != FALSE) } }, rfl, rfl, he⟩, ?_⟩
    · simp [gtk_tool_item_set_is_important_observed, GTK_IS_TOOL_ITEM, h,
        g_object_notify_observed]
    · rw [g_object_notify_item]
      rfl
    · rw [g_object_notify_log]
      simp [gtk_widget_queue_resize, World.emit]
    · apply callsSince_of_log
      rw [he]
      simp [gtk_widget_queue_resize, World.emit, g_object_notify_log]

/-- C18, amended, at sample items: on a new item switching visible-horizontal
off notifies and then requests the resize, and switching is-important on requests
the resize and then notifies; a handler connected to the notification that copies
the flag it reads into `expand` reads the new value `TRUE` in all three setters. -/
theorem setter_effect_order_witness :
    callsSince newWorld (gtk_tool_item_set_visible_horizontal newWorld GtkToolItemPtr.item 0)
      = [Effect.notify "visible-horizontal", Effect.queue_resize] ∧
    callsSince newWorld (gtk_tool_item_set_visible_vertical newWorld GtkToolItemPtr.item 0)
      = [Effect.notify "visible-vertical", Effect.queue_resize] ∧
    callsSince newWorld (gtk_tool_item_set_is_important newWorld GtkToolItemPtr.item 1)
      = [Effect.queue_resize, Effect.notify "is-important"] ∧
    invisibleWorld.item.expand = false ∧
    (gtk_tool_item_set_visible_horizontal_observed mirrorVisibleHorizontal invisibleWorld
      GtkToolItemPtr.item 1).item.expand = true ∧
    (gtk_tool_item_set_visible_vertical_observed mirrorVisibleVertical invisibleWorld
      GtkToolItemPtr.item 1).item.expand = true ∧
    (gtk_tool_item_set_is_important_observed mirrorIsImportant invisibleWorld
      GtkToolItemPtr.item 1).item.expand = true :=
  ⟨((setter_effect_order (fun u => u) newWorld 0).2.1 (by decide)).2.2,
   ((setter_effect_order (fun u => u) newWorld 0).2.2.1 (by decide)).2.2,
   ((setter_effect_order (fun u => u) newWorld 1).2.2.2 (by decide)).2.2,
   rfl,
   by rw [((setter_effect_order mirrorVisibleHorizontal invisibleWorld 1).2.1
     (by decide)).1.1]; decide,
   by rw [((setter_effect_order mirrorVisibleVertical invisibleWorld 1).2.2.1
     (by decide)).1.1]; decide,
   by rw [((setter_effect_order mirrorIsImportant invisibleWorld 1).2.2.2
     (by decide)).1.1]; decide⟩

/-- C19: `toolbar_reconfigured` makes exactly these calls, in this order: one
emission of `toolbar-reconfigured`, one raise of the drag window when there is a
drag window and none otherwise, one resize request; it leaves the item (flags,
proxy, id, action and all), the other widgets and the actions as they were. -/
theorem toolbar_reconfigured_effects (w : World) :
    callsSince w (gtk_tool_item_toolbar_reconfigured w GtkToolItemPtr.item)
      = [Effect.emit "toolbar-reconfigured"]
        ++ (if w.item.drag_window.isSome then [Effect.window_raise] else [])
        ++ [Effect.queue_resize] ∧
    (gtk_tool_item_toolbar_reconfigured w GtkToolItemPtr.item).item = w.item ∧
    (gtk_tool_item_toolbar_reconfigured w GtkToolItemPtr.item).objs = w.objs ∧
    (gtk_tool_item_toolbar_reconfigured w GtkToolItemPtr.item).actions = w.actions := by
  refine ⟨?_, ?_, ?_, ?_⟩
  · apply callsSince_of_log
    cases hd : w.item.drag_window <;>
      simp [gtk_tool_item_toolbar_reconfigured, GTK_IS_TOOL_ITEM, g_signal_emit,
        gdk_window_raise, gtk_widget_queue_resize, World.emit, hd]
  all_goals
    cases hd : w.item.drag_window <;>
      simp [gtk_tool_item_toolbar_reconfigured, GTK_IS_TOOL_ITEM, g_signal_emit,
        gdk_window_raise, gtk_widget_queue_resize, World.emit, hd]

/-- C20: the activatable update call changes at most the item field named by
the property: `"visible"` sets only the item's visibility, `"sensitive"` only its
sensitivity (the stored proxy follows, no other widget changes), `"tooltip"`
leaves the item as it is and sets only the tooltip text of the child when there
is one, `"visible-horizontal"`, `"visible-vertical"` and `"is-important"` set only
the flag of that name, each to the action's value; any other property name
leaves everything unchanged. -/
theorem update_changes_named_field (w : World) (action : Nat) (n : String) :
    (n = "visible" →
      (gtk_tool_item_update w action n).item
        = { w.item with visible := (w.actions action).visible } ∧
      (gtk_tool_item_update w action n).objs = w.objs) ∧
    (n = "sensitive" →
      (gtk_tool_item_update w action n).item
        = { w.item with sensitive := (w.actions action).sensitive } ∧
      ∀ b, w.item.menu_item ≠ some b → (gtk_tool_item_update w action n).objs b = w.objs b) ∧
    (n = "tooltip" →
      (gtk_tool_item_update w action n).item = w.item ∧
      (∀ c, w.item.child = some c →
        (gtk_tool_item_update w action n).objs c
          = { w.objs c with tooltip_text := (w.actions action).tooltip } ∧
        ∀ b, b ≠ c → (gtk_tool_item_update w action n).objs b = w.objs b) ∧
      (w.item.child = none → gtk_tool_item_update w action n = w)) ∧
    (n = "visible-horizontal" →
      (gtk_tool_item_update w action n).item
        = { w.item with visible_horizontal := (w.actions action).visible_horizontal } ∧
      (gtk_tool_item_update w action n).objs = w.objs) ∧
    (n = "visible-vertical" →
      (gtk_tool_item_update w action n).item
        = { w.item with visible_vertical := (w.actions action).visible_vertical } ∧
      (gtk_tool_item_update w action n).objs = w.objs) ∧
    (n = "is-important" →
      (gtk_tool_item_update w action n).item
        = { w.item with is_important := (w.actions action).is_important } ∧
      (gtk_tool_item_update w action n).objs = w.objs) ∧
    (n ≠ "visible" → n ≠ "sensitive" → n ≠ "tooltip" → n ≠ "visible-horizontal" →
      n ≠ "visible-vertical" → n ≠ "is-important" → gtk_tool_item_update w action n = w) := by
  refine ⟨?_, ?_, ?_, ?_, ?_, ?_, ?_⟩
  · intro hn
    subst hn
    obtain ⟨hi, ho, -⟩ := show_or_hide_frame w (gtk_action_is_visible w action)
    simp only [gtk_tool_item_update, if_true]
    exact ⟨hi, ho⟩
  · intro hn
    subst hn
    simp only [gtk_tool_item_update, String.reduceEq, if_false, if_true]
    refine ⟨(set_sensitive_item_frame w _).1, ?_⟩
    intro b hb
    unfold gtk_widget_set_sensitive_item g_object_notify gtk_tool_item_property_notify
    split
    · rfl
    · cases hm : w.item.menu_item with
      | none => simp [World.emit, hm]
      | some m =>
        have : b ≠ m := fun e => hb (by rw [hm, e])
        simp [World.emit, hm, gtk_widget_set_sensitive, setObj, this]
  · intro hn
    subst hn
    simp only [gtk_tool_item_update, String.reduceEq, if_false, if_true]
    obtain ⟨hi, -, -, hnone⟩ := set_tooltip_text_frame w (gtk_action_get_tooltip w action)
    refine ⟨hi, ?_, hnone⟩
    intro c hc
    simp [gtk_tool_item_set_tooltip_text, GTK_IS_TOOL_ITEM, gtk_bin_get_child, hc,
      gtk_widget_set_tooltip_text, setObj, gtk_action_get_tooltip]
    intro b hb
    simp [hb]
  · intro hn
    subst hn
    simp only [gtk_tool_item_update, String.reduceEq, if_false, if_true]
    refine ⟨?_, (notifying_setters_frame w _).1⟩
    rw [set_visible_horizontal_item]
    simp [gtk_action_get_visible_horizontal, bit_bne_FALSE]
  · intro hn
    subst hn
    simp only [gtk_tool_item_update, String.reduceEq, if_false, if_true]
    refine ⟨?_, (notifying_setters_frame w _).2.2.1⟩
    rw [set_visible_vertical_item]
    simp [gtk_action_get_visible_vertical, bit_bne_FALSE]
  · intro hn
    subst hn
    simp only [gtk_tool_item_update, String.reduceEq, if_false, if_true]
    refine ⟨?_, (notifying_setters_frame w _).2.2.2.2.1⟩
    rw [set_is_important_item]
    simp [gtk_action_get_is_important, bit_bne_FALSE]
  · intro h1 h2 h3 h4 h5 h6
    simp [gtk_tool_item_update, h1, h2, h3, h4, h5, h6]

/-- C20, on scenario S5 with widget `3` as the child: the update for
`"sensitive"` makes the item insensitive and keeps it invisible, the update for
`"tooltip"` leaves the item as it is, and the update for `"label"` changes
nothing. -/
theorem update_changes_named_field_witness :
    (gtk_tool_item_update tipChildWorld 0 "sensitive").item
      = { tipChildWorld.item with sensitive := false } ∧
    (gtk_tool_item_update tipChildWorld 0 "tooltip").item = tipChildWorld.item ∧
    ((gtk_tool_item_update tipChildWorld 0 "tooltip").objs 3).tooltip_text = some "hi" ∧
    (gtk_tool_item_update tipChildWorld 0 "is-important").item
      = { tipChildWorld.item with is_important := true } ∧
    gtk_tool_item_update tipChildWorld 0 "label" = tipChildWorld :=
  ⟨((update_changes_named_field tipChildWorld 0 "sensitive").2.1 rfl).1,
   ((update_changes_named_field tipChildWorld 0 "tooltip").2.2.1 rfl).1,
   by rw [(((update_changes_named_field tipChildWorld 0 "tooltip").2.2.1 rfl).2.1 3 rfl).1]; rfl,
   ((update_changes_named_field tipChildWorld 0 "is-important").2.2.2.2.2.1 rfl).1,
   (update_changes_named_field tipChildWorld 0 "label").2.2.2.2.2.2
     (by decide) (by decide) (by decide) (by decide) (by decide) (by decide)⟩

/-- C21: `set_related_action (a)` with the action already bound returns the
world it was given (no binder call, no rebuild, nothing changed); with another
action it calls the generic binder exactly once, with `a` and before anything
else, stores `a` as the bound action, and then runs `rebuild_menu` once when `a`
is non-null and not at all when `a` is none; `rebuild_menu` notifies the parent
exactly when the parent is a tool shell and changes nothing else. -/
theorem set_related_action_binds_and_rebuilds (w : World) (action : Option Nat) :
    (w.item.action = action → gtk_tool_item_set_related_action w action = w) ∧
    (w.item.action ≠ action →
      (gtk_tool_item_set_related_action w action).item.action = action ∧
      (callsSince w (gtk_tool_item_set_related_action w action)).head?
        = some (Effect.do_set_related_action action) ∧
      (∀ a' : Option Nat,
        (callsSince w (gtk_tool_item_set_related_action w action)).count
          (Effect.do_set_related_action a') = if a' = action then 1 else 0) ∧
      (∀ a, action = some a →
        gtk_tool_item_set_related_action w action
          = gtk_tool_item_rebuild_menu
              { gtk_activatable_do_set_related_action w action with
                item := { (gtk_activatable_do_set_related_action w action).item with
                          action := action } }
              GtkToolItemPtr.item) ∧
      (action = none →
        gtk_tool_item_set_related_action w action
          = { gtk_activatable_do_set_related_action w action with
              item := { (gtk_activatable_do_set_related_action w action).item with
                        action := action } }) ∧
      (callsSince w (gtk_tool_item_set_related_action w action)).count
          Effect.shell_rebuild_menu
        = if action.isSome && GTK_IS_TOOL_SHELL (gtk_widget_get_parent w) then 1 else 0) ∧
    (callsSince w (gtk_tool_item_rebuild_menu w GtkToolItemPtr.item)
        = (if GTK_IS_TOOL_SHELL (gtk_widget_get_parent w) then [Effect.shell_rebuild_menu]
           else []) ∧
      (gtk_tool_item_rebuild_menu w GtkToolItemPtr.item).item = w.item ∧
      (gtk_tool_item_rebuild_menu w GtkToolItemPtr.item).objs = w.objs) := by
  refine ⟨?_, ?_, ?_, (rebuild_menu_frame w _).1, (rebuild_menu_frame w _).2.1⟩
  · intro h
    simp [gtk_tool_item_set_related_action, h]
  · intro hne
    obtain ⟨l, ha, hl⟩ := set_related_action_log w action hne
    have hc := callsSince_of_log w _ _ hl
    refine ⟨?_, ?_, ?_, ?_, ?_, ?_⟩
    · cases action with
      | none => simp [gtk_tool_item_set_related_action, hne]
      | some a =>
        simp only [gtk_tool_item_set_related_action, hne, if_false, (rebuild_menu_frame _ _).1]
    · rw [hc]
      simp
    · intro a'
      rw [hc]
      have h0 := count_eq_zero_of_all Effect.isSyncCall l (Effect.do_set_related_action a') ha rfl
      have ht : List.count (Effect.do_set_related_action a')
          (if action.isSome && GTK_IS_TOOL_SHELL (gtk_widget_get_parent w)
           then [Effect.shell_rebuild_menu] else []) = 0 := by
        split <;> simp
      rw [List.count_append, List.count_append, h0, ht]
      by_cases he : a' = action
      · subst he
        simp
      · have he' : ¬ action = a' := fun e => he e.symm
        simp [he, he', List.count_cons]
    · intro a hsome
      subst hsome
      simp [gtk_tool_item_set_related_action, hne]
    · intro hnone
      subst hnone
      simp [gtk_tool_item_set_related_action, hne]
    · rw [hc]
      have h0 := count_eq_zero_of_all Effect.isSyncCall l Effect.shell_rebuild_menu ha rfl
      rw [List.count_append, List.count_append, h0]
      split <;> simp [List.count_cons]
  · apply callsSince_of_log
    simp only [gtk_tool_item_rebuild_menu, GTK_IS_TOOL_ITEM, Bool.not_true, Bool.false_eq_true,
      if_false]
    split <;> simp [gtk_tool_shell_rebuild_menu, World.emit]

/-- C21, at sample items: binding action `0` to the item in a toolbar calls the
binder once and notifies the shell once; unbinding on a new item that has no
action is a no-op; outside a toolbar `rebuild_menu` makes no call. -/
theorem set_related_action_binds_and_rebuilds_witness :
    (gtk_tool_item_set_related_action shellWorld (some 0)).item.action = some 0 ∧
    (callsSince shellWorld (gtk_tool_item_set_related_action shellWorld (some 0))).count
      (Effect.do_set_related_action (some 0)) = 1 ∧
    (callsSince shellWorld (gtk_tool_item_set_related_action shellWorld (some 0))).count
      Effect.shell_rebuild_menu = 1 ∧
    gtk_tool_item_set_related_action newWorld none = newWorld ∧
    callsSince boxWorld (gtk_tool_item_rebuild_menu boxWorld GtkToolItemPtr.item) = [] :=
  have h := (set_related_action_binds_and_rebuilds shellWorld (some 0)).2.1 (by decide)
  ⟨h.1, h.2.2.1 (some 0), h.2.2.2.2.2,
   (set_related_action_binds_and_rebuilds newWorld none).1 rfl,
   (set_related_action_binds_and_rebuilds boxWorld none).2.2.1⟩

/-- C22: with references counted from the calls made, in every state a newly
created tool item reaches by `set_proxy_menu_item` calls with any arguments, runs
of the default `create-menu-proxy` handler and changes of the bound action, the
tool item holds exactly one reference on the stored proxy and none on any other
object (references taken = references released, plus one for the stored proxy).
Replacing the stored proxy `m1` by another menu item `m2` releases `m1` exactly
once and takes one reference on `m2`; installing the stored proxy again makes no
call and changes no widget. -/
theorem item_holds_one_reference_on_proxy (w : World) (h : ProxyReachable w) :
    (∀ a, refsTaken w a
      = refsReleased w a + (if w.item.menu_item = some a then 1 else 0)) ∧
    (∀ (id : String) (m1 m2 : Nat), w.item.menu_item = some m1 → m2 ≠ m1 →
      GTK_IS_MENU_ITEM w m2 = true →
      callsSince w
          (gtk_tool_item_set_proxy_menu_item w GtkToolItemPtr.item (some id) (some m2))
        = [Effect.unref m1, Effect.ref_sink m2] ∧
      ((gtk_tool_item_set_proxy_menu_item w GtkToolItemPtr.item (some id)
          (some m2)).objs m1).ref_count = (w.objs m1).ref_count - 1) ∧
    (∀ (id : Option String) (m : Nat), w.item.menu_item = some m →
      callsSince w (gtk_tool_item_set_proxy_menu_item w GtkToolItemPtr.item id (some m)) = [] ∧
      (gtk_tool_item_set_proxy_menu_item w GtkToolItemPtr.item id (some m)).objs = w.objs) := by
  refine ⟨?_, ?_, ?_⟩
  · intro a
    obtain ⟨objs, actions, next, events, hr⟩ := h
    have hb := proxyRun_keeps_balance events (gtk_tool_item_new objs actions next) a
    rw [hr] at hb
    have h0 : refBalance (gtk_tool_item_new objs actions next) a = 0 := by
      simp [refBalance, refsTaken, refsReleased, gtk_tool_item_new, gtk_tool_item_init]
    rw [h0] at hb
    unfold refBalance at hb
    split at hb <;> split <;> simp_all <;> omega
  · intro id m1 m2 hs hne hm
    have hm' : ∀ a, some m2 = some a → GTK_IS_MENU_ITEM w a = true := by
      intro a ha
      cases ha
      exact hm
    have hne' : ¬ m1 = m2 := fun e => hne e.symm
    constructor
    · apply callsSince_of_log
      rw [set_proxy_log w id (some m2) hm']
      simp [proxyRefCalls, hs, hne']
    · unfold gtk_tool_item_set_proxy_menu_item
      simp [GTK_IS_TOOL_ITEM, hm, hs, hne', g_object_unref, g_object_ref_sink,
        gtk_widget_set_sensitive, setObj]
  · intro id m hs
    by_cases hm : GTK_IS_MENU_ITEM w m = true
    · cases id with
      | none =>
        rw [set_proxy_rejected w _ none _ (Or.inr (Or.inl rfl))]
        simp [callsSince]
      | some id =>
        constructor
        · apply callsSince_of_log
          rw [set_proxy_log w id (some m) (by intro a ha; cases ha; exact hm)]
          simp [proxyRefCalls, hs]
        · unfold gtk_tool_item_set_proxy_menu_item
          simp [GTK_IS_TOOL_ITEM, hm, hs]
    · rw [set_proxy_rejected w _ id _ (Or.inr (Or.inr ⟨m, rfl, by simpa using hm⟩))]
      simp [callsSince]

/-- C22, after scenario S3 around a handler run: the item holds one reference on
the stored menu item `2`; it took and released one on menu item `0` and two on
the menu item `100` created by the handler (the handler's own and the item's);
installing `2` again makes no call. -/
theorem item_holds_one_reference_on_proxy_witness :
    ProxyReachable proxyRunWorld ∧
    proxyRunWorld.item.menu_item = some 2 ∧
    refsTaken proxyRunWorld 2 = refsReleased proxyRunWorld 2 + 1 ∧
    refsTaken proxyRunWorld 0 = refsReleased proxyRunWorld 0 ∧
    refsTaken proxyRunWorld 100 = refsReleased proxyRunWorld 100 ∧
    callsSince proxyRunWorld
      (gtk_tool_item_set_proxy_menu_item proxyRunWorld GtkToolItemPtr.item (some "c") (some 2))
      = [] :=
  have hr : ProxyReachable proxyRunWorld := ⟨_, _, 100, proxyEvents, rfl⟩
  have h := item_holds_one_reference_on_proxy proxyRunWorld hr
  ⟨hr, by decide, h.1 2, h.1 0, h.1 100, (h.2.2 (some "c") 2 (by decide)).1⟩

end Gtk
